import Mathlib

/-!
Budget application backend: the transaction engine, accounts, categories, budgets,
goals and the period queries of the analytics and of the dashboard.

A shallow embedding of the route handlers of `src/routes/transactions.js`,
`src/routes/categories.js`, `src/routes/accounts.js`, `src/routes/budgets.js` and
`src/routes/goals.js`, of the queries of `src/routes/analytics.js` and
`src/routes/dashboard.js` that the theorems are about, and of the chain on `amount` of
`src/middleware/validation.js`.  The routes of `src/routes/users.js` and
`src/routes/auth.js` write the table of users only and are not part of the model.

The database is a record of tables, each table a list of rows in insertion order.
A route handler is a function from the database (and the authenticated user id and
the request) to a response and the database after the request.  Monetary values are
whole counts of one unit, which is 1 when the amounts are whole and a fixed power of two
otherwise.  The handlers of the transaction routes are given with exact sums and, in
the section on double precision, with every sum rounded as the REAL values of SQLite and
the numbers of JavaScript are; the two agree where no sum needs rounding.  Ratios are
exact rationals; dates of transactions and budgets are the stored text, compared as
text; the bookkeeping columns `createdAt` and `updatedAt` are not part of the model.
-/

namespace BudgetApp

/-! ## Data model -/

/-- Account types accepted by `validateAccount`. -/
inductive AccountType
  | checking
  | savings
  | credit
  | mobile
  deriving DecidableEq, Repr

/-- Category types accepted by `validateCategory`. -/
inductive CategoryType
  | income
  | expense
  deriving DecidableEq, Repr

/-- A row of the `accounts` table. -/
structure Account where
  id : Nat
  userId : Nat
  name : String
  bank : String
  type : AccountType
  balance : Int
  deriving DecidableEq, Repr

/-- A row of the `categories` table. -/
structure Category where
  id : Nat
  name : String
  type : CategoryType
  color : String
  deriving DecidableEq, Repr

/-- A row of the `transactions` table; `notes` is nullable. -/
structure Transaction where
  id : Nat
  userId : Nat
  accountId : Nat
  categoryId : Nat
  description : String
  amount : Int
  date : String
  notes : Option String
  deriving DecidableEq, Repr

/-- A row of the `budgets` table. -/
structure Budget where
  id : Nat
  userId : Nat
  categoryId : Nat
  amount : Int
  period : String
  startDate : String
  endDate : String
  deriving DecidableEq, Repr

/-- A row of the `goals` table; `description` and `deadline` are nullable.  The deadline
is kept as the instant `new Date(deadline)` denotes, in milliseconds. -/
structure Goal where
  id : Nat
  userId : Nat
  title : String
  description : Option String
  targetAmount : Int
  currentAmount : Int
  deadline : Option Int
  category : String
  deriving DecidableEq, Repr

/-- The database: one list of rows per table. -/
structure Db where
  accounts : List Account
  categories : List Category
  transactions : List Transaction
  budgets : List Budget
  goals : List Goal := []
  deriving DecidableEq, Repr

/-- The database with no row in any table. -/
def Db.empty : Db :=
  { accounts := [], categories := [], transactions := [], budgets := [] }

/-! ## Requests and responses -/

/-- Error codes sent by the handlers modelled here. -/
inductive ErrorCode
  | TRANSACTION_NOT_FOUND
  | ACCOUNT_NOT_FOUND
  | CATEGORY_NOT_FOUND
  | CATEGORY_TYPE_MISMATCH
  | INSUFFICIENT_FUNDS
  | ACCOUNT_NAME_EXISTS
  | CATEGORY_ALREADY_EXISTS
  | CATEGORY_IN_USE
  | BUDGET_NOT_FOUND
  | INVALID_CATEGORY_TYPE
  | OVERLAPPING_BUDGET
  | INVALID_CONTRIBUTION_AMOUNT
  | GOAL_NOT_FOUND
  | INTERNAL_ERROR
  | ACCOUNT_HAS_TRANSACTIONS
  | VALIDATION_ERROR
  | SQLITE_ERROR
  deriving DecidableEq, Repr

/-- The `details` object of an error response: the balances reported with
`INSUFFICIENT_FUNDS` by the create handler, and the counts reported with
`CATEGORY_IN_USE`. -/
inductive Details
  | funds (currentBalance transactionAmount resultingBalance : Int)
  | transactionCount (count : Nat)
  | budgetCount (count : Nat)
  deriving DecidableEq, Repr

/-- What a handler sends back: on success the HTTP status and the id of the row the
request created or acted on; on failure the HTTP status, the error code and the
optional details. -/
inductive Response
  | success (status : Nat) (rowId : Nat)
  | failure (status : Nat) (code : ErrorCode) (details : Option Details)
  deriving DecidableEq, Repr

/-- The error code of a response, if it is a failure. -/
def Response.code? : Response → Option ErrorCode
  | .success _ _ => none
  | .failure _ code _ => some code

/-- Whether a response is a failure. -/
def Response.isError : Response → Bool
  | .success _ _ => false
  | .failure _ _ _ => true

/-- The body of `POST /transactions` and `PUT /transactions/:id` after
`validateTransaction`; `notes` is optional. -/
structure TransactionBody where
  description : String
  amount : Int
  categoryId : Nat
  accountId : Nat
  date : String
  notes : Option String
  deriving DecidableEq, Repr

/-- The body of `POST /transactions/:id/duplicate`; both fields are optional. -/
structure DuplicateBody where
  date : Option String
  description : Option String
  deriving DecidableEq, Repr

/-- JavaScript `x || d` on an optional string: `undefined` and the empty string are
falsy and give `d`. -/
def jsOr (x : Option String) (d : String) : String :=
  match x with
  | none => d
  | some s => if s = "" then d else s

/-- JavaScript `x || null` on an optional string. -/
def jsOrNull (x : Option String) : Option String :=
  match x with
  | none => none
  | some s => if s = "" then none else some s

/-! ## Storage primitives -/

/-- The largest number of a list, `0` for the empty list. -/
def maxId : List Nat → Nat
  | [] => 0
  | x :: xs => max x (maxId xs)

/-- The row id the storage engine gives to a row inserted into a table whose rows
have the ids `ids`: one more than the largest id in the table. -/
def lastInsertRowid (ids : List Nat) : Nat :=
  maxId ids + 1

/-- `SELECT id, name, balance, type FROM accounts WHERE id = ? AND userId = ?`. -/
def findAccount (db : Db) (accountId userId : Nat) : Option Account :=
  db.accounts.find? (fun a => decide (a.id = accountId ∧ a.userId = userId))

/-- `SELECT id, name, type FROM categories WHERE id = ?`. -/
def findCategory (db : Db) (categoryId : Nat) : Option Category :=
  db.categories.find? (fun c => decide (c.id = categoryId))

/-- `SELECT ... FROM transactions WHERE id = ? AND userId = ?`. -/
def findTransaction (db : Db) (id userId : Nat) : Option Transaction :=
  db.transactions.find? (fun t => decide (t.id = id ∧ t.userId = userId))

/-- `INSERT INTO transactions (userId, accountId, categoryId, description, amount, date,
notes) VALUES (?, ?, ?, ?, ?, ?, ?)`: the new row id and the database with the row. -/
def insertTransaction (db : Db) (userId accountId categoryId : Nat) (description : String)
    (amount : Int) (date : String) (notes : Option String) : Nat × Db :=
  let rowId := lastInsertRowid (db.transactions.map (fun t => t.id))
  (rowId,
    { db with
      transactions := db.transactions ++
        [{ id := rowId, userId := userId, accountId := accountId, categoryId := categoryId,
           description := description, amount := amount, date := date, notes := notes }] })

/-- `UPDATE accounts SET balance = balance + ? WHERE id = ?`, the sum made exactly.
The column is a REAL and SQLite adds in double precision, so this is the statement for
a balance, an amount and a sum that are whole counts of one unit below `2 ^ 53` in
absolute value; `updateBalanceF` rounds the sum as a double does. -/
def updateBalance (db : Db) (amount : Int) (accountId : Nat) : Db :=
  { db with
    accounts := db.accounts.map
      (fun a => if a.id = accountId then { a with balance := a.balance + amount } else a) }

/-- `UPDATE accounts SET balance = balance - ? WHERE id = ?`, the difference made
exactly, under the same condition as `updateBalance`; `revertBalanceF` rounds the
difference as a double does. -/
def revertBalance (db : Db) (amount : Int) (accountId : Nat) : Db :=
  { db with
    accounts := db.accounts.map
      (fun a => if a.id = accountId then { a with balance := a.balance - amount } else a) }

/-- `UPDATE transactions SET description = ?, amount = ?, categoryId = ?, accountId = ?,
date = ?, notes = ? WHERE id = ? AND userId = ?`. -/
def updateTransactionRow (db : Db) (description : String) (amount : Int)
    (categoryId accountId : Nat) (date : String) (notes : Option String)
    (id userId : Nat) : Db :=
  { db with
    transactions := db.transactions.map
      (fun t => if t.id = id ∧ t.userId = userId then
          { t with description := description, amount := amount, categoryId := categoryId,
                   accountId := accountId, date := date, notes := notes }
        else t) }

/-- `DELETE FROM transactions WHERE id = ? AND userId = ?`. -/
def deleteTransactionRow (db : Db) (id userId : Nat) : Db :=
  { db with
    transactions := db.transactions.filter
      (fun t => !decide (t.id = id ∧ t.userId = userId)) }

/-! ## The transaction routes -/

/-- `POST /transactions` (transactions.js, lines 216-328) for a body that passed
`validateTransaction` and whose `amount` is a JSON number, the sums being exact (whole
counts of one unit below `2 ^ 53`).  `createTransactionF` is the handler with the sums
rounded as doubles are, `createTransactionText` the handler for an `amount` sent as a
numeric string, which the validation chain lets through. -/
def createTransaction (db : Db) (userId : Nat) (body : TransactionBody) : Response × Db :=
  match findAccount db body.accountId userId with
  | none => (.failure 404 .ACCOUNT_NOT_FOUND none, db)
  | some account =>
    match findCategory db body.categoryId with
    | none => (.failure 404 .CATEGORY_NOT_FOUND none, db)
    | some category =>
      if body.amount > 0 ∧ category.type ≠ .income then
        (.failure 400 .CATEGORY_TYPE_MISMATCH none, db)
      else if body.amount < 0 ∧ category.type ≠ .expense then
        (.failure 400 .CATEGORY_TYPE_MISMATCH none, db)
      else if body.amount < 0 ∧ account.type ≠ .credit ∧ account.balance + body.amount < 0 then
        (.failure 400 .INSUFFICIENT_FUNDS
          (some (.funds account.balance body.amount (account.balance + body.amount))), db)
      else
        let inserted := insertTransaction db userId body.accountId body.categoryId
          body.description body.amount body.date (jsOrNull body.notes)
        (.success 201 inserted.1, updateBalance inserted.2 body.amount body.accountId)

/-- `PUT /transactions/:id` (transactions.js, lines 366-496) for a body that passed
`validateTransaction` and whose `accountId` is a JSON number, so that the strict
comparison `existingTransaction.accountId === accountId` is the equality of the two
ids, the sums being exact.  `updateTransactionF` is the handler with the sums rounded as
doubles are and with the `accountId` sent as a number or as a string, for which the
strict comparison is false. -/
def updateTransaction (db : Db) (userId id : Nat) (body : TransactionBody) : Response × Db :=
  match findTransaction db id userId with
  | none => (.failure 404 .TRANSACTION_NOT_FOUND none, db)
  | some existingTransaction =>
    match findAccount db body.accountId userId with
    | none => (.failure 404 .ACCOUNT_NOT_FOUND none, db)
    | some _ =>
      match findCategory db body.categoryId with
      | none => (.failure 404 .CATEGORY_NOT_FOUND none, db)
      | some category =>
        if body.amount > 0 ∧ category.type ≠ .income then
          (.failure 400 .CATEGORY_TYPE_MISMATCH none, db)
        else if body.amount < 0 ∧ category.type ≠ .expense then
          (.failure 400 .CATEGORY_TYPE_MISMATCH none, db)
        else
          let db1 :=
            if existingTransaction.accountId = body.accountId then
              updateBalance db (body.amount - existingTransaction.amount) body.accountId
            else
              updateBalance
                (revertBalance db existingTransaction.amount existingTransaction.accountId)
                body.amount body.accountId
          (.success 200 id,
            updateTransactionRow db1 body.description body.amount body.categoryId
              body.accountId body.date (jsOrNull body.notes) id userId)

/-- `DELETE /transactions/:id` (transactions.js, lines 499-551), the difference being
exact; `deleteTransactionF` rounds it as a double does. -/
def deleteTransaction (db : Db) (userId id : Nat) : Response × Db :=
  match findTransaction db id userId with
  | none => (.failure 404 .TRANSACTION_NOT_FOUND none, db)
  | some existingTransaction =>
    (.success 200 id,
      deleteTransactionRow
        (revertBalance db existingTransaction.amount existingTransaction.accountId) id userId)

/-- `POST /transactions/:id/duplicate` (transactions.js, lines 554-664), the sums
being exact; `today` is `new Date().toISOString().split("T")[0]`.
`duplicateTransactionF` rounds the sums as doubles are. -/
def duplicateTransaction (db : Db) (userId id : Nat) (body : DuplicateBody)
    (today : String) : Response × Db :=
  match findTransaction db id userId with
  | none => (.failure 404 .TRANSACTION_NOT_FOUND none, db)
  | some originalTransaction =>
    match findAccount db originalTransaction.accountId userId with
    | none => (.failure 404 .ACCOUNT_NOT_FOUND none, db)
    | some account =>
      let transactionDate := jsOr body.date today
      let description := jsOr body.description (originalTransaction.description ++ " (copie)")
      if originalTransaction.amount < 0 ∧ account.type ≠ .credit ∧
          account.balance + originalTransaction.amount < 0 then
        (.failure 400 .INSUFFICIENT_FUNDS none, db)
      else
        let inserted := insertTransaction db userId originalTransaction.accountId
          originalTransaction.categoryId description originalTransaction.amount
          transactionDate originalTransaction.notes
        (.success 201 inserted.1,
          updateBalance inserted.2 originalTransaction.amount originalTransaction.accountId)

/-! ## The category and account routes used to reach a state -/

/-- `POST /categories` (categories.js, lines 63-98); `color` defaults to `#3B82F6`. -/
def createCategory (db : Db) (name : String) (type : CategoryType)
    (color : Option String) : Response × Db :=
  match db.categories.find? (fun c => decide (c.name = name)) with
  | some _ => (.failure 409 .CATEGORY_ALREADY_EXISTS none, db)
  | none =>
    let rowId := lastInsertRowid (db.categories.map (fun c => c.id))
    (.success 201 rowId,
      { db with
        categories := db.categories ++
          [{ id := rowId, name := name, type := type, color := color.getD "#3B82F6" }] })

/-- `PUT /categories/:id` (categories.js, lines 101-147), for a request that carries a
color. -/
def updateCategory (db : Db) (id : Nat) (name : String) (type : CategoryType)
    (color : String) : Response × Db :=
  match findCategory db id with
  | none => (.failure 404 .CATEGORY_NOT_FOUND none, db)
  | some _ =>
    match db.categories.find? (fun c => decide (c.name = name ∧ c.id ≠ id)) with
    | some _ => (.failure 409 .CATEGORY_ALREADY_EXISTS none, db)
    | none =>
      (.success 200 id,
        { db with
          categories := db.categories.map
            (fun c => if c.id = id then { c with name := name, type := type, color := color }
              else c) })

/-- `DELETE /categories/:id` (categories.js, lines 150-197). -/
def deleteCategory (db : Db) (id : Nat) : Response × Db :=
  match findCategory db id with
  | none => (.failure 404 .CATEGORY_NOT_FOUND none, db)
  | some _ =>
    let transactionCount :=
      (db.transactions.filter (fun t => decide (t.categoryId = id))).length
    if transactionCount > 0 then
      (.failure 409 .CATEGORY_IN_USE (some (.transactionCount transactionCount)), db)
    else
      let budgetCount := (db.budgets.filter (fun b => decide (b.categoryId = id))).length
      if budgetCount > 0 then
        (.failure 409 .CATEGORY_IN_USE (some (.budgetCount budgetCount)), db)
      else
        (.success 200 id,
          { db with categories := db.categories.filter (fun c => !decide (c.id = id)) })

/-- `POST /accounts` (accounts.js, lines 108-149); `balance` defaults to `0`. -/
def createAccount (db : Db) (userId : Nat) (name bank : String) (type : AccountType)
    (balance : Option Int) : Response × Db :=
  match db.accounts.find? (fun a => decide (a.name = name ∧ a.userId = userId)) with
  | some _ => (.failure 409 .ACCOUNT_NAME_EXISTS none, db)
  | none =>
    let rowId := lastInsertRowid (db.accounts.map (fun a => a.id))
    (.success 201 rowId,
      { db with
        accounts := db.accounts ++
          [{ id := rowId, userId := userId, name := name, bank := bank, type := type,
             balance := balance.getD 0 }] })

/-! ## Sequences of requests -/

/-- A call of one of the four mutating transaction routes. -/
inductive TxOp
  | create (userId : Nat) (body : TransactionBody)
  | update (userId id : Nat) (body : TransactionBody)
  | delete (userId id : Nat)
  | duplicate (userId id : Nat) (body : DuplicateBody) (today : String)
  deriving DecidableEq, Repr

/-- The response and the database after one transaction call. -/
def TxOp.handle (db : Db) : TxOp → Response × Db
  | .create userId body => createTransaction db userId body
  | .update userId id body => updateTransaction db userId id body
  | .delete userId id => deleteTransaction db userId id
  | .duplicate userId id body today => duplicateTransaction db userId id body today

/-- The database after a sequence of transaction calls, each succeeding or failing. -/
def runTxOps (db : Db) : List TxOp → Db
  | [] => db
  | op :: ops => runTxOps (op.handle db).2 ops

/-- A call of a transaction route, a category route or the account creation route. -/
inductive Request
  | transaction (op : TxOp)
  | createCategory (name : String) (type : CategoryType) (color : Option String)
  | updateCategory (id : Nat) (name : String) (type : CategoryType) (color : String)
  | deleteCategory (id : Nat)
  | createAccount (userId : Nat) (name bank : String) (type : AccountType)
      (balance : Option Int)
  deriving DecidableEq, Repr

/-- The response and the database after one request. -/
def Request.handle (db : Db) : Request → Response × Db
  | .transaction op => op.handle db
  | .createCategory name type color => BudgetApp.createCategory db name type color
  | .updateCategory id name type color => BudgetApp.updateCategory db id name type color
  | .deleteCategory id => BudgetApp.deleteCategory db id
  | .createAccount userId name bank type balance =>
    BudgetApp.createAccount db userId name bank type balance

/-- The database after a sequence of requests. -/
def runRequests (db : Db) : List Request → Db
  | [] => db
  | r :: rs => runRequests (r.handle db).2 rs

/-! ## Observations on a database -/

/-- The balance of the account with the given id, if there is one. -/
def balanceOf (db : Db) (accountId : Nat) : Option Int :=
  (db.accounts.find? (fun a => decide (a.id = accountId))).map (fun a => a.balance)

/-- The type of the account with the given id, if there is one. -/
def accountTypeOf (db : Db) (accountId : Nat) : Option AccountType :=
  (db.accounts.find? (fun a => decide (a.id = accountId))).map (fun a => a.type)

/-- The sum of the amounts of the rows of a transaction list that are on an account. -/
def amountsOn (ts : List Transaction) (accountId : Nat) : Int :=
  ((ts.filter (fun t => decide (t.accountId = accountId))).map (fun t => t.amount)).sum

/-- The transactions that currently exist on an account. -/
def transactionsOn (db : Db) (accountId : Nat) : List Transaction :=
  db.transactions.filter (fun t => decide (t.accountId = accountId))

/-- The sum of the amounts of the transactions that currently exist on an account. -/
def sumOfAmounts (db : Db) (accountId : Nat) : Int :=
  amountsOn db.transactions accountId

/-- Primary key of `transactions`: no two rows share an id. -/
def TransactionIdsUnique (db : Db) : Prop :=
  (db.transactions.map (fun t => t.id)).Nodup

/-- Primary key of `accounts`: no two rows share an id. -/
def AccountIdsUnique (db : Db) : Prop :=
  (db.accounts.map (fun a => a.id)).Nodup

/-- The sign of an amount matches a category type: a positive amount needs an income
category, a negative amount an expense category. -/
def signMatches (amount : Int) (type : CategoryType) : Prop :=
  (amount > 0 → type = .income) ∧ (amount < 0 → type = .expense)

/-- Sign-category consistency of a database: every transaction whose category row
exists has an amount whose sign matches the type of that category. -/
def SignConsistent (db : Db) : Prop :=
  ∀ t ∈ db.transactions, ∀ c ∈ db.categories, c.id = t.categoryId →
    signMatches t.amount c.type

/-- The balance an account would have without the transactions currently on it. -/
def ledgerBase (db : Db) (accountId : Nat) : Option Int :=
  (balanceOf db accountId).map (fun b => b - sumOfAmounts db accountId)

instance (db : Db) : Decidable (TransactionIdsUnique db) := by
  unfold TransactionIdsUnique; infer_instance

instance (db : Db) : Decidable (AccountIdsUnique db) := by
  unfold AccountIdsUnique; infer_instance

instance (amount : Int) (type : CategoryType) : Decidable (signMatches amount type) := by
  unfold signMatches; infer_instance

instance (db : Db) : Decidable (SignConsistent db) := by
  unfold SignConsistent; infer_instance

/-! ## Example states -/

/-- A checking account with balance 70000 and an expense category. -/
def fundsExampleDb : Db :=
  { accounts := [{ id := 1, userId := 1, name := "BOA", bank := "BOA", type := .checking,
                   balance := 70000 }],
    categories := [{ id := 1, name := "Logement", type := .expense, color := "#3B82F6" }],
    transactions := [], budgets := [] }

/-- An expense of 80000 on account 1. -/
def fundsExampleBody : TransactionBody :=
  { description := "Loyer", amount := -80000, categoryId := 1, accountId := 1,
    date := "2024-03-01", notes := none }

/-- Account 1 (checking, balance 50000, no transaction) and account 2 (credit) with one
transaction, together with an income and an expense category. -/
def ledgerExampleDb : Db :=
  { accounts :=
      [{ id := 1, userId := 1, name := "BOA", bank := "BOA", type := .checking,
         balance := 50000 },
       { id := 2, userId := 1, name := "Carte", bank := "CBAO", type := .credit,
         balance := -20000 }],
    categories :=
      [{ id := 1, name := "Salaire", type := .income, color := "#3B82F6" },
       { id := 2, name := "Logement", type := .expense, color := "#3B82F6" }],
    transactions :=
      [{ id := 1, userId := 1, accountId := 2, categoryId := 2, description := "Loyer",
         amount := -20000, date := "2024-03-01", notes := none }],
    budgets := [] }

/-- A sequence of calls on `ledgerExampleDb`: an income and an expense on account 1, an
expense that fails for lack of funds, a move of transaction 1 from account 2 to
account 1, a duplication, a deletion and a deletion that fails. -/
def ledgerExampleOps : List TxOp :=
  [.create 1 { description := "Salaire", amount := 100000, categoryId := 1, accountId := 1,
               date := "2024-03-01", notes := none },
   .create 1 { description := "Courses", amount := -30000, categoryId := 2, accountId := 1,
               date := "2024-03-02", notes := some "Marché" },
   .create 1 { description := "Voiture", amount := -900000, categoryId := 2, accountId := 1,
               date := "2024-03-03", notes := none },
   .update 1 1 { description := "Loyer", amount := -25000, categoryId := 2, accountId := 1,
                 date := "2024-03-01", notes := none },
   .duplicate 1 3 { date := none, description := none } "2024-03-10",
   .delete 1 2,
   .delete 1 2]

/-- A checking account with balance 100000 and an expense category. -/
def createExampleDb : Db :=
  { accounts := [{ id := 1, userId := 1, name := "BOA", bank := "BOA", type := .checking,
                   balance := 100000 }],
    categories := [{ id := 1, name := "Logement", type := .expense, color := "#3B82F6" }],
    transactions := [], budgets := [] }

/-- An expense of 30000 on account 1. -/
def createExampleBody : TransactionBody :=
  { description := "Loyer", amount := -30000, categoryId := 1, accountId := 1,
    date := "2024-03-01", notes := some "Mars" }

/-- The expense of `createExampleBody` with notes sent as the empty string. -/
def emptyNotesBody : TransactionBody :=
  { description := "Loyer", amount := -30000, categoryId := 1, accountId := 1,
    date := "2024-03-01", notes := some "" }

/-- From the empty database: open an account, create the income category "Salaire",
record a salary of 850000 in it, then update the category to type expense. -/
def retypeCategoryRequests : List Request :=
  [.createAccount 1 "BOA" "BOA" .checking (some 0),
   .createCategory "Salaire" .income none,
   .transaction (.create 1 { description := "Salaire mensuel", amount := 850000,
                             categoryId := 1, accountId := 1, date := "2024-01-01",
                             notes := none }),
   .updateCategory 1 "Salaire" .expense "#3B82F6"]

/-- From the empty database: open a checking account with balance 0, create an income
and an expense category, record an income of 50000 and then an expense of 50000. -/
def spendIncomeRequests : List Request :=
  [.createAccount 1 "BOA" "BOA" .checking none,
   .createCategory "Salaire" .income none,
   .createCategory "Logement" .expense none,
   .transaction (.create 1 { description := "Salaire", amount := 50000, categoryId := 1,
                             accountId := 1, date := "2024-01-01", notes := none }),
   .transaction (.create 1 { description := "Loyer", amount := -50000, categoryId := 2,
                             accountId := 1, date := "2024-01-02", notes := none })]

/-- From the empty database: open a checking account with balance 100000, create an
expense category and record an expense of 30000, which leaves a balance of 70000. -/
def oneExpenseRequests : List Request :=
  [.createAccount 1 "BOA" "BOA" .checking (some 100000),
   .createCategory "Logement" .expense none,
   .transaction (.create 1 { description := "Loyer", amount := -30000, categoryId := 1,
                             accountId := 1, date := "2024-03-01", notes := none })]

/-- The expense of `oneExpenseRequests` raised to 200000. -/
def raisedExpenseBody : TransactionBody :=
  { description := "Loyer", amount := -200000, categoryId := 1, accountId := 1,
    date := "2024-03-01", notes := none }

/-- Two accounts of user 1 and one of user 2, with one expense on account 1. -/
def moveExampleDb : Db :=
  { accounts :=
      [{ id := 1, userId := 1, name := "BOA", bank := "BOA", type := .checking,
         balance := 70000 },
       { id := 2, userId := 1, name := "Livret", bank := "SGBS", type := .savings,
         balance := 400000 },
       { id := 3, userId := 2, name := "BOA", bank := "BOA", type := .checking,
         balance := 5000 }],
    categories := [{ id := 1, name := "Logement", type := .expense, color := "#3B82F6" }],
    transactions :=
      [{ id := 1, userId := 1, accountId := 1, categoryId := 1, description := "Loyer",
         amount := -30000, date := "2024-03-01", notes := none }],
    budgets := [] }

/-- Transaction 1 of `moveExampleDb` moved to account 2 with amount -45000. -/
def moveExampleBody : TransactionBody :=
  { description := "Loyer", amount := -45000, categoryId := 1, accountId := 2,
    date := "2024-03-01", notes := none }

/-- Transaction 1 of `moveExampleDb`. -/
def moveExampleOld : Transaction :=
  { id := 1, userId := 1, accountId := 1, categoryId := 1, description := "Loyer",
    amount := -30000, date := "2024-03-01", notes := none }

/-- A checking account with balance 20000 carrying an expense of 30000. -/
def tightExampleDb : Db :=
  { accounts := [{ id := 1, userId := 1, name := "BOA", bank := "BOA", type := .checking,
                   balance := 20000 }],
    categories := [{ id := 1, name := "Logement", type := .expense, color := "#3B82F6" }],
    transactions :=
      [{ id := 1, userId := 1, accountId := 1, categoryId := 1, description := "Loyer",
         amount := -30000, date := "2024-03-01", notes := none }],
    budgets := [] }

/-! ## Similar transactions -/

/-- What a read handler sends back: the HTTP status with the data, or the HTTP status
with an error code. -/
inductive Reply (α : Type)
  | data (status : Nat) (value : α)
  | error (status : Nat) (code : ErrorCode)
  deriving DecidableEq, Repr

/-- SQL `a <= b` on two TEXT values (dates are stored as text): the lexicographic order
of the characters. -/
def textLe (a b : String) : Prop :=
  a.toList ≤ b.toList

instance : DecidableRel textLe := by
  intro a b; unfold textLe; infer_instance

/-- `ABS(t.amount - ?) < ?` with the bound `Math.abs(referenceTransaction.amount) * 0.1`,
in exact arithmetic: ten times the distance to the reference amount is less than the
absolute value of the reference amount. -/
def withinTolerance (amount reference : Int) : Prop :=
  10 * (amount - reference).natAbs < reference.natAbs

instance (amount reference : Int) : Decidable (withinTolerance amount reference) := by
  unfold withinTolerance; infer_instance

/-- The `CASE` expression of the `ORDER BY` clause of the similar-transactions query. -/
def similarRank (reference t : Transaction) : Nat :=
  if t.description = reference.description then 1
  else if t.categoryId = reference.categoryId ∧
      withinTolerance t.amount reference.amount then 2
  else 3

/-- The three criteria of the `WHERE` clause of the similar-transactions query. -/
def similarCriteria (reference t : Transaction) : Prop :=
  t.description = reference.description ∨
  (t.categoryId = reference.categoryId ∧ withinTolerance t.amount reference.amount) ∨
  t.accountId = reference.accountId

instance (reference t : Transaction) : Decidable (similarCriteria reference t) := by
  unfold similarCriteria; infer_instance

/-- The order of the `ORDER BY` clause: by rank, then by date descending. -/
def similarBefore (reference a b : Transaction) : Prop :=
  similarRank reference a < similarRank reference b ∨
  (similarRank reference a = similarRank reference b ∧ textLe b.date a.date)

instance (reference : Transaction) : DecidableRel (similarBefore reference) := by
  intro a b; unfold similarBefore; infer_instance

/-- SQL `LIMIT n`: a negative `n` puts no bound on the number of rows. -/
def sqlLimit {α : Type} (n : Int) (rows : List α) : List α :=
  if n < 0 then rows else rows.take n.toNat

/-- `GET /transactions/:id/similar` (transactions.js, lines 661-736); `limit` is
`Number.parseInt` of the query parameter, which defaults to 10.  The rows are the
transactions of the joined result. -/
def findSimilar (db : Db) (userId id : Nat) (limit : Option Int) :
    Reply (List Transaction) :=
  match findTransaction db id userId with
  | none => .error 404 .TRANSACTION_NOT_FOUND
  | some referenceTransaction =>
    let joined := db.transactions.filter (fun t =>
      decide ((db.categories.find? (fun c => decide (c.id = t.categoryId))).isSome ∧
        (db.accounts.find? (fun a => decide (a.id = t.accountId))).isSome))
    let selected := joined.filter (fun t =>
      decide (t.userId = userId ∧ t.id ≠ id ∧ similarCriteria referenceTransaction t))
    let ordered := selected.insertionSort (similarBefore referenceTransaction)
    .data 200 (sqlLimit (limit.getD 10) ordered)

/-- Four transactions of user 1 and one of user 2, on two accounts and two
categories. -/
def similarExampleDb : Db :=
  { accounts :=
      [{ id := 1, userId := 1, name := "BOA", bank := "BOA", type := .checking,
         balance := 500000 },
       { id := 2, userId := 1, name := "Orange Money", bank := "Orange", type := .mobile,
         balance := 85000 },
       { id := 3, userId := 2, name := "BOA", bank := "BOA", type := .checking,
         balance := 5000 }],
    categories :=
      [{ id := 1, name := "Transport", type := .expense, color := "#3B82F6" },
       { id := 2, name := "Alimentation", type := .expense, color := "#3B82F6" }],
    transactions :=
      [{ id := 1, userId := 1, accountId := 2, categoryId := 1, description := "Essence",
         amount := -25000, date := "2024-01-03", notes := none },
       { id := 2, userId := 1, accountId := 2, categoryId := 2, description := "Courses",
         amount := -85000, date := "2024-02-05", notes := none },
       { id := 3, userId := 1, accountId := 1, categoryId := 1, description := "Taxi",
         amount := -26000, date := "2024-02-07", notes := none },
       { id := 4, userId := 1, accountId := 1, categoryId := 1, description := "Essence",
         amount := -40000, date := "2024-03-07", notes := none },
       { id := 5, userId := 2, accountId := 3, categoryId := 1, description := "Essence",
         amount := -25000, date := "2024-03-08", notes := none },
       { id := 6, userId := 1, accountId := 1, categoryId := 1, description := "Essence",
         amount := -30000, date := "2024-01-20", notes := none }],
    budgets := [] }

/-- Transaction 1 of `similarExampleDb`, the reference of the examples. -/
def similarReference : Transaction :=
  { id := 1, userId := 1, accountId := 2, categoryId := 1, description := "Essence",
    amount := -25000, date := "2024-01-03", notes := none }

/-- The HTTP status of a reply. -/
def Reply.status {α : Type} : Reply α → Nat
  | .data status _ => status
  | .error status _ => status

/-! ## Budgets -/

/-- The `status` of a budget in a response. -/
inductive BudgetStatus
  | over
  | warning
  | good
  deriving DecidableEq, Repr

/-- The computed fields a budget carries in a response. -/
structure BudgetView where
  spent : Int
  remaining : Int
  percentage : ℚ
  isOverBudget : Bool
  status : BudgetStatus
  deriving DecidableEq, Repr

/-- The evaluation of a budget from its amount and the amount spent (budgets.js, lines
54-64, 131-143 and 324-337; analytics.js, lines 187-198).  The status is taken from the
percentage before it is capped at 100. -/
def evaluateBudget (amount spent : Int) : BudgetView :=
  let percentage : ℚ := if amount > 0 then ((spent : ℚ) / (amount : ℚ)) * 100 else 0
  let remaining := amount - spent
  let isOverBudget := decide (spent > amount)
  { spent := spent,
    remaining := max 0 remaining,
    percentage := min 100 percentage,
    isOverBudget := isOverBudget,
    status := if isOverBudget then .over else if percentage > 80 then .warning else .good }

/-- SQL `SUM(ABS(amount))` over rows: `NULL` (here `none`) when there is no row. -/
def sqlSumAbs (rows : List Transaction) : Option Int :=
  rows.foldl (fun acc t => some (acc.getD 0 + (t.amount.natAbs : Int))) none

/-- The `WHERE` clause of the spending query: owner, category, negative amount and a
date inside the window, bounds included. -/
def countsAsSpending (userId categoryId : Nat) (startDate endDate : String)
    (t : Transaction) : Prop :=
  t.userId = userId ∧ t.categoryId = categoryId ∧ t.amount < 0 ∧
    textLe startDate t.date ∧ textLe t.date endDate

instance (userId categoryId : Nat) (startDate endDate : String) (t : Transaction) :
    Decidable (countsAsSpending userId categoryId startDate endDate t) := by
  unfold countsAsSpending; infer_instance

/-- `SELECT COALESCE(SUM(ABS(amount)), 0) as spent FROM transactions t WHERE t.userId = ?
AND t.categoryId = ? AND t.amount < 0 AND t.date >= ? AND t.date <= ?`. -/
def spending (db : Db) (userId categoryId : Nat) (startDate endDate : String) : Int :=
  (sqlSumAbs (db.transactions.filter
    (fun t => decide (countsAsSpending userId categoryId startDate endDate t)))).getD 0

/-- The sum of the absolute amounts of the transactions that count as spending, as the
specification words it. -/
def spentSpec (db : Db) (userId categoryId : Nat) (startDate endDate : String) : Int :=
  ((db.transactions.filter
    (fun t => decide (countsAsSpending userId categoryId startDate endDate t))).map
    (fun t => |t.amount|)).sum

/-- `SELECT ... FROM budgets b JOIN categories c ON b.categoryId = c.id WHERE b.id = ? AND
b.userId = ?`: the budget, provided its category row exists. -/
def findBudgetJoined (db : Db) (id userId : Nat) : Option Budget :=
  db.budgets.find? (fun b =>
    decide ((db.categories.find? (fun c => decide (c.id = b.categoryId))).isSome ∧
      b.id = id ∧ b.userId = userId))

/-- The callback of `budgetsWithSpending` (budgets.js, lines 41-66), which
`GET /budgets` maps over the budgets of the caller. -/
def budgetWithSpending (db : Db) (userId : Nat) (budget : Budget) : Budget × BudgetView :=
  (budget, evaluateBudget budget.amount
    (spending db userId budget.categoryId budget.startDate budget.endDate))

/-- `GET /budgets/:id` (budgets.js, lines 78-150), without the list of transactions of
the response. -/
def getBudget (db : Db) (userId id : Nat) : Reply (Budget × BudgetView) :=
  match findBudgetJoined db id userId with
  | none => .error 404 .BUDGET_NOT_FOUND
  | some budget =>
    .data 200 (budget, evaluateBudget budget.amount
      (spending db userId budget.categoryId budget.startDate budget.endDate))

/-- A budget of 50000 on "Transport" for March 2024 with expenses of 30000 and 12500
inside the window, and transactions that do not count: an expense before the window, an
expense of another user, an expense in another category and an income. -/
def budgetExampleDb : Db :=
  { accounts :=
      [{ id := 1, userId := 1, name := "BOA", bank := "BOA", type := .checking,
         balance := 500000 }],
    categories :=
      [{ id := 1, name := "Transport", type := .expense, color := "#3B82F6" },
       { id := 2, name := "Alimentation", type := .expense, color := "#3B82F6" },
       { id := 3, name := "Salaire", type := .income, color := "#3B82F6" }],
    transactions :=
      [{ id := 1, userId := 1, accountId := 1, categoryId := 1, description := "Essence",
         amount := -30000, date := "2024-03-01", notes := none },
       { id := 2, userId := 1, accountId := 1, categoryId := 1, description := "Taxi",
         amount := -12500, date := "2024-03-31", notes := none },
       { id := 3, userId := 1, accountId := 1, categoryId := 1, description := "Essence",
         amount := -28000, date := "2024-02-29", notes := none },
       { id := 4, userId := 2, accountId := 1, categoryId := 1, description := "Essence",
         amount := -9000, date := "2024-03-10", notes := none },
       { id := 5, userId := 1, accountId := 1, categoryId := 2, description := "Courses",
         amount := -45000, date := "2024-03-05", notes := none },
       { id := 6, userId := 1, accountId := 1, categoryId := 3, description := "Salaire",
         amount := 850000, date := "2024-03-01", notes := none }],
    budgets :=
      [{ id := 1, userId := 1, categoryId := 1, amount := 50000, period := "monthly",
         startDate := "2024-03-01", endDate := "2024-03-31" }] }

/-- The budget of `budgetExampleDb`. -/
def budgetExample : Budget :=
  { id := 1, userId := 1, categoryId := 1, amount := 50000, period := "monthly",
    startDate := "2024-03-01", endDate := "2024-03-31" }

/-! ## Budget windows -/

/-- The body of `POST /budgets` and `PUT /budgets/:id` after `validateBudget`. -/
structure BudgetBody where
  categoryId : Nat
  amount : Int
  period : String
  startDate : String
  endDate : String
  deriving DecidableEq, Repr

/-- First clause of the overlap query, `startDate <= ? AND endDate >= ?` with the new
start date: the new start lies inside the existing window. -/
def overlapFirst (existing : Budget) (startDate : String) : Prop :=
  textLe existing.startDate startDate ∧ textLe startDate existing.endDate

/-- Second clause of the overlap query, `startDate <= ? AND endDate >= ?` with the new
end date: the new end lies inside the existing window. -/
def overlapSecond (existing : Budget) (endDate : String) : Prop :=
  textLe existing.startDate endDate ∧ textLe endDate existing.endDate

/-- Third clause of the overlap query, `startDate >= ? AND endDate <= ?`: the existing
window lies inside the new one. -/
def overlapThird (existing : Budget) (startDate endDate : String) : Prop :=
  textLe startDate existing.startDate ∧ textLe existing.endDate endDate

/-- The date condition of the `overlappingBudget` query (budgets.js, lines 184-186 and
279-281). -/
def overlapClauses (existing : Budget) (startDate endDate : String) : Prop :=
  overlapFirst existing startDate ∨ overlapSecond existing endDate ∨
    overlapThird existing startDate endDate

/-- The two-sided interval intersection test of the specification:
`newStart <= existingEnd AND newEnd >= existingStart`. -/
def intersects (existing : Budget) (startDate endDate : String) : Prop :=
  textLe startDate existing.endDate ∧ textLe existing.startDate endDate

instance (existing : Budget) (startDate endDate : String) :
    Decidable (overlapClauses existing startDate endDate) := by
  unfold overlapClauses overlapFirst overlapSecond overlapThird; infer_instance

instance (existing : Budget) (startDate endDate : String) :
    Decidable (intersects existing startDate endDate) := by
  unfold intersects; infer_instance

/-- `SELECT id, categoryId FROM budgets WHERE id = ? AND userId = ?`. -/
def findBudget (db : Db) (id userId : Nat) : Option Budget :=
  db.budgets.find? (fun b => decide (b.id = id ∧ b.userId = userId))

/-- `POST /budgets` (budgets.js, lines 153-230). -/
def createBudget (db : Db) (userId : Nat) (body : BudgetBody) : Response × Db :=
  match findCategory db body.categoryId with
  | none => (.failure 404 .CATEGORY_NOT_FOUND none, db)
  | some category =>
    if category.type ≠ .expense then
      (.failure 400 .INVALID_CATEGORY_TYPE none, db)
    else
      match db.budgets.find? (fun b =>
        decide (b.userId = userId ∧ b.categoryId = body.categoryId ∧
          overlapClauses b body.startDate body.endDate)) with
      | some _ => (.failure 409 .OVERLAPPING_BUDGET none, db)
      | none =>
        let rowId := lastInsertRowid (db.budgets.map (fun b => b.id))
        (.success 201 rowId,
          { db with
            budgets := db.budgets ++
              [{ id := rowId, userId := userId, categoryId := body.categoryId,
                 amount := body.amount, period := body.period,
                 startDate := body.startDate, endDate := body.endDate }] })

/-- `PUT /budgets/:id` (budgets.js, lines 233-343). -/
def updateBudget (db : Db) (userId id : Nat) (body : BudgetBody) : Response × Db :=
  match findBudget db id userId with
  | none => (.failure 404 .BUDGET_NOT_FOUND none, db)
  | some _ =>
    match findCategory db body.categoryId with
    | none => (.failure 404 .CATEGORY_NOT_FOUND none, db)
    | some category =>
      if category.type ≠ .expense then
        (.failure 400 .INVALID_CATEGORY_TYPE none, db)
      else
        match db.budgets.find? (fun b =>
          decide (b.userId = userId ∧ b.categoryId = body.categoryId ∧ b.id ≠ id ∧
            overlapClauses b body.startDate body.endDate)) with
        | some _ => (.failure 409 .OVERLAPPING_BUDGET none, db)
        | none =>
          (.success 200 id,
            { db with
              budgets := db.budgets.map (fun b =>
                if b.id = id ∧ b.userId = userId then
                  { b with categoryId := body.categoryId, amount := body.amount,
                           period := body.period, startDate := body.startDate,
                           endDate := body.endDate }
                else b) })

/-- The end date is after the start date in the order in which SQLite compares the two
stored texts.  `validateBudget` (validation.js, lines 93-99) refuses a body unless
`new Date(endDate) > new Date(startDate)`, a comparison of instants: the two orders
agree on dates written in one format, such as `YYYY-MM-DD`, and can differ when the two
dates are written with different offsets. -/
def validWindow (startDate endDate : String) : Prop :=
  ¬ textLe endDate startDate

instance (startDate endDate : String) : Decidable (validWindow startDate endDate) := by
  unfold validWindow; infer_instance

/-- Every stored budget has its end date after its start date, as texts. -/
def WindowsValid (db : Db) : Prop :=
  ∀ b ∈ db.budgets, validWindow b.startDate b.endDate

/-- Every stored budget refers to an existing category of type expense. -/
def BudgetsOnExpense (db : Db) : Prop :=
  ∀ b ∈ db.budgets,
    (findCategory db b.categoryId).map (fun c => c.type) = some CategoryType.expense

/-- No two distinct budgets of one owner and one category have intersecting windows. -/
def NoOverlap (db : Db) : Prop :=
  ∀ a ∈ db.budgets, ∀ b ∈ db.budgets, a.id ≠ b.id → a.userId = b.userId →
    a.categoryId = b.categoryId → ¬ intersects a b.startDate b.endDate

instance (db : Db) : Decidable (WindowsValid db) := by
  unfold WindowsValid; infer_instance

instance (db : Db) : Decidable (NoOverlap db) := by
  unfold NoOverlap; infer_instance

instance (db : Db) : Decidable (BudgetsOnExpense db) := by
  unfold BudgetsOnExpense; infer_instance

/-- A budget on category 1 from 10 to 20 March 2024 for user 1. -/
def windowExampleDb : Db :=
  { accounts := [],
    categories :=
      [{ id := 1, name := "Transport", type := .expense, color := "#3B82F6" },
       { id := 2, name := "Alimentation", type := .expense, color := "#3B82F6" }],
    transactions := [],
    budgets :=
      [{ id := 1, userId := 1, categoryId := 1, amount := 50000, period := "monthly",
         startDate := "2024-03-10", endDate := "2024-03-20" }] }

/-- The budget of `windowExampleDb`. -/
def windowExample : Budget :=
  { id := 1, userId := 1, categoryId := 1, amount := 50000, period := "monthly",
    startDate := "2024-03-10", endDate := "2024-03-20" }

/-- A budget request on category 1 with the given window. -/
def windowBody (startDate endDate : String) : BudgetBody :=
  { categoryId := 1, amount := 80000, period := "monthly", startDate := startDate,
    endDate := endDate }

instance (existing : Budget) (startDate : String) :
    Decidable (overlapFirst existing startDate) := by
  unfold overlapFirst; infer_instance

instance (existing : Budget) (endDate : String) :
    Decidable (overlapSecond existing endDate) := by
  unfold overlapSecond; infer_instance

instance (existing : Budget) (startDate endDate : String) :
    Decidable (overlapThird existing startDate endDate) := by
  unfold overlapThird; infer_instance

/-- The body that re-saves a budget with its own values. -/
def Budget.toBody (b : Budget) : BudgetBody :=
  { categoryId := b.categoryId, amount := b.amount, period := b.period,
    startDate := b.startDate, endDate := b.endDate }

/-! ## Goals -/

/-- The `status` of a goal in a response. -/
inductive GoalStatus
  | active
  | completed
  | expired
  deriving DecidableEq, Repr

/-- The computed fields a goal carries in a response. -/
structure GoalView where
  progress : ℚ
  remaining : Int
  isCompleted : Bool
  status : GoalStatus
  deriving DecidableEq, Repr

/-- The computation of the read handlers (goals.js, lines 35-44 and 88-97; analytics.js,
lines 240-249) at the instant `now`: progress capped at 100, remaining amount, and the
status, where a reached target comes before a passed deadline. -/
def goalStats (goal : Goal) (now : Int) : GoalView :=
  let progress : ℚ :=
    if goal.targetAmount > 0 then
      ((goal.currentAmount : ℚ) / (goal.targetAmount : ℚ)) * 100
    else 0
  let remaining := max 0 (goal.targetAmount - goal.currentAmount)
  let isCompleted := decide (goal.currentAmount ≥ goal.targetAmount)
  let status :=
    if isCompleted then GoalStatus.completed
    else
      match goal.deadline with
      | some deadline => if deadline < now then GoalStatus.expired else GoalStatus.active
      | none => GoalStatus.active
  { progress := min 100 progress, remaining := remaining, isCompleted := isCompleted,
    status := status }

/-- `SELECT ... FROM goals WHERE id = ? AND userId = ?`. -/
def findGoal (db : Db) (id userId : Nat) : Option Goal :=
  db.goals.find? (fun g => decide (g.id = id ∧ g.userId = userId))

/-- `GET /goals/:id` (goals.js, lines 68-112) at the instant `now`. -/
def getGoal (db : Db) (userId id : Nat) (now : Int) : Reply (Goal × GoalView) :=
  match findGoal db id userId with
  | none => .error 404 .GOAL_NOT_FOUND
  | some goal => .data 200 (goal, goalStats goal now)

/-- `UPDATE goals SET currentAmount = ? WHERE id = ? AND userId = ?`. -/
def updateGoalAmount (db : Db) (newCurrentAmount : Int) (id userId : Nat) : Db :=
  { db with
    goals := db.goals.map (fun (g : Goal) =>
      if g.id = id ∧ g.userId = userId then { g with currentAmount := newCurrentAmount }
      else g) }

/-- `POST /goals/:id/contribute` (goals.js, lines 258-323) for an `amount` that is
absent or sent as a JSON number, the sum being exact.  The route has no validator on the
body: `contributeToGoalText` is the handler for an `amount` sent as a string of digits.
The status of the response is computed without the deadline. -/
def contributeToGoal (db : Db) (userId id : Nat) (amount : Option Int) :
    Reply (Goal × GoalView) × Db :=
  match amount with
  | none => (.error 400 .INVALID_CONTRIBUTION_AMOUNT, db)
  | some amount =>
    if amount = 0 ∨ amount ≤ 0 then
      (.error 400 .INVALID_CONTRIBUTION_AMOUNT, db)
    else
      match findGoal db id userId with
      | none => (.error 404 .GOAL_NOT_FOUND, db)
      | some goal =>
        let newCurrentAmount := goal.currentAmount + amount
        let db1 := updateGoalAmount db newCurrentAmount id userId
        match db1.goals.find? (fun g => decide (g.id = id)) with
        | none => (.error 500 .INTERNAL_ERROR, db1)
        | some updatedGoal =>
          let progress : ℚ :=
            if updatedGoal.targetAmount > 0 then
              ((updatedGoal.currentAmount : ℚ) / (updatedGoal.targetAmount : ℚ)) * 100
            else 0
          let remaining := max 0 (updatedGoal.targetAmount - updatedGoal.currentAmount)
          let isCompleted := decide (updatedGoal.currentAmount ≥ updatedGoal.targetAmount)
          (.data 200 (updatedGoal,
            { progress := min 100 progress, remaining := remaining,
              isCompleted := isCompleted,
              status := if isCompleted then .completed else .active }), db1)

/-- Primary key of `goals`: no two rows share an id. -/
def GoalIdsUnique (db : Db) : Prop :=
  (db.goals.map (fun g => g.id)).Nodup

instance (db : Db) : Decidable (GoalIdsUnique db) := by
  unfold GoalIdsUnique; infer_instance

/-- The first of January 2024 and of 2025 at midnight UTC, in milliseconds. -/
def jan2024 : Int := 1704067200000

/-- The first of January 2025 at midnight UTC, in milliseconds. -/
def jan2025 : Int := 1735689600000

/-- A goal of user 1 with target 500000 and 150000 saved, due on 1 January 2025, and a
goal of user 2. -/
def goalExampleDb : Db :=
  { accounts := [], categories := [], transactions := [], budgets := [],
    goals :=
      [{ id := 1, userId := 1, title := "Formation en ligne", description := none,
         targetAmount := 500000, currentAmount := 150000, deadline := some jan2025,
         category := "Éducation" },
       { id := 2, userId := 2, title := "Voyage", description := some "Paris",
         targetAmount := 2500000, currentAmount := 850000, deadline := none,
         category := "Voyage" }] }

/-- Goal 1 of `goalExampleDb`. -/
def goalExample : Goal :=
  { id := 1, userId := 1, title := "Formation en ligne", description := none,
    targetAmount := 500000, currentAmount := 150000, deadline := some jan2025,
    category := "Éducation" }

/-! ## Trend prediction and update reconciliation -/

/-- The prediction of `GET /analytics/insights` (analytics.js, lines 356-362) from the
monthly expense totals in ascending month order: `slice(-3)`, `reduce` and the division
by the number of retained months, or `null` with fewer than three months. -/
def monthlyPrediction (spendingTrends : List Int) : Option ℚ :=
  if spendingTrends.length ≥ 3 then
    let recentMonths := spendingTrends.drop (spendingTrends.length - 3)
    some ((recentMonths.foldl (fun sum totalExpenses => sum + totalExpenses) 0 : Int) /
      (recentMonths.length : ℚ))
  else none

/-- The balance statements of the database transaction of `PUT /transactions/:id`
(transactions.js, lines 436-461), with the outcome of the comparison
`existingTransaction.accountId === accountId` as a parameter. -/
def reconcileBalances (db : Db) (sameAccount : Bool) (oldAmount : Int) (oldAccountId : Nat)
    (amount : Int) (accountId : Nat) : Db :=
  if sameAccount then
    updateBalance db (amount - oldAmount) accountId
  else
    updateBalance (revertBalance db oldAmount oldAccountId) amount accountId

/-! ## The remaining mutating routes -/

/-- `PUT /accounts/:id` (accounts.js, lines 152-209), for a request that carries a
balance. -/
def updateAccount (db : Db) (userId id : Nat) (name bank : String) (type : AccountType)
    (balance : Int) : Response × Db :=
  match findAccount db id userId with
  | none => (.failure 404 .ACCOUNT_NOT_FOUND none, db)
  | some _ =>
    match db.accounts.find? (fun a =>
      decide (a.name = name ∧ a.userId = userId ∧ a.id ≠ id)) with
    | some _ => (.failure 409 .ACCOUNT_NAME_EXISTS none, db)
    | none =>
      (.success 200 id,
        { db with
          accounts := db.accounts.map (fun (a : Account) =>
            if a.id = id ∧ a.userId = userId then
              { a with name := name, bank := bank, type := type, balance := balance }
            else a) })

/-- `DELETE /accounts/:id` (accounts.js, lines 212-258). -/
def deleteAccount (db : Db) (userId id : Nat) : Response × Db :=
  match findAccount db id userId with
  | none => (.failure 404 .ACCOUNT_NOT_FOUND none, db)
  | some _ =>
    let transactionCount :=
      (db.transactions.filter (fun t => decide (t.accountId = id ∧ t.userId = userId))).length
    if transactionCount > 0 then
      (.failure 409 .ACCOUNT_HAS_TRANSACTIONS (some (.transactionCount transactionCount)),
        db)
    else
      (.success 200 id,
        { db with
          accounts := db.accounts.filter
            (fun a => !decide (a.id = id ∧ a.userId = userId)) })

/-- `DELETE /budgets/:id` (budgets.js, lines 346-375). -/
def deleteBudget (db : Db) (userId id : Nat) : Response × Db :=
  match findBudget db id userId with
  | none => (.failure 404 .BUDGET_NOT_FOUND none, db)
  | some _ =>
    (.success 200 id,
      { db with
        budgets := db.budgets.filter (fun b => !decide (b.id = id ∧ b.userId = userId)) })

/-- The body of `POST /goals` after `validateGoal`; `description`, `currentAmount` and
`deadline` are optional. -/
structure GoalBody where
  title : String
  description : Option String
  targetAmount : Int
  currentAmount : Option Int
  deadline : Option Int
  category : String
  deriving DecidableEq, Repr

/-- `POST /goals` (goals.js, lines 115-160); `currentAmount` defaults to 0. -/
def createGoal (db : Db) (userId : Nat) (body : GoalBody) : Response × Db :=
  let rowId := lastInsertRowid (db.goals.map (fun g => g.id))
  (.success 201 rowId,
    { db with
      goals := db.goals ++
        [{ id := rowId, userId := userId, title := body.title,
           description := jsOrNull body.description, targetAmount := body.targetAmount,
           currentAmount := body.currentAmount.getD 0, deadline := body.deadline,
           category := body.category }] })

/-- `PUT /goals/:id` (goals.js, lines 163-223), for a request that carries a current
amount. -/
def updateGoal (db : Db) (userId id : Nat) (body : GoalBody) (currentAmount : Int) :
    Response × Db :=
  match findGoal db id userId with
  | none => (.failure 404 .GOAL_NOT_FOUND none, db)
  | some _ =>
    (.success 200 id,
      { db with
        goals := db.goals.map (fun (g : Goal) =>
          if g.id = id ∧ g.userId = userId then
            { g with title := body.title, description := jsOrNull body.description,
                     targetAmount := body.targetAmount, currentAmount := currentAmount,
                     deadline := body.deadline, category := body.category }
          else g) })

/-- `DELETE /goals/:id` (goals.js, lines 226-255). -/
def deleteGoal (db : Db) (userId id : Nat) : Response × Db :=
  match findGoal db id userId with
  | none => (.failure 404 .GOAL_NOT_FOUND none, db)
  | some _ =>
    (.success 200 id,
      { db with
        goals := db.goals.filter (fun g => !decide (g.id = id ∧ g.userId = userId)) })

/-- A call of one of the mutating routes of accounts, categories, transactions, budgets
and goals. -/
inductive Operation
  | transaction (op : TxOp)
  | createAccount (userId : Nat) (name bank : String) (type : AccountType)
      (balance : Option Int)
  | updateAccount (userId id : Nat) (name bank : String) (type : AccountType)
      (balance : Int)
  | deleteAccount (userId id : Nat)
  | createCategory (name : String) (type : CategoryType) (color : Option String)
  | updateCategory (id : Nat) (name : String) (type : CategoryType) (color : String)
  | deleteCategory (id : Nat)
  | createBudget (userId : Nat) (body : BudgetBody)
  | updateBudget (userId id : Nat) (body : BudgetBody)
  | deleteBudget (userId id : Nat)
  | createGoal (userId : Nat) (body : GoalBody)
  | updateGoal (userId id : Nat) (body : GoalBody) (currentAmount : Int)
  | deleteGoal (userId id : Nat)
  | contributeToGoal (userId id : Nat) (amount : Option Int)
  deriving DecidableEq, Repr

/-- The database after one call. -/
def Operation.apply (db : Db) : Operation → Db
  | .transaction op => (op.handle db).2
  | .createAccount userId name bank type balance =>
    (BudgetApp.createAccount db userId name bank type balance).2
  | .updateAccount userId id name bank type balance =>
    (BudgetApp.updateAccount db userId id name bank type balance).2
  | .deleteAccount userId id => (BudgetApp.deleteAccount db userId id).2
  | .createCategory name type color => (BudgetApp.createCategory db name type color).2
  | .updateCategory id name type color =>
    (BudgetApp.updateCategory db id name type color).2
  | .deleteCategory id => (BudgetApp.deleteCategory db id).2
  | .createBudget userId body => (BudgetApp.createBudget db userId body).2
  | .updateBudget userId id body => (BudgetApp.updateBudget db userId id body).2
  | .deleteBudget userId id => (BudgetApp.deleteBudget db userId id).2
  | .createGoal userId body => (BudgetApp.createGoal db userId body).2
  | .updateGoal userId id body currentAmount =>
    (BudgetApp.updateGoal db userId id body currentAmount).2
  | .deleteGoal userId id => (BudgetApp.deleteGoal db userId id).2
  | .contributeToGoal userId id amount =>
    (BudgetApp.contributeToGoal db userId id amount).2

/-- The authenticated user of a call; the category routes act for no owner. -/
def Operation.caller : Operation → Option Nat
  | .transaction (.create userId _) => some userId
  | .transaction (.update userId _ _) => some userId
  | .transaction (.delete userId _) => some userId
  | .transaction (.duplicate userId _ _ _) => some userId
  | .createAccount userId _ _ _ _ => some userId
  | .updateAccount userId _ _ _ _ _ => some userId
  | .deleteAccount userId _ => some userId
  | .createCategory _ _ _ => none
  | .updateCategory _ _ _ _ => none
  | .deleteCategory _ => none
  | .createBudget userId _ => some userId
  | .updateBudget userId _ _ => some userId
  | .deleteBudget userId _ => some userId
  | .createGoal userId _ => some userId
  | .updateGoal userId _ _ _ => some userId
  | .deleteGoal userId _ => some userId
  | .contributeToGoal userId _ _ => some userId

/-- The database after a sequence of calls. -/
def runOperations (db : Db) : List Operation → Db
  | [] => db
  | op :: ops => runOperations (op.apply db) ops

/-- A state is reachable when a sequence of calls leads to it from the empty
database. -/
def Reachable (db : Db) : Prop :=
  ∃ ops : List Operation, runOperations Db.empty ops = db

/-- The caller's account 1 is overwritten with a balance of 5. -/
def overwriteBalance : Operation :=
  .updateAccount 1 1 "BOA" "BOA" .checking 5

/-! ## Invariants of the reachable states -/

/-- Each transaction is on an account of its owner. -/
def OwnAccounts (db : Db) : Prop :=
  ∀ t ∈ db.transactions, ∃ a ∈ db.accounts, a.id = t.accountId ∧ a.userId = t.userId

/-- Each transaction and each budget refers to a category that exists. -/
def CategoryRefs (db : Db) : Prop :=
  (∀ t ∈ db.transactions, (findCategory db t.categoryId).isSome = true) ∧
  (∀ b ∈ db.budgets, (findCategory db b.categoryId).isSome = true)

/-- Primary key of `categories`: no two rows share an id. -/
def CategoryIdsUnique (db : Db) : Prop :=
  (db.categories.map (fun c => c.id)).Nodup

/-- No two categories share a name. -/
def CategoryNamesUnique (db : Db) : Prop :=
  (db.categories.map (fun c => c.name)).Nodup

/-- The `code` string of the JSON body sent with an error. -/
def ErrorCode.code : ErrorCode → String
  | .TRANSACTION_NOT_FOUND => "TRANSACTION_NOT_FOUND"
  | .ACCOUNT_NOT_FOUND => "ACCOUNT_NOT_FOUND"
  | .CATEGORY_NOT_FOUND => "CATEGORY_NOT_FOUND"
  | .CATEGORY_TYPE_MISMATCH => "CATEGORY_TYPE_MISMATCH"
  | .INSUFFICIENT_FUNDS => "INSUFFICIENT_FUNDS"
  | .ACCOUNT_NAME_EXISTS => "ACCOUNT_NAME_EXISTS"
  | .CATEGORY_ALREADY_EXISTS => "CATEGORY_ALREADY_EXISTS"
  | .CATEGORY_IN_USE => "CATEGORY_IN_USE"
  | .BUDGET_NOT_FOUND => "BUDGET_NOT_FOUND"
  | .INVALID_CATEGORY_TYPE => "INVALID_CATEGORY_TYPE"
  | .OVERLAPPING_BUDGET => "OVERLAPPING_BUDGET"
  | .INVALID_CONTRIBUTION_AMOUNT => "INVALID_CONTRIBUTION_AMOUNT"
  | .GOAL_NOT_FOUND => "GOAL_NOT_FOUND"
  | .INTERNAL_ERROR => "INTERNAL_ERROR"
  | .ACCOUNT_HAS_TRANSACTIONS => "ACCOUNT_HAS_TRANSACTIONS"
  | .VALIDATION_ERROR => "VALIDATION_ERROR"
  | .SQLITE_ERROR => "SQLITE_ERROR"

/-- Calls that lead from the empty database to a state with two users: accounts, two
categories, an expense of user 1 in "Logement" and a budget of user 1 on it, an income
of user 2, and a goal of each user. -/
def reachExampleOps : List Operation :=
  [.createAccount 1 "BOA" "BOA" .checking (some 50000),
   .createAccount 2 "CBAO" "CBAO" .savings (some 10000),
   .createCategory "Logement" .expense none,
   .createCategory "Salaire" .income none,
   .transaction (.create 1 { description := "Loyer", amount := -20000, categoryId := 1,
                             accountId := 1, date := "2024-03-05", notes := none }),
   .transaction (.create 2 { description := "Paie", amount := 90000, categoryId := 2,
                             accountId := 2, date := "2024-03-01", notes := none }),
   .createBudget 1 { categoryId := 1, amount := 60000, period := "monthly",
                     startDate := "2024-03-01", endDate := "2024-03-31" },
   .createGoal 1 { title := "Voyage", description := none, targetAmount := 500000,
                   currentAmount := none, deadline := none, category := "Loisirs" },
   .createGoal 2 { title := "Maison", description := none, targetAmount := 900000,
                   currentAmount := some 1000, deadline := none, category := "Logement" }]

/-- The state the example calls lead to. -/
def reachedExampleDb : Db :=
  runOperations Db.empty reachExampleOps

/-! ## Budgets in the dashboard and in the analytics -/

/-- The scalar subquery `(SELECT id FROM categories WHERE name = ?)`: the id of the first
row with the name, `NULL` (here `none`) when there is none. -/
def categoryIdByName (db : Db) (name : String) : Option Nat :=
  (db.categories.find? (fun c => decide (c.name = name))).map (fun c => c.id)

/-- The `WHERE` clause of the spending query of the dashboard and of the analytics: as
`countsAsSpending`, with the category given by the subquery on its name. -/
def countsAsSpendingByName (db : Db) (userId : Nat) (category : String)
    (startDate endDate : String) (t : Transaction) : Prop :=
  t.userId = userId ∧ some t.categoryId = categoryIdByName db category ∧ t.amount < 0 ∧
    textLe startDate t.date ∧ textLe t.date endDate

instance (db : Db) (userId : Nat) (category : String) (startDate endDate : String)
    (t : Transaction) :
    Decidable (countsAsSpendingByName db userId category startDate endDate t) := by
  unfold countsAsSpendingByName; infer_instance

/-- `SELECT COALESCE(SUM(ABS(amount)), 0) as spent FROM transactions t WHERE t.userId = ?
AND t.categoryId = (SELECT id FROM categories WHERE name = ?) AND t.amount < 0 AND
t.date >= ? AND t.date <= ?` (dashboard.js, lines 65-75; analytics.js, lines 175-185). -/
def spendingByName (db : Db) (userId : Nat) (category : String)
    (startDate endDate : String) : Int :=
  (sqlSumAbs (db.transactions.filter
    (fun t => decide (countsAsSpendingByName db userId category startDate endDate t)))).getD 0

/-- The rows of `SELECT ... FROM budgets b JOIN categories c ON b.categoryId = c.id WHERE
b.userId = ? AND b.startDate <= date('now') AND b.endDate >= date('now')` (dashboard.js,
lines 50-62; analytics.js, lines 158-170), each a budget with its category; `today` is
`date('now')`.  The order of the rows is not modelled. -/
def activeBudgets (db : Db) (userId : Nat) (today : String) : List (Budget × Category) :=
  (db.budgets.filter (fun b =>
    decide (b.userId = userId ∧ textLe b.startDate today ∧ textLe today b.endDate))).flatMap
    (fun b => (db.categories.filter (fun c => decide (b.categoryId = c.id))).map
      (fun c => (b, c)))

/-- The `spent` field that the callback of `budgetsWithSpending` in dashboard.js (lines
64-81) adds to a row. -/
def dashboardSpent (db : Db) (userId : Nat) (row : Budget × Category) : Int :=
  spendingByName db userId row.2.name row.1.startDate row.1.endDate

/-- The callback of `budgetPerformance` (analytics.js, lines 173-199). -/
def budgetPerformance (db : Db) (userId : Nat) (row : Budget × Category) : BudgetView :=
  evaluateBudget row.1.amount
    (spendingByName db userId row.2.name row.1.startDate row.1.endDate)

/-- The row of the active budgets of user 1 in `reachedExampleDb` on 10 March 2024. -/
def reachedBudgetRow : Budget × Category :=
  ({ id := 1, userId := 1, categoryId := 1, amount := 60000, period := "monthly",
     startDate := "2024-03-01", endDate := "2024-03-31" },
   { id := 1, name := "Logement", type := .expense, color := "#3B82F6" })

/-- The rows a user owns: their accounts (with the balances), transactions, budgets and
goals. -/
def ownedBy (db : Db) (userId : Nat) :
    List Account × List Transaction × List Budget × List Goal :=
  (db.accounts.filter (fun a => decide (a.userId = userId)),
   db.transactions.filter (fun t => decide (t.userId = userId)),
   db.budgets.filter (fun b => decide (b.userId = userId)),
   db.goals.filter (fun g => decide (g.userId = userId)))

/-! ## The amount of a request before validation -/

/-- The `amount` of a request body as the JSON carries it: a number or a string.
A number is taken whole, the unit of the amounts being 1 in this part of the model. -/
inductive JsonAmount
  | number (value : Int)
  | text (value : String)
  deriving DecidableEq, Repr

/-- The characters of a string after an optional leading sign. -/
def unsignedChars (s : String) : List Char :=
  match s.toList with
  | '+' :: rest => rest
  | '-' :: rest => rest
  | chars => chars

/-- The validator `isNumeric` of express-validator with its default options, the pattern
`^[+-]?([0-9]*[.])?[0-9]+$`: an optional sign, optionally digits followed by a point,
then at least one digit. -/
def isNumeric (s : String) : Bool :=
  let digits := (unsignedChars s).takeWhile Char.isDigit
  match (unsignedChars s).dropWhile Char.isDigit with
  | [] => !digits.isEmpty
  | '.' :: decimals => !decimals.isEmpty && decimals.all Char.isDigit
  | _ => false

/-- The number a list of decimal digits writes. -/
def digitsValue (digits : List Char) : Nat :=
  digits.foldl (fun n c => 10 * n + (c.toNat - '0'.toNat)) 0

/-- The number JavaScript converts a string that `isNumeric` accepts to, as a mantissa
and a count of decimals: the number is `mantissa / 10 ^ decimals`. -/
def numericValue (s : String) : Int × Nat :=
  let digits := (unsignedChars s).takeWhile Char.isDigit
  let decimals := ((unsignedChars s).dropWhile Char.isDigit).drop 1
  let mantissa : Int := (digitsValue (digits ++ decimals) : Int)
  (if s.toList.head? = some '-' then -mantissa else mantissa, decimals.length)

/-- Whether the amount is numerically zero. -/
def JsonAmount.isZero : JsonAmount → Bool
  | .number value => decide (value = 0)
  | .text s => isNumeric s && decide ((numericValue s).1 = 0)

/-- The whole number an amount denotes, if it denotes one. -/
def JsonAmount.toInt? : JsonAmount → Option Int
  | .number value => some value
  | .text s =>
    if (numericValue s).1 % (10 ^ (numericValue s).2 : Nat) = 0 then
      some ((numericValue s).1 / (10 ^ (numericValue s).2 : Nat))
    else none

/-- The chain on `amount` of `validateTransaction` (validation.js, lines 48-58):
`isNumeric` is run on the string form of the value, which for a whole number always
passes; the custom check is run on the value itself, where `value === 0` holds for the
number 0 only and `Math.abs(value)` converts a string to the number it writes. -/
def validateAmount : JsonAmount → Bool
  | .number value => !decide (value = 0) && !decide (|value| > 999999999)
  | .text s =>
    isNumeric s &&
      !decide (|(numericValue s).1| > 999999999 * (10 ^ (numericValue s).2 : Nat))

/-- The body of `POST /transactions` and `PUT /transactions/:id` as it is sent. -/
structure TransactionRequest where
  description : String
  amount : JsonAmount
  categoryId : Nat
  accountId : Nat
  date : String
  notes : Option String
  deriving DecidableEq, Repr

/-- The body with its amount taken as a whole number. -/
def TransactionRequest.toBody (request : TransactionRequest) (amount : Int) :
    TransactionBody :=
  { description := request.description, amount := amount, categoryId := request.categoryId,
    accountId := request.accountId, date := request.date, notes := request.notes }

/-- `POST /transactions` (transactions.js, lines 216-328) when `amount` is a numeric
string that writes `body.amount`.  The comparisons with 0 convert the string;
`account.balance + amount` concatenates, the result is not a number and
`newBalance < 0` is false, so the funds check never fails; SQLite converts the string
where the amount is added to the balance and stored. -/
def createTransactionText (db : Db) (userId : Nat) (body : TransactionBody) :
    Response × Db :=
  match findAccount db body.accountId userId with
  | none => (.failure 404 .ACCOUNT_NOT_FOUND none, db)
  | some _ =>
    match findCategory db body.categoryId with
    | none => (.failure 404 .CATEGORY_NOT_FOUND none, db)
    | some category =>
      if body.amount > 0 ∧ category.type ≠ .income then
        (.failure 400 .CATEGORY_TYPE_MISMATCH none, db)
      else if body.amount < 0 ∧ category.type ≠ .expense then
        (.failure 400 .CATEGORY_TYPE_MISMATCH none, db)
      else
        let inserted := insertTransaction db userId body.accountId body.categoryId
          body.description body.amount body.date (jsOrNull body.notes)
        (.success 201 inserted.1, updateBalance inserted.2 body.amount body.accountId)

/-- The chain on `amount` of `validateTransaction` followed by the handler of
`POST /transactions`; `none` when the amount is not a whole number, which this model
does not cover.  The other fields are taken as the chain leaves them, `description` and
`notes` trimmed, and as passing their checks. -/
def postTransaction (db : Db) (userId : Nat) (request : TransactionRequest) :
    Option (Response × Db) :=
  if validateAmount request.amount = false then
    some (.failure 400 .VALIDATION_ERROR none, db)
  else
    match request.amount with
    | .number value => some (createTransaction db userId (request.toBody value))
    | .text s =>
      ((JsonAmount.text s).toInt?).map
        (fun value => createTransactionText db userId (request.toBody value))

/-- The chain on `amount` of `validateTransaction` followed by the handler of
`PUT /transactions/:id`, which uses the amount in comparisons, in a subtraction and as
an SQL parameter only, all of which convert a numeric string; `none` when the amount is
not a whole number.  The other fields are taken as the chain leaves them and as passing
their checks. -/
def putTransaction (db : Db) (userId id : Nat) (request : TransactionRequest) :
    Option (Response × Db) :=
  if validateAmount request.amount = false then
    some (.failure 400 .VALIDATION_ERROR none, db)
  else
    (request.amount.toInt?).map
      (fun value => updateTransaction db userId id (request.toBody value))

/-- A request for a transaction of amount `"0"`, sent as a string, on account 1. -/
def zeroTextRequest : TransactionRequest :=
  { description := "Loyer", amount := .text "0", categoryId := 1, accountId := 1,
    date := "2024-03-01", notes := none }

/-! ## Period windows -/

/-- The `dateFilter` fragment of a period query: empty, or
`AND t.date >= date('now', modifier)`. -/
inductive DateFilter
  | empty
  | since (modifier : String)
  deriving DecidableEq, Repr

/-- The period switch of `GET /analytics` (analytics.js, lines 16-40); the query
parameter defaults to `"month"`. -/
def analyticsDateFilter (period : Option String) : DateFilter :=
  if period.getD "month" = "week" then .since "-7 days"
  else if period.getD "month" = "month" then .since "-1 month"
  else if period.getD "month" = "quarter" then .since "-3 months"
  else if period.getD "month" = "year" then .since "-1 year"
  else .since "-1 month"

/-- The period switch of `GET /transactions/stats/period` (transactions.js, lines
744-767); the query parameter defaults to `"month"`. -/
def statsDateFilter (period : Option String) : DateFilter :=
  if period.getD "month" = "week" then .since "-7 days"
  else if period.getD "month" = "month" then .since "-1 month"
  else if period.getD "month" = "quarter" then .since "-3 months"
  else if period.getD "month" = "year" then .since "-1 year"
  else if period.getD "month" = "all" then .empty
  else .since "-1 month"

/-- Whether a transaction passes a date filter; `dateOf modifier` is the value of
`date('now', modifier)` when the query runs. -/
def DateFilter.admits (dateOf : String → String) : DateFilter → Transaction → Prop
  | .empty, _ => True
  | .since modifier, t => textLe (dateOf modifier) t.date

instance (dateOf : String → String) (filter : DateFilter) (t : Transaction) :
    Decidable (filter.admits dateOf t) := by
  cases filter <;> unfold DateFilter.admits <;> infer_instance

/-- The rows of `FROM transactions t WHERE t.userId = ?` followed by a date filter. -/
def periodTransactions (db : Db) (userId : Nat) (filter : DateFilter)
    (dateOf : String → String) : List Transaction :=
  db.transactions.filter (fun t => decide (t.userId = userId ∧ filter.admits dateOf t))

/-- The fields `totalTransactions`, `totalIncome` and `totalExpenses` of `generalStats`
(analytics.js, lines 43-54) and of `totals` (transactions.js, lines 812-821) over rows. -/
def periodSums (rows : List Transaction) : Nat × Int × Int :=
  (rows.length,
   (rows.map (fun t => if t.amount > 0 then t.amount else 0)).sum,
   (rows.map (fun t => if t.amount < 0 then |t.amount| else 0)).sum)

/-- The count and the totals of `generalStats` in `GET /analytics`. -/
def generalStats (db : Db) (userId : Nat) (period : Option String)
    (dateOf : String → String) : Nat × Int × Int :=
  periodSums (periodTransactions db userId (analyticsDateFilter period) dateOf)

/-- The count and the totals of `totals` in `GET /transactions/stats/period`
(transactions.js, lines 812-821).  The statement reads `FROM transactions` without the
alias `t` that a non-empty date filter names in `t.date`, so with such a filter it
cannot be prepared and the route answers through the error handler. -/
def periodTotals (db : Db) (userId : Nat) (period : Option String)
    (dateOf : String → String) : Reply (Nat × Int × Int) :=
  match statsDateFilter period with
  | .empty => .data 200 (periodSums (periodTransactions db userId .empty dateOf))
  | .since _ => .error 500 .SQLITE_ERROR

/-- A user with an expense in 2023 and an income in March 2024. -/
def periodExampleDb : Db :=
  { accounts := [{ id := 1, userId := 1, name := "BOA", bank := "BOA", type := .checking,
                   balance := 60000 }],
    categories :=
      [{ id := 1, name := "Salaire", type := .income, color := "#3B82F6" },
       { id := 2, name := "Logement", type := .expense, color := "#3B82F6" }],
    transactions :=
      [{ id := 1, userId := 1, accountId := 1, categoryId := 2, description := "Loyer",
         amount := -40000, date := "2023-06-01", notes := none },
       { id := 2, userId := 1, accountId := 1, categoryId := 1, description := "Paie",
         amount := 100000, date := "2024-03-01", notes := none }],
    budgets := [] }

/-- The values of `date('now', modifier)` on 10 March 2024. -/
def march2024 (modifier : String) : String :=
  if modifier = "-7 days" then "2024-03-03"
  else if modifier = "-1 month" then "2024-02-10"
  else if modifier = "-3 months" then "2023-12-10"
  else if modifier = "-1 year" then "2023-03-10"
  else "2024-03-10"

/-! ## Balance history -/

/-- The period switch of `GET /accounts/:id/balance-history` (accounts.js, lines
281-296): the modifier of `date('now', modifier)` in the date filter, which is never
empty. -/
def historyModifier (period : Option String) : String :=
  if period.getD "month" = "week" then "-7 days"
  else if period.getD "month" = "month" then "-1 month"
  else if period.getD "month" = "quarter" then "-3 months"
  else if period.getD "month" = "year" then "-1 year"
  else "-1 month"

/-- The rows of the first statement (accounts.js, lines 299-306): the transactions of
the user on the account dated on or after the start of the period, by date. -/
def historyTransactions (db : Db) (userId id : Nat) (start : String) : List Transaction :=
  (db.transactions.filter (fun t =>
    decide (t.accountId = id ∧ t.userId = userId ∧ textLe start t.date))).insertionSort
    (fun a b => textLe a.date b.date)

/-- The sum of the statement of `initialTransactions` (accounts.js, lines 313-319) when
`t.date` is read as the column `date` of `transactions`: the date filter with `>=`
replaced by `<`, so the amounts of the transactions dated before the start of the
period. -/
def initialTransactionsTotal (db : Db) (userId id : Nat) (start : String) : Int :=
  ((db.transactions.filter (fun t =>
    decide (t.accountId = id ∧ t.userId = userId ∧ ¬ textLe start t.date))).map
    (fun t => t.amount)).sum

/-- `Map.prototype.set` on the entries of a map in insertion order: the value of a key
already present is replaced in place, a new key is added at the end. -/
def mapSet (entries : List (String × Int)) (date : String) (balance : Int) :
    List (String × Int) :=
  if entries.any (fun e => decide (e.1 = date)) then
    entries.map (fun e => if e.1 = date then (date, balance) else e)
  else entries ++ [(date, balance)]

/-- The loop over the transactions and the conversion of the map to `history`
(accounts.js, lines 324-334). -/
def buildHistory (initialBalance : Int) (transactions : List Transaction) :
    List (String × Int) :=
  (transactions.foldl (fun (state : Int × List (String × Int)) transaction =>
    (state.1 + transaction.amount,
      mapSet state.2 transaction.date (state.1 + transaction.amount)))
    (initialBalance, [])).2

/-- The `history` that the statements of the handler compute for an account when the
second statement is read with `t` as the table `transactions`. -/
def balanceHistory (db : Db) (userId : Nat) (account : Account) (start : String) :
    List (String × Int) :=
  buildHistory (account.balance - initialTransactionsTotal db userId account.id start)
    (historyTransactions db userId account.id start)

/-- `GET /accounts/:id/balance-history` (accounts.js, lines 260-354) as it runs.  The
statement of `initialTransactions` reads `FROM transactions` without the alias `t` that
its date filter names in `t.date`; for every period the filter is there, the statement
cannot be prepared, and the error handler answers with status 500 and the code of the
database error. -/
def getBalanceHistory (db : Db) (userId id : Nat) : Reply (List (String × Int)) :=
  match findAccount db id userId with
  | none => .error 404 .ACCOUNT_NOT_FOUND
  | some _ => .error 500 .SQLITE_ERROR

/-! ## Amounts in double precision -/

/-- The number of low bits that a natural number with more than 53 bits loses when it
is cut to 53 bits; the first argument bounds the recursion. -/
def shift53 : Nat → Nat → Nat
  | 0, _ => 0
  | fuel + 1, n => if n < 2 ^ 53 then 0 else shift53 fuel (n / 2) + 1

/-- Rounding of a natural number to 53 significant bits, to the nearest and ties to
even. -/
def round53Nat (n : Nat) : Nat :=
  if n < 2 ^ 53 then n
  else
    let shift := shift53 n n
    let quotient := n / 2 ^ shift
    let rest := n % 2 ^ shift
    let half := 2 ^ (shift - 1)
    if rest > half ∨ (rest = half ∧ quotient % 2 = 1) then (quotient + 1) * 2 ^ shift
    else quotient * 2 ^ shift

/-- The result of an addition or a subtraction in double precision whose exact result
is `x`.  The numbers of JavaScript and the REAL values of SQLite are IEEE doubles.  The
model counts a number in units of a fixed power of two, small enough for every number at
hand to be a whole count: the unit is 1 when the amounts are whole.  The exact sum of two
counts is a count, and the operation rounds it to 53 significant bits.  Overflow is not
modelled. -/
def round53 (x : Int) : Int :=
  if x < 0 then -(round53Nat x.natAbs : Int) else (round53Nat x.natAbs : Int)

/-- `UPDATE accounts SET balance = balance + ? WHERE id = ?` in double precision. -/
def updateBalanceF (db : Db) (amount : Int) (accountId : Nat) : Db :=
  { db with
    accounts := db.accounts.map
      (fun a => if a.id = accountId then { a with balance := round53 (a.balance + amount) }
        else a) }

/-- `UPDATE accounts SET balance = balance - ? WHERE id = ?` in double precision. -/
def revertBalanceF (db : Db) (amount : Int) (accountId : Nat) : Db :=
  { db with
    accounts := db.accounts.map
      (fun a => if a.id = accountId then { a with balance := round53 (a.balance - amount) }
        else a) }

/-- `POST /transactions` (transactions.js, lines 216-328) for an amount sent as a JSON
number, with the sums in double precision. -/
def createTransactionF (db : Db) (userId : Nat) (body : TransactionBody) : Response × Db :=
  match findAccount db body.accountId userId with
  | none => (.failure 404 .ACCOUNT_NOT_FOUND none, db)
  | some account =>
    match findCategory db body.categoryId with
    | none => (.failure 404 .CATEGORY_NOT_FOUND none, db)
    | some category =>
      if body.amount > 0 ∧ category.type ≠ .income then
        (.failure 400 .CATEGORY_TYPE_MISMATCH none, db)
      else if body.amount < 0 ∧ category.type ≠ .expense then
        (.failure 400 .CATEGORY_TYPE_MISMATCH none, db)
      else if body.amount < 0 ∧ account.type ≠ .credit ∧
          round53 (account.balance + body.amount) < 0 then
        (.failure 400 .INSUFFICIENT_FUNDS
          (some (.funds account.balance body.amount
            (round53 (account.balance + body.amount)))), db)
      else
        let inserted := insertTransaction db userId body.accountId body.categoryId
          body.description body.amount body.date (jsOrNull body.notes)
        (.success 201 inserted.1, updateBalanceF inserted.2 body.amount body.accountId)

/-- `PUT /transactions/:id` (transactions.js, lines 366-496) for an amount sent as a
JSON number, with the sums in double precision.  `accountIdAsText` tells that the
account id of the body was sent as a string of digits, which `isInt` admits and SQLite
compares and stores as the integer, but which `===` finds different from the stored
number. -/
def updateTransactionF (db : Db) (userId id : Nat) (body : TransactionBody)
    (accountIdAsText : Bool) : Response × Db :=
  match findTransaction db id userId with
  | none => (.failure 404 .TRANSACTION_NOT_FOUND none, db)
  | some existingTransaction =>
    match findAccount db body.accountId userId with
    | none => (.failure 404 .ACCOUNT_NOT_FOUND none, db)
    | some _ =>
      match findCategory db body.categoryId with
      | none => (.failure 404 .CATEGORY_NOT_FOUND none, db)
      | some category =>
        if body.amount > 0 ∧ category.type ≠ .income then
          (.failure 400 .CATEGORY_TYPE_MISMATCH none, db)
        else if body.amount < 0 ∧ category.type ≠ .expense then
          (.failure 400 .CATEGORY_TYPE_MISMATCH none, db)
        else
          let db1 :=
            if accountIdAsText = false ∧ existingTransaction.accountId = body.accountId then
              updateBalanceF db (round53 (body.amount - existingTransaction.amount))
                body.accountId
            else
              updateBalanceF
                (revertBalanceF db existingTransaction.amount existingTransaction.accountId)
                body.amount body.accountId
          (.success 200 id,
            updateTransactionRow db1 body.description body.amount body.categoryId
              body.accountId body.date (jsOrNull body.notes) id userId)

/-- `DELETE /transactions/:id` (transactions.js, lines 499-551), with the difference in
double precision. -/
def deleteTransactionF (db : Db) (userId id : Nat) : Response × Db :=
  match findTransaction db id userId with
  | none => (.failure 404 .TRANSACTION_NOT_FOUND none, db)
  | some existingTransaction =>
    (.success 200 id,
      deleteTransactionRow
        (revertBalanceF db existingTransaction.amount existingTransaction.accountId)
        id userId)

/-- `POST /transactions/:id/duplicate` (transactions.js, lines 554-664), with the sums
in double precision. -/
def duplicateTransactionF (db : Db) (userId id : Nat) (body : DuplicateBody)
    (today : String) : Response × Db :=
  match findTransaction db id userId with
  | none => (.failure 404 .TRANSACTION_NOT_FOUND none, db)
  | some originalTransaction =>
    match findAccount db originalTransaction.accountId userId with
    | none => (.failure 404 .ACCOUNT_NOT_FOUND none, db)
    | some account =>
      let transactionDate := jsOr body.date today
      let description := jsOr body.description (originalTransaction.description ++ " (copie)")
      if originalTransaction.amount < 0 ∧ account.type ≠ .credit ∧
          round53 (account.balance + originalTransaction.amount) < 0 then
        (.failure 400 .INSUFFICIENT_FUNDS none, db)
      else
        let inserted := insertTransaction db userId originalTransaction.accountId
          originalTransaction.categoryId description originalTransaction.amount
          transactionDate originalTransaction.notes
        (.success 201 inserted.1,
          updateBalanceF inserted.2 originalTransaction.amount
            originalTransaction.accountId)

/-- A call of one of the four mutating transaction routes with its amount sent as a
JSON number; an update tells whether its account id was sent as a string. -/
inductive TxOpF
  | create (userId : Nat) (body : TransactionBody)
  | update (userId id : Nat) (body : TransactionBody) (accountIdAsText : Bool)
  | delete (userId id : Nat)
  | duplicate (userId id : Nat) (body : DuplicateBody) (today : String)
  deriving DecidableEq, Repr

/-- The response to a call and the database after it, in double precision. -/
def TxOpF.handle (db : Db) : TxOpF → Response × Db
  | .create userId body => createTransactionF db userId body
  | .update userId id body accountIdAsText =>
    updateTransactionF db userId id body accountIdAsText
  | .delete userId id => deleteTransactionF db userId id
  | .duplicate userId id body today => duplicateTransactionF db userId id body today

/-- The database after a sequence of calls, in double precision. -/
def runTxOpsF (db : Db) : List TxOpF → Db
  | [] => db
  | op :: ops => runTxOpsF (op.handle db).2 ops

/-- The call in exact arithmetic. -/
def TxOpF.exact : TxOpF → TxOp
  | .create userId body => .create userId body
  | .update userId id body _ => .update userId id body
  | .delete userId id => .delete userId id
  | .duplicate userId id body today => .duplicate userId id body today

/-- The amount a call sends, 0 when it sends none. -/
def TxOpF.amount : TxOpF → Int
  | .create _ body => body.amount
  | .update _ _ body _ => body.amount
  | .delete _ _ => 0
  | .duplicate _ _ _ _ => 0

/-- Every balance is below `2 ^ 51` and every amount below `2 ^ 50` in absolute value,
so that no sum or difference of the transaction routes on the state needs more than 53
bits. -/
def InRange (db : Db) : Prop :=
  (∀ a ∈ db.accounts, |a.balance| < 2 ^ 51) ∧ (∀ t ∈ db.transactions, |t.amount| < 2 ^ 50)

instance (db : Db) : Decidable (InRange db) := by
  unfold InRange; infer_instance

/-- Every call of the sequence sends an amount below `2 ^ 50` in absolute value and
finds the database in range. -/
def StaysInRange (db : Db) : List TxOpF → Prop
  | [] => True
  | op :: ops => InRange db ∧ |op.amount| < 2 ^ 50 ∧ StaysInRange (op.handle db).2 ops

/-- Account 1 of user 1 with the balance 0.3 and no transaction, in units of `2 ^ -55`:
the double nearest to 0.3 is `5404319552844595 / 2 ^ 54`. -/
def decimalExampleDb : Db :=
  { accounts := [{ id := 1, userId := 1, name := "BOA", bank := "BOA", type := .checking,
                   balance := 10808639105689190 }],
    categories :=
      [{ id := 1, name := "Salaire", type := .income, color := "#3B82F6" },
       { id := 2, name := "Logement", type := .expense, color := "#3B82F6" }],
    transactions := [], budgets := [] }

/-- An income of 0.1 on account 1, in units of `2 ^ -55`: the double nearest to 0.1 is
`3602879701896397 / 2 ^ 55`. -/
def decimalExampleBody : TransactionBody :=
  { description := "Paie", amount := 3602879701896397, categoryId := 1, accountId := 1,
    date := "2024-03-01", notes := none }

instance StaysInRange.instDecidable (db : Db) (ops : List TxOpF) :
    Decidable (StaysInRange db ops) := by
  induction ops generalizing db with
  | nil => exact isTrue trivial
  | cons op ops ih =>
    unfold StaysInRange
    exact @instDecidableAnd _ _ inferInstance (@instDecidableAnd _ _ inferInstance (ih _))

/-- Account 1 of user 1 with the balance 0.3, an income of 0.1 and an expense of 0.1 on
it, in units of `2 ^ -55`. -/
def decimalLedgerDb : Db :=
  { accounts := [{ id := 1, userId := 1, name := "BOA", bank := "BOA", type := .checking,
                   balance := 10808639105689190 }],
    categories :=
      [{ id := 1, name := "Salaire", type := .income, color := "#3B82F6" },
       { id := 2, name := "Logement", type := .expense, color := "#3B82F6" }],
    transactions :=
      [{ id := 1, userId := 1, accountId := 1, categoryId := 1, description := "Paie",
         amount := 3602879701896397, date := "2024-03-01", notes := none },
       { id := 2, userId := 1, accountId := 1, categoryId := 2, description := "Loyer",
         amount := -3602879701896397, date := "2024-03-02", notes := none }],
    budgets := [] }

/-- Transaction 1 of `decimalLedgerDb` with the amount 0.2, the double
`3602879701896397 / 2 ^ 54`, on the same account. -/
def decimalRaiseBody : TransactionBody :=
  { description := "Paie", amount := 7205759403792794, categoryId := 1, accountId := 1,
    date := "2024-03-01", notes := none }

/-- Transaction 2 of `decimalLedgerDb` sent again with its amount -0.1 and its
account. -/
def decimalSameBody : TransactionBody :=
  { description := "Loyer", amount := -3602879701896397, categoryId := 2, accountId := 1,
    date := "2024-03-02", notes := none }

/-- Whole amounts on `ledgerExampleDb`: an income of 100000 on account 1, its update to
90000 with the account id sent as a string, and its deletion. -/
def rangeExampleOps : List TxOpF :=
  [.create 1 { description := "Salaire", amount := 100000, categoryId := 1, accountId := 1,
               date := "2024-03-01", notes := none },
   .update 1 2 { description := "Salaire", amount := 90000, categoryId := 1,
                 accountId := 1, date := "2024-03-01", notes := none } true,
   .duplicate 1 2 { description := none, date := none } "2024-03-05",
   .delete 1 2]

/-- A request for an expense of 80000 on account 1 with the amount sent as the string
`"-80000"`. -/
def overdraftTextRequest : TransactionRequest :=
  { description := "Loyer", amount := .text "-80000", categoryId := 1, accountId := 1,
    date := "2024-03-01", notes := none }

/-- The same request with the amount sent as the number -80000. -/
def overdraftNumberRequest : TransactionRequest :=
  { description := "Loyer", amount := .number (-80000), categoryId := 1, accountId := 1,
    date := "2024-03-01", notes := none }

/-- JavaScript `n + s` for a number `n` that is whole and not negative and a string `s`
of digits: the digits of `n` followed by `s`, here as the number the joined digits
write, which is what SQLite keeps of them in a numeric column. -/
def concatDigits (n : Int) (s : String) : Int :=
  n * 10 ^ s.length + (digitsValue s.toList : Int)

/-- `POST /goals/:id/contribute` (goals.js, lines 258-323) when `amount` is sent as a
string; the route has no validator on the body.  `!amount` holds for the empty string
only, `amount <= 0` converts the string to the number it writes, and
`goal.currentAmount + amount` concatenates.  `none` when the string is not made of
digits or the current amount is negative, which this model does not cover. -/
def contributeToGoalText (db : Db) (userId id : Nat) (amount : String) :
    Option (Reply (Goal × GoalView) × Db) :=
  if amount = "" then some (.error 400 .INVALID_CONTRIBUTION_AMOUNT, db)
  else if amount.toList.all Char.isDigit = false then none
  else if digitsValue amount.toList = 0 then
    some (.error 400 .INVALID_CONTRIBUTION_AMOUNT, db)
  else
    match findGoal db id userId with
    | none => some (.error 404 .GOAL_NOT_FOUND, db)
    | some goal =>
      if goal.currentAmount < 0 then none
      else
        let newCurrentAmount := concatDigits goal.currentAmount amount
        let db1 := updateGoalAmount db newCurrentAmount id userId
        match db1.goals.find? (fun g => decide (g.id = id)) with
        | none => some (.error 500 .INTERNAL_ERROR, db1)
        | some updatedGoal =>
          let progress : ℚ :=
            if updatedGoal.targetAmount > 0 then
              ((updatedGoal.currentAmount : ℚ) / (updatedGoal.targetAmount : ℚ)) * 100
            else 0
          let remaining := max 0 (updatedGoal.targetAmount - updatedGoal.currentAmount)
          let isCompleted := decide (updatedGoal.currentAmount ≥ updatedGoal.targetAmount)
          some (.data 200 (updatedGoal,
            { progress := min 100 progress, remaining := remaining,
              isCompleted := isCompleted,
              status := if isCompleted then .completed else .active }), db1)

/-- From the empty database: create the expense category "Transport", a budget of user 1
on it from 10 to 20 March 2024, then update the category to type income. -/
def retypedBudgetOps : List Operation :=
  [.createCategory "Transport" .expense none,
   .createBudget 1 { categoryId := 1, amount := 50000, period := "monthly",
                     startDate := "2024-03-10", endDate := "2024-03-20" },
   .updateCategory 1 "Transport" .income "#3B82F6"]

/-- The state `retypedBudgetOps` leads to. -/
def retypedBudgetDb : Db :=
  runOperations Db.empty retypedBudgetOps

/-- A quarter of an hour on 14 March 2024, written in UTC. -/
def eveningBody : BudgetBody :=
  { categoryId := 1, amount := 50000, period := "weekly",
    startDate := "2024-03-14T23:30:00Z", endDate := "2024-03-14T23:45:00Z" }

/-- A window that starts at 19:00 UTC, written with the offset +05:00, and ends at 23:00
UTC: the end is after the start as instants, which is what `validateBudget` compares,
and before the start as text, which is what SQLite compares. -/
def offsetBody : BudgetBody :=
  { categoryId := 1, amount := 80000, period := "weekly",
    startDate := "2024-03-15T00:00:00+05:00", endDate := "2024-03-14T23:00:00Z" }

/-- From the empty database: create the expense category "Transport" and a budget of
user 1 on it with the window of `offsetBody`. -/
def offsetBudgetOps : List Operation :=
  [.createCategory "Transport" .expense none, .createBudget 1 offsetBody]

/-- The state `offsetBudgetOps` leads to. -/
def offsetBudgetDb : Db :=
  runOperations Db.empty offsetBudgetOps

/-- From the empty database: create the expense category "Transport", then a budget of
user 1 on it with the window of `eveningBody` and one with the window of
`offsetBody`. -/
def twoWindowsOps : List Operation :=
  [.createCategory "Transport" .expense none, .createBudget 1 eveningBody,
   .createBudget 1 offsetBody]

/-- The state `twoWindowsOps` leads to. -/
def twoWindowsDb : Db :=
  runOperations Db.empty twoWindowsOps

/-- From the empty database: open a checking account with balance 100000, create the
expense category "Logement", record an expense of 60000 in it, then update the category
to type income. -/
def retypedExpenseOps : List Operation :=
  [.createAccount 1 "BOA" "BOA" .checking (some 100000),
   .createCategory "Logement" .expense none,
   .transaction (.create 1 { description := "Loyer", amount := -60000, categoryId := 1,
                             accountId := 1, date := "2024-03-01", notes := none }),
   .updateCategory 1 "Logement" .income "#3B82F6"]

/-- The state `retypedExpenseOps` leads to. -/
def retypedExpenseDb : Db :=
  runOperations Db.empty retypedExpenseOps

/-- The expense of `retypedExpenseDb`. -/
def retypedExpense : Transaction :=
  { id := 1, userId := 1, accountId := 1, categoryId := 1, description := "Loyer",
    amount := -60000, date := "2024-03-01", notes := none }

/-! ## Theorems -/

/-! ### Row ids -/

theorem le_maxId {ids : List Nat} {x : Nat} (h : x ∈ ids) : x ≤ maxId ids := by
  induction ids with
  | nil => cases h
  | cons y ys ih =>
    rcases List.mem_cons.mp h with rfl | h
    · exact le_max_left _ _
    · exact le_trans (ih h) (le_max_right _ _)

theorem lastInsertRowid_not_mem (ids : List Nat) : lastInsertRowid ids ∉ ids := by
  intro h
  have := le_maxId h
  unfold lastInsertRowid at this
  omega

theorem lastInsertRowid_ne_of_mem {ts : List Transaction} {t : Transaction} (h : t ∈ ts) :
    t.id ≠ lastInsertRowid (ts.map (fun t => t.id)) := by
  intro heq
  have hmem : t.id ∈ ts.map (fun t => t.id) := List.mem_map.mpr ⟨t, h, rfl⟩
  rw [heq] at hmem
  exact lastInsertRowid_not_mem _ hmem

/-! ### Balances under the balance statements -/

theorem balanceOf_updateBalance (db : Db) (amount : Int) (x accountId : Nat) :
    balanceOf (updateBalance db amount x) accountId =
      if x = accountId then (balanceOf db accountId).map (fun b => b + amount)
      else balanceOf db accountId := by
  unfold balanceOf updateBalance
  simp only [List.find?_map]
  have hfun : ((fun a : Account => decide (a.id = accountId)) ∘
      fun a : Account => if a.id = x then { a with balance := a.balance + amount } else a) =
      fun a : Account => decide (a.id = accountId) := by
    funext a
    by_cases h : a.id = x <;> simp [h]
  rw [hfun]
  cases hf : db.accounts.find? (fun a => decide (a.id = accountId)) with
  | none => simp
  | some a =>
    have hid : a.id = accountId := by simpa using List.find?_some hf
    by_cases hx : x = accountId
    · subst hx; simp [hid]
    · have : a.id ≠ x := by rw [hid]; exact fun h => hx h.symm
      simp [hx, this]

theorem balanceOf_revertBalance (db : Db) (amount : Int) (x accountId : Nat) :
    balanceOf (revertBalance db amount x) accountId =
      if x = accountId then (balanceOf db accountId).map (fun b => b - amount)
      else balanceOf db accountId := by
  unfold balanceOf revertBalance
  simp only [List.find?_map]
  have hfun : ((fun a : Account => decide (a.id = accountId)) ∘
      fun a : Account => if a.id = x then { a with balance := a.balance - amount } else a) =
      fun a : Account => decide (a.id = accountId) := by
    funext a
    by_cases h : a.id = x <;> simp [h]
  rw [hfun]
  cases hf : db.accounts.find? (fun a => decide (a.id = accountId)) with
  | none => simp
  | some a =>
    have hid : a.id = accountId := by simpa using List.find?_some hf
    by_cases hx : x = accountId
    · subst hx; simp [hid]
    · have : a.id ≠ x := by rw [hid]; exact fun h => hx h.symm
      simp [hx, this]

/-! ### Sums of amounts under the row statements -/

theorem amountsOn_cons (t : Transaction) (ts : List Transaction) (accountId : Nat) :
    amountsOn (t :: ts) accountId =
      (if t.accountId = accountId then t.amount else 0) + amountsOn ts accountId := by
  unfold amountsOn
  by_cases h : t.accountId = accountId <;> simp [List.filter_cons, h]

theorem amountsOn_append_singleton (ts : List Transaction) (t : Transaction)
    (accountId : Nat) :
    amountsOn (ts ++ [t]) accountId =
      amountsOn ts accountId + (if t.accountId = accountId then t.amount else 0) := by
  induction ts with
  | nil =>
    rw [List.nil_append, amountsOn_cons]
    simp [amountsOn]
  | cons r rs ih => simp only [List.cons_append, amountsOn_cons, ih]; ring

theorem filter_eq_self_of_id_ne {ts : List Transaction} {id : Nat} (userId : Nat)
    (h : ∀ r ∈ ts, r.id ≠ id) :
    ts.filter (fun t => !decide (t.id = id ∧ t.userId = userId)) = ts := by
  apply List.filter_eq_self.mpr
  intro r hr
  simp [h r hr]

theorem map_eq_self_of_id_ne {ts : List Transaction} {id : Nat} (userId : Nat)
    (f : Transaction → Transaction) (h : ∀ r ∈ ts, r.id ≠ id) :
    ts.map (fun t => if t.id = id ∧ t.userId = userId then f t else t) = ts := by
  conv_rhs => rw [← List.map_id ts]
  apply List.map_congr_left
  intro r hr
  simp [h r hr]

theorem amountsOn_delete {ts : List Transaction} {t : Transaction} {id userId : Nat}
    (hu : (ts.map (fun t => t.id)).Nodup)
    (hf : ts.find? (fun t => decide (t.id = id ∧ t.userId = userId)) = some t)
    (accountId : Nat) :
    amountsOn (ts.filter (fun t => !decide (t.id = id ∧ t.userId = userId))) accountId =
      amountsOn ts accountId - (if t.accountId = accountId then t.amount else 0) := by
  induction ts with
  | nil => simp at hf
  | cons r rs ih =>
    simp only [List.map_cons, List.nodup_cons] at hu
    by_cases hr : r.id = id ∧ r.userId = userId
    · have hrt : r = t := by simpa [List.find?_cons, hr] using hf
      subst hrt
      have hne : ∀ x ∈ rs, x.id ≠ id := by
        intro x hx hxid
        exact hu.1 (List.mem_map.mpr ⟨x, hx, by rw [hxid, hr.1]⟩)
      rw [List.filter_cons]
      simp only [hr, and_self, decide_True, Bool.not_true, Bool.false_eq_true, ↓reduceIte]
      rw [filter_eq_self_of_id_ne userId hne, amountsOn_cons]
      ring
    · have hf' : rs.find? (fun t => decide (t.id = id ∧ t.userId = userId)) = some t := by
        simpa [List.find?_cons, hr] using hf
      rw [List.filter_cons]
      simp only [hr, decide_False, Bool.not_false, ↓reduceIte]
      rw [amountsOn_cons, amountsOn_cons, ih hu.2 hf']
      ring

theorem amountsOn_update {ts : List Transaction} {t : Transaction} {id userId : Nat}
    (f : Transaction → Transaction)
    (hu : (ts.map (fun t => t.id)).Nodup)
    (hf : ts.find? (fun t => decide (t.id = id ∧ t.userId = userId)) = some t)
    (accountId : Nat) :
    amountsOn (ts.map (fun t => if t.id = id ∧ t.userId = userId then f t else t))
        accountId =
      amountsOn ts accountId - (if t.accountId = accountId then t.amount else 0) +
        (if (f t).accountId = accountId then (f t).amount else 0) := by
  induction ts with
  | nil => simp at hf
  | cons r rs ih =>
    simp only [List.map_cons, List.nodup_cons] at hu
    by_cases hr : r.id = id ∧ r.userId = userId
    · have hrt : r = t := by simpa [List.find?_cons, hr] using hf
      subst hrt
      have hne : ∀ x ∈ rs, x.id ≠ id := by
        intro x hx hxid
        exact hu.1 (List.mem_map.mpr ⟨x, hx, by rw [hxid, hr.1]⟩)
      rw [List.map_cons, map_eq_self_of_id_ne userId f hne]
      simp only [hr, and_self, ↓reduceIte]
      rw [amountsOn_cons, amountsOn_cons]
      ring
    · have hf' : rs.find? (fun t => decide (t.id = id ∧ t.userId = userId)) = some t := by
        simpa [List.find?_cons, hr] using hf
      rw [List.map_cons]
      simp only [hr, ↓reduceIte]
      rw [amountsOn_cons, amountsOn_cons, ih hu.2 hf']
      ring

/-! ### The primary key of `transactions` is kept -/

theorem nodup_ids_insert {ts : List Transaction} (t : Transaction)
    (hu : (ts.map (fun t => t.id)).Nodup)
    (hid : t.id = lastInsertRowid (ts.map (fun t => t.id))) :
    ((ts ++ [t]).map (fun t => t.id)).Nodup := by
  rw [List.map_append, List.map_singleton]
  refine List.Nodup.append hu (List.nodup_singleton _) ?_
  intro x hx hx'
  rw [List.mem_singleton] at hx'
  subst hx'
  rw [hid] at hx
  exact lastInsertRowid_not_mem _ hx

theorem nodup_ids_delete {ts : List Transaction} (p : Transaction → Bool)
    (hu : (ts.map (fun t => t.id)).Nodup) :
    ((ts.filter p).map (fun t => t.id)).Nodup :=
  hu.sublist ((List.filter_sublist ts).map _)

theorem nodup_ids_update {ts : List Transaction} (id userId : Nat)
    (f : Transaction → Transaction) (hf : ∀ t, (f t).id = t.id)
    (hu : (ts.map (fun t => t.id)).Nodup) :
    ((ts.map (fun t => if t.id = id ∧ t.userId = userId then f t else t)).map
      (fun t => t.id)).Nodup := by
  have : (ts.map (fun t => if t.id = id ∧ t.userId = userId then f t else t)).map
      (fun t => t.id) = ts.map (fun t => t.id) := by
    rw [List.map_map]
    apply List.map_congr_left
    intro r _
    by_cases h : r.id = id ∧ r.userId = userId <;> simp [h, hf]
  rw [this]
  exact hu

/-! ### Every transaction call keeps the ledger base of every account -/

theorem ledgerBase_eq_of {db db' : Db} {accountId : Nat} (d : Int)
    (hb : balanceOf db' accountId = (balanceOf db accountId).map (fun b => b + d))
    (hs : sumOfAmounts db' accountId = sumOfAmounts db accountId + d) :
    ledgerBase db' accountId = ledgerBase db accountId := by
  unfold ledgerBase
  rw [hb, hs]
  cases balanceOf db accountId with
  | none => rfl
  | some b => simp only [Option.map_some']; congr 1; ring

theorem insert_apply_ledger (db : Db) (userId accountId categoryId : Nat)
    (description : String) (amount : Int) (date : String) (notes : Option String)
    (aid : Nat) (hu : TransactionIdsUnique db) :
    TransactionIdsUnique
      (updateBalance (insertTransaction db userId accountId categoryId description amount
        date notes).2 amount accountId) ∧
    ledgerBase
      (updateBalance (insertTransaction db userId accountId categoryId description amount
        date notes).2 amount accountId) aid = ledgerBase db aid := by
  constructor
  · exact nodup_ids_insert _ hu rfl
  · apply ledgerBase_eq_of (if accountId = aid then amount else 0)
    · rw [balanceOf_updateBalance]
      have : balanceOf (insertTransaction db userId accountId categoryId description amount
          date notes).2 aid = balanceOf db aid := rfl
      rw [this]
      by_cases h : accountId = aid
      · simp [h]
      · simp only [h, ↓reduceIte, add_zero]
        cases balanceOf db aid <;> rfl
    · show amountsOn (db.transactions ++ [_]) aid = _
      rw [amountsOn_append_singleton]
      rfl

theorem createTransaction_ledger (db : Db) (userId : Nat) (body : TransactionBody)
    (aid : Nat) (hu : TransactionIdsUnique db) :
    TransactionIdsUnique (createTransaction db userId body).2 ∧
    ledgerBase (createTransaction db userId body).2 aid = ledgerBase db aid := by
  unfold createTransaction
  cases findAccount db body.accountId userId with
  | none => exact ⟨hu, rfl⟩
  | some account =>
    cases findCategory db body.categoryId with
    | none => exact ⟨hu, rfl⟩
    | some category =>
      simp only []
      split_ifs
      · exact ⟨hu, rfl⟩
      · exact ⟨hu, rfl⟩
      · exact ⟨hu, rfl⟩
      · exact insert_apply_ledger db _ _ _ _ _ _ _ aid hu

theorem duplicateTransaction_ledger (db : Db) (userId id : Nat) (body : DuplicateBody)
    (today : String) (aid : Nat) (hu : TransactionIdsUnique db) :
    TransactionIdsUnique (duplicateTransaction db userId id body today).2 ∧
    ledgerBase (duplicateTransaction db userId id body today).2 aid = ledgerBase db aid := by
  unfold duplicateTransaction
  split
  · exact ⟨hu, rfl⟩
  · split
    · exact ⟨hu, rfl⟩
    · dsimp only
      split_ifs
      · exact ⟨hu, rfl⟩
      · exact insert_apply_ledger db _ _ _ _ _ _ _ aid hu

theorem deleteTransaction_ledger (db : Db) (userId id : Nat)
    (aid : Nat) (hu : TransactionIdsUnique db) :
    TransactionIdsUnique (deleteTransaction db userId id).2 ∧
    ledgerBase (deleteTransaction db userId id).2 aid = ledgerBase db aid := by
  unfold deleteTransaction
  cases hf : findTransaction db id userId with
  | none => exact ⟨hu, rfl⟩
  | some t =>
    constructor
    · exact nodup_ids_delete _ hu
    · apply ledgerBase_eq_of (-(if t.accountId = aid then t.amount else 0))
      · have : balanceOf (deleteTransactionRow (revertBalance db t.amount t.accountId) id
            userId) aid = balanceOf (revertBalance db t.amount t.accountId) aid := rfl
        rw [this, balanceOf_revertBalance]
        by_cases h : t.accountId = aid
        · simp only [h, ↓reduceIte]
          cases balanceOf db aid with
          | none => rfl
          | some b => simp only [Option.map_some']; congr 1
        · simp only [h, ↓reduceIte, neg_zero, add_zero]
          cases balanceOf db aid <;> rfl
      · show amountsOn (db.transactions.filter _) aid = _
        rw [amountsOn_delete hu hf]
        rfl

theorem updateTransaction_ledger (db : Db) (userId id : Nat) (body : TransactionBody)
    (aid : Nat) (hu : TransactionIdsUnique db) :
    TransactionIdsUnique (updateTransaction db userId id body).2 ∧
    ledgerBase (updateTransaction db userId id body).2 aid = ledgerBase db aid := by
  unfold updateTransaction
  cases hf : findTransaction db id userId with
  | none => exact ⟨hu, rfl⟩
  | some t =>
    cases findAccount db body.accountId userId with
    | none => exact ⟨hu, rfl⟩
    | some account =>
      cases findCategory db body.categoryId with
      | none => exact ⟨hu, rfl⟩
      | some category =>
        simp only []
        split_ifs with h1 h2 hsame
        · exact ⟨hu, rfl⟩
        · exact ⟨hu, rfl⟩
        · constructor
          · exact nodup_ids_update id userId _ (fun _ => rfl) hu
          · apply ledgerBase_eq_of
              ((if body.accountId = aid then body.amount else 0) -
                (if t.accountId = aid then t.amount else 0))
            · have : ∀ d, balanceOf (updateTransactionRow d body.description body.amount
                  body.categoryId body.accountId body.date (jsOrNull body.notes) id userId)
                  aid = balanceOf d aid := fun _ => rfl
              rw [this, balanceOf_updateBalance]
              by_cases h : body.accountId = aid
              · have h' : t.accountId = aid := hsame.trans h
                simp only [h, h', ↓reduceIte]
              · have h' : ¬ t.accountId = aid := fun e => h (hsame ▸ e)
                simp only [h, h', ↓reduceIte, sub_zero, add_zero]
                cases balanceOf db aid <;> rfl
            · show amountsOn (db.transactions.map _) aid = _
              rw [amountsOn_update _ hu hf]
              show _ = amountsOn db.transactions aid + _
              ring
        · constructor
          · exact nodup_ids_update id userId _ (fun _ => rfl) hu
          · apply ledgerBase_eq_of
              ((if body.accountId = aid then body.amount else 0) -
                (if t.accountId = aid then t.amount else 0))
            · have : ∀ d, balanceOf (updateTransactionRow d body.description body.amount
                  body.categoryId body.accountId body.date (jsOrNull body.notes) id userId)
                  aid = balanceOf d aid := fun _ => rfl
              rw [this, balanceOf_updateBalance, balanceOf_revertBalance]
              by_cases h : body.accountId = aid
              · have h' : ¬ t.accountId = aid := fun e => hsame (e.trans h.symm)
                simp only [h, h', ↓reduceIte, sub_zero]
              · by_cases h' : t.accountId = aid
                · simp only [h, h', ↓reduceIte, zero_sub]
                  cases balanceOf db aid with
                  | none => rfl
                  | some b => simp only [Option.map_some']; congr 1
                · simp only [h, h', ↓reduceIte, sub_zero, add_zero]
                  cases balanceOf db aid <;> rfl
            · show amountsOn (db.transactions.map _) aid = _
              rw [amountsOn_update _ hu hf]
              show _ = amountsOn db.transactions aid + _
              ring

/-! ### Claims -/

theorem createTransaction_code_insufficient_iff (db : Db) (userId : Nat)
    (body : TransactionBody) :
    (createTransaction db userId body).1.code? = some .INSUFFICIENT_FUNDS ↔
      ∃ account category,
        findAccount db body.accountId userId = some account ∧
        findCategory db body.categoryId = some category ∧
        signMatches body.amount category.type ∧
        body.amount < 0 ∧ account.type ≠ .credit ∧ account.balance + body.amount < 0 := by
  unfold createTransaction
  cases hA : findAccount db body.accountId userId with
  | none => simp [Response.code?]
  | some account =>
    cases hC : findCategory db body.categoryId with
    | none => simp [Response.code?]
    | some category =>
      simp only []
      split_ifs with h1 h2 h3
      · simp only [Response.code?, Option.some.injEq, reduceCtorEq, false_iff]
        rintro ⟨a, c, ha, hc, hs, hneg, -, -⟩
        omega
      · simp only [Response.code?, Option.some.injEq, reduceCtorEq, false_iff]
        rintro ⟨a, c, ha, hc, hs, hneg, -, -⟩
        cases hc
        exact h2.2 (hs.2 hneg)
      · simp only [Response.code?, true_iff]
        refine ⟨account, category, rfl, rfl, ⟨fun hpos => ?_, fun hneg => ?_⟩, h3⟩
        · omega
        · by_contra hne; exact h2 ⟨hneg, hne⟩
      · simp only [Response.code?, insertTransaction, Option.some.injEq, reduceCtorEq,
          false_iff]
        rintro ⟨a, c, ha, hc, hs, hneg, hcred, hlt⟩
        cases ha
        exact h3 ⟨hneg, hcred, hlt⟩

/-- The funds check for an amount sent as a whole JSON number, the sum being exact:
`createTransaction` answers `INSUFFICIENT_FUNDS` exactly when the account is
owned by the caller, the category exists, the sign matches the category type, the
amount is negative, the account is not a credit account and balance plus amount is
negative; the answer then reports the current balance, the amount and their sum, and
the database is unchanged.  An expense of 80000 on a checking account with balance
70000 fails and leaves the balance at 70000. -/
theorem createTransaction_insufficient_funds_iff (db : Db) (userId : Nat)
    (body : TransactionBody) :
    ((createTransaction db userId body).1.code? = some .INSUFFICIENT_FUNDS ↔
      ∃ account category,
        findAccount db body.accountId userId = some account ∧
        findCategory db body.categoryId = some category ∧
        signMatches body.amount category.type ∧
        body.amount < 0 ∧ account.type ≠ .credit ∧ account.balance + body.amount < 0) ∧
    ((createTransaction db userId body).1.code? = some .INSUFFICIENT_FUNDS ↔
      ∃ account,
        findAccount db body.accountId userId = some account ∧
        createTransaction db userId body =
          (.failure 400 .INSUFFICIENT_FUNDS
            (some (.funds account.balance body.amount (account.balance + body.amount))),
            db)) ∧
    createTransaction fundsExampleDb 1 fundsExampleBody =
      (.failure 400 .INSUFFICIENT_FUNDS (some (.funds 70000 (-80000) (-10000))),
        fundsExampleDb) ∧
    balanceOf (createTransaction fundsExampleDb 1 fundsExampleBody).2 1 = some 70000 := by
  refine ⟨createTransaction_code_insufficient_iff db userId body, ?_, by decide, by decide⟩
  · unfold createTransaction
    cases hA : findAccount db body.accountId userId with
    | none => simp [Response.code?]
    | some account =>
      cases hC : findCategory db body.categoryId with
      | none => simp [Response.code?]
      | some category =>
        simp only []
        split_ifs with h1 h2 h3 <;> simp [Response.code?]

theorem TxOp.handle_ledger (db : Db) (op : TxOp) (aid : Nat)
    (hu : TransactionIdsUnique db) :
    TransactionIdsUnique (op.handle db).2 ∧
    ledgerBase (op.handle db).2 aid = ledgerBase db aid := by
  cases op with
  | create userId body => exact createTransaction_ledger db userId body aid hu
  | update userId id body => exact updateTransaction_ledger db userId id body aid hu
  | delete userId id => exact deleteTransaction_ledger db userId id aid hu
  | duplicate userId id body today =>
    exact duplicateTransaction_ledger db userId id body today aid hu

theorem runTxOps_ledger (ops : List TxOp) (db : Db) (aid : Nat)
    (hu : TransactionIdsUnique db) :
    TransactionIdsUnique (runTxOps db ops) ∧
    ledgerBase (runTxOps db ops) aid = ledgerBase db aid := by
  induction ops generalizing db with
  | nil => exact ⟨hu, rfl⟩
  | cons op ops ih =>
    have hstep := TxOp.handle_ledger db op aid hu
    have hrest := ih (op.handle db).2 hstep.1
    exact ⟨hrest.1, hrest.2.trans hstep.2⟩

/-- Balance conservation with exact sums.  From a database (with the primary key of `transactions`
in force) in which an account has balance `b0` and no transaction, after any finite
sequence of create, update, delete and duplicate calls, each succeeding or failing, the
balance of the account is `b0` plus the sum of the amounts of the transactions that
then exist on it. -/
theorem balance_conservation (db : Db) (accountId : Nat) (b0 : Int) (ops : List TxOp)
    (hunique : TransactionIdsUnique db)
    (hbalance : balanceOf db accountId = some b0)
    (hnone : transactionsOn db accountId = []) :
    balanceOf (runTxOps db ops) accountId =
      some (b0 + sumOfAmounts (runTxOps db ops) accountId) := by
  have h := (runTxOps_ledger ops db accountId hunique).2
  have hzero : sumOfAmounts db accountId = 0 := by
    unfold sumOfAmounts amountsOn
    unfold transactionsOn at hnone
    rw [hnone]
    rfl
  unfold ledgerBase at h
  rw [hbalance, hzero] at h
  cases hb : balanceOf (runTxOps db ops) accountId with
  | none => rw [hb] at h; simp at h
  | some b =>
    rw [hb] at h
    simp only [Option.map_some', Option.some.injEq, sub_zero] at h
    rw [← h]
    congr 1
    ring

theorem balanceOf_isSome_of_findAccount {db : Db} {accountId userId : Nat}
    {account : Account} (h : findAccount db accountId userId = some account) :
    ∃ b, balanceOf db accountId = some b := by
  have hmem : account ∈ db.accounts := List.mem_of_find?_eq_some h
  have hp : account.id = accountId ∧ account.userId = userId := by
    simpa using List.find?_some h
  cases hfind : db.accounts.find? (fun a => decide (a.id = accountId)) with
  | none =>
    have := List.find?_eq_none.mp hfind account hmem
    simp [hp.1] at this
  | some a => exact ⟨a.balance, by simp [balanceOf, hfind]⟩

/-- C3, counterexample: notes sent as the empty string are not carried by the new
transaction, which stores null. -/
theorem createTransaction_empty_notes_not_carried :
    emptyNotesBody.notes = some "" ∧
    createTransaction createExampleDb 1 emptyNotesBody =
      (.success 201 1,
        { createExampleDb with
          accounts := [{ id := 1, userId := 1, name := "BOA", bank := "BOA",
                         type := .checking, balance := 70000 }],
          transactions := [{ id := 1, userId := 1, accountId := 1, categoryId := 1,
                             description := "Loyer", amount := -30000,
                             date := "2024-03-01", notes := none }] }) := by
  decide

/-- C3, amended: when `createTransaction` passes its checks (account owned by the
caller, category exists, sign matches the category type, funds sufficient) it answers
201 with a fresh id, appends exactly one transaction carrying the given owner, account,
category, description, amount and date and the given notes with empty notes stored as
null, keeps every earlier transaction, adds the amount to the balance of the account
and keeps the balance of every other account. -/
theorem createTransaction_effect (db : Db) (userId : Nat) (body : TransactionBody)
    (account : Account) (category : Category)
    (haccount : findAccount db body.accountId userId = some account)
    (hcategory : findCategory db body.categoryId = some category)
    (hsign : signMatches body.amount category.type)
    (hfunds : ¬ (body.amount < 0 ∧ account.type ≠ .credit ∧
      account.balance + body.amount < 0)) :
    ∃ newId,
      (createTransaction db userId body).1 = .success 201 newId ∧
      (∀ t ∈ db.transactions, t.id ≠ newId) ∧
      (createTransaction db userId body).2.transactions =
        db.transactions ++
          [{ id := newId, userId := userId, accountId := body.accountId,
             categoryId := body.categoryId, description := body.description,
             amount := body.amount, date := body.date, notes := jsOrNull body.notes }] ∧
      (∃ b, balanceOf db body.accountId = some b ∧
        balanceOf (createTransaction db userId body).2 body.accountId =
          some (b + body.amount)) ∧
      (∀ other, other ≠ body.accountId →
        balanceOf (createTransaction db userId body).2 other = balanceOf db other) := by
  have h1 : ¬ (body.amount > 0 ∧ category.type ≠ .income) := fun h => h.2 (hsign.1 h.1)
  have h2 : ¬ (body.amount < 0 ∧ category.type ≠ .expense) := fun h => h.2 (hsign.2 h.1)
  have hres : createTransaction db userId body =
      (.success 201 (lastInsertRowid (db.transactions.map (fun t => t.id))),
        updateBalance (insertTransaction db userId body.accountId body.categoryId
          body.description body.amount body.date (jsOrNull body.notes)).2 body.amount
          body.accountId) := by
    unfold createTransaction
    rw [haccount, hcategory]
    simp only [h1, h2, hfunds, if_false]
    rfl
  rw [hres]
  refine ⟨_, rfl, fun t ht => lastInsertRowid_ne_of_mem ht, rfl, ?_, ?_⟩
  · obtain ⟨b, hb⟩ := balanceOf_isSome_of_findAccount haccount
    refine ⟨b, hb, ?_⟩
    rw [balanceOf_updateBalance]
    simp only [if_true]
    show (balanceOf db body.accountId).map _ = _
    rw [hb]
    rfl
  · intro other hother
    rw [balanceOf_updateBalance]
    simp only [Ne.symm hother, if_false]
    rfl

theorem createTransaction_effect_witness :
    balanceOf createExampleDb 1 = some 100000 ∧
    balanceOf (createTransaction createExampleDb 1 createExampleBody).2 1 = some 70000 ∧
    ∃ newId,
      (createTransaction createExampleDb 1 createExampleBody).1 = .success 201 newId ∧
      (∀ t ∈ createExampleDb.transactions, t.id ≠ newId) ∧
      (createTransaction createExampleDb 1 createExampleBody).2.transactions =
        createExampleDb.transactions ++
          [{ id := newId, userId := 1, accountId := 1, categoryId := 1,
             description := "Loyer", amount := -30000, date := "2024-03-01",
             notes := some "Mars" }] ∧
      (∃ b, balanceOf createExampleDb 1 = some b ∧
        balanceOf (createTransaction createExampleDb 1 createExampleBody).2 1 =
          some (b + -30000)) ∧
      (∀ other, other ≠ 1 →
        balanceOf (createTransaction createExampleDb 1 createExampleBody).2 other =
          balanceOf createExampleDb other) :=
  ⟨by decide, by decide,
    createTransaction_effect createExampleDb 1 createExampleBody
      { id := 1, userId := 1, name := "BOA", bank := "BOA", type := .checking,
        balance := 100000 }
      { id := 1, name := "Logement", type := .expense, color := "#3B82F6" }
      (by decide) (by decide) (by decide) (by decide)⟩

/-- C4, the code at the failing input: after an account, an income category and a
positive transaction in that category are created, `updateCategory` changes the type of
the category to expense without looking at its transactions; the resulting state holds
a transaction with a positive amount whose category has type expense. -/
theorem updateCategory_breaks_sign_consistency :
    SignConsistent (runRequests Db.empty (retypeCategoryRequests.take 3)) ∧
    (Request.handle (runRequests Db.empty (retypeCategoryRequests.take 3))
      (.updateCategory 1 "Salaire" .expense "#3B82F6")).1 = .success 200 1 ∧
    (runRequests Db.empty retypeCategoryRequests).transactions =
      [{ id := 1, userId := 1, accountId := 1, categoryId := 1,
         description := "Salaire mensuel", amount := 850000, date := "2024-01-01",
         notes := none }] ∧
    (runRequests Db.empty retypeCategoryRequests).categories =
      [{ id := 1, name := "Salaire", type := .expense, color := "#3B82F6" }] ∧
    ¬ SignConsistent (runRequests Db.empty retypeCategoryRequests) := by
  decide

theorem find?_id_of_find?_owner {accounts : List Account} {x u : Nat} {a : Account}
    (hu : (accounts.map (fun a => a.id)).Nodup)
    (h : accounts.find? (fun a => decide (a.id = x ∧ a.userId = u)) = some a) :
    accounts.find? (fun a => decide (a.id = x)) = some a := by
  induction accounts with
  | nil => simp at h
  | cons r rs ih =>
    simp only [List.map_cons, List.nodup_cons] at hu
    by_cases hr : r.id = x
    · by_cases hru : r.userId = u
      · have : r = a := by simpa [List.find?_cons, hr, hru] using h
        subst this
        simp [List.find?_cons, hr]
      · have h' : rs.find? (fun a => decide (a.id = x ∧ a.userId = u)) = some a := by
          simpa [List.find?_cons, hr, hru] using h
        have hmem : a ∈ rs := List.mem_of_find?_eq_some h'
        have hp : a.id = x ∧ a.userId = u := by simpa using List.find?_some h'
        exact absurd (List.mem_map.mpr ⟨a, hmem, by rw [hp.1, hr]⟩) hu.1
    · have h' : rs.find? (fun a => decide (a.id = x ∧ a.userId = u)) = some a := by
        simpa [List.find?_cons, hr] using h
      simpa [List.find?_cons, hr] using ih hu.2 h'

theorem balanceOf_of_findAccount {db : Db} {accountId userId : Nat} {account : Account}
    (hu : AccountIdsUnique db) (h : findAccount db accountId userId = some account) :
    balanceOf db accountId = some account.balance ∧
    accountTypeOf db accountId = some account.type := by
  have := find?_id_of_find?_owner hu h
  simp [balanceOf, accountTypeOf, this]

/-- C5, counterexample: on a checking account that received an income of 50000 and
spent 50000 (balance 0), deleting the income commits and leaves the balance at
-50000. -/
theorem deleteTransaction_can_overdraw :
    accountTypeOf (runRequests Db.empty spendIncomeRequests) 1 = some .checking ∧
    balanceOf (runRequests Db.empty spendIncomeRequests) 1 = some 0 ∧
    (deleteTransaction (runRequests Db.empty spendIncomeRequests) 1 1).1 =
      .success 200 1 ∧
    balanceOf (deleteTransaction (runRequests Db.empty spendIncomeRequests) 1 1).2 1 =
      some (-50000) := by
  decide

/-- C6, the code at the failing input: on a checking account with balance 70000 that
carries an expense of 30000, updating that expense to 200000 is accepted and leaves the
balance at -100000, while `createTransaction` refuses the same body with
`INSUFFICIENT_FUNDS`. -/
theorem updateTransaction_skips_funds_check :
    accountTypeOf (runRequests Db.empty oneExpenseRequests) 1 = some .checking ∧
    balanceOf (runRequests Db.empty oneExpenseRequests) 1 = some 70000 ∧
    (updateTransaction (runRequests Db.empty oneExpenseRequests) 1 1 raisedExpenseBody).1 =
      .success 200 1 ∧
    balanceOf
      (updateTransaction (runRequests Db.empty oneExpenseRequests) 1 1 raisedExpenseBody).2
      1 = some (-100000) ∧
    (createTransaction (runRequests Db.empty oneExpenseRequests) 1 raisedExpenseBody).1 =
      .failure 400 .INSUFFICIENT_FUNDS (some (.funds 70000 (-200000) (-130000))) := by
  decide

theorem updateTransaction_success {db : Db} {userId id : Nat} {body : TransactionBody}
    {old : Transaction} (hold : findTransaction db id userId = some old)
    (hok : (updateTransaction db userId id body).1.isError = false) :
    (∃ account, findAccount db body.accountId userId = some account) ∧
    updateTransaction db userId id body =
      (.success 200 id,
        updateTransactionRow
          (if old.accountId = body.accountId then
            updateBalance db (body.amount - old.amount) body.accountId
          else
            updateBalance (revertBalance db old.amount old.accountId) body.amount
              body.accountId)
          body.description body.amount body.categoryId body.accountId body.date
          (jsOrNull body.notes) id userId) := by
  unfold updateTransaction at hok ⊢
  rw [hold] at hok ⊢
  dsimp only at hok ⊢
  cases haccount : findAccount db body.accountId userId with
  | none => rw [haccount] at hok; simp [Response.isError] at hok
  | some account =>
    rw [haccount] at hok
    dsimp only at hok ⊢
    cases hcategory : findCategory db body.categoryId with
    | none => rw [hcategory] at hok; simp [Response.isError] at hok
    | some category =>
      rw [hcategory] at hok
      dsimp only at hok ⊢
      by_cases h1 : body.amount > 0 ∧ category.type ≠ .income
      · rw [if_pos h1] at hok; simp [Response.isError] at hok
      · by_cases h2 : body.amount < 0 ∧ category.type ≠ .expense
        · rw [if_neg h1, if_pos h2] at hok; simp [Response.isError] at hok
        · rw [if_neg h1, if_neg h2]
          exact ⟨⟨account, rfl⟩, rfl⟩

/-- Update reconciliation with exact sums.  A successful `updateTransaction` on a transaction with
amount `old.amount` that keeps the account adds `newAmount - oldAmount` to the balance
of that account; one that moves the transaction to another account subtracts
`oldAmount` from the balance of the old account and adds `newAmount` to the balance of
the new account; the balance of every other account is unchanged. -/
theorem update_reconciliation (db : Db) (userId id : Nat) (body : TransactionBody)
    (old : Transaction)
    (hold : findTransaction db id userId = some old)
    (hok : (updateTransaction db userId id body).1.isError = false) :
    (old.accountId = body.accountId →
      ∃ b, balanceOf db body.accountId = some b ∧
        balanceOf (updateTransaction db userId id body).2 body.accountId =
          some (b + (body.amount - old.amount))) ∧
    (old.accountId ≠ body.accountId →
      (∀ b, balanceOf db old.accountId = some b →
        balanceOf (updateTransaction db userId id body).2 old.accountId =
          some (b - old.amount)) ∧
      ∃ b, balanceOf db body.accountId = some b ∧
        balanceOf (updateTransaction db userId id body).2 body.accountId =
          some (b + body.amount)) ∧
    (∀ other, other ≠ old.accountId → other ≠ body.accountId →
      balanceOf (updateTransaction db userId id body).2 other = balanceOf db other) := by
  obtain ⟨⟨account, haccount⟩, hres⟩ := updateTransaction_success hold hok
  obtain ⟨b, hb⟩ := balanceOf_isSome_of_findAccount haccount
  have hrow : ∀ d aid, balanceOf (updateTransactionRow d body.description body.amount
      body.categoryId body.accountId body.date (jsOrNull body.notes) id userId) aid =
      balanceOf d aid := fun _ _ => rfl
  rw [hres]
  dsimp only
  refine ⟨fun hsame => ?_, fun hmove => ⟨fun b0 hb0 => ?_, ?_⟩, fun other ho hn => ?_⟩
  · refine ⟨b, hb, ?_⟩
    rw [hrow, if_pos hsame, balanceOf_updateBalance, if_pos rfl, hb]
    rfl
  · rw [hrow, if_neg hmove, balanceOf_updateBalance, if_neg (Ne.symm hmove),
      balanceOf_revertBalance, if_pos rfl, hb0]
    rfl
  · refine ⟨b, hb, ?_⟩
    rw [hrow, if_neg hmove, balanceOf_updateBalance, if_pos rfl, balanceOf_revertBalance,
      if_neg hmove, hb]
    rfl
  · rw [hrow]
    by_cases hsame : old.accountId = body.accountId
    · rw [if_pos hsame, balanceOf_updateBalance, if_neg (Ne.symm hn)]
    · rw [if_neg hsame, balanceOf_updateBalance, if_neg (Ne.symm hn),
        balanceOf_revertBalance, if_neg (Ne.symm ho)]

theorem createTransaction_success {db : Db} {userId : Nat} {body : TransactionBody}
    (hok : (createTransaction db userId body).1.isError = false) :
    ∃ account category,
      findAccount db body.accountId userId = some account ∧
      findCategory db body.categoryId = some category ∧
      signMatches body.amount category.type ∧
      ¬ (body.amount < 0 ∧ account.type ≠ .credit ∧ account.balance + body.amount < 0) ∧
      createTransaction db userId body =
        (.success 201 (lastInsertRowid (db.transactions.map (fun t => t.id))),
          updateBalance (insertTransaction db userId body.accountId body.categoryId
            body.description body.amount body.date (jsOrNull body.notes)).2 body.amount
            body.accountId) := by
  unfold createTransaction at hok ⊢
  cases haccount : findAccount db body.accountId userId with
  | none => rw [haccount] at hok; simp [Response.isError] at hok
  | some account =>
    rw [haccount] at hok
    dsimp only at hok ⊢
    cases hcategory : findCategory db body.categoryId with
    | none => rw [hcategory] at hok; simp [Response.isError] at hok
    | some category =>
      rw [hcategory] at hok
      dsimp only at hok ⊢
      by_cases h1 : body.amount > 0 ∧ category.type ≠ .income
      · rw [if_pos h1] at hok; simp [Response.isError] at hok
      · by_cases h2 : body.amount < 0 ∧ category.type ≠ .expense
        · rw [if_neg h1, if_pos h2] at hok; simp [Response.isError] at hok
        · by_cases h3 : body.amount < 0 ∧ account.type ≠ .credit ∧
              account.balance + body.amount < 0
          · rw [if_neg h1, if_neg h2, if_pos h3] at hok; simp [Response.isError] at hok
          · rw [if_neg h1, if_neg h2, if_neg h3]
            refine ⟨account, category, rfl, rfl, ⟨fun hpos => ?_, fun hneg => ?_⟩, h3, rfl⟩
            · by_contra hne; exact h1 ⟨hpos, hne⟩
            · by_contra hne; exact h2 ⟨hneg, hne⟩

theorem revert_update_accounts (accounts : List Account) (amount : Int) (accountId : Nat) :
    (accounts.map (fun a =>
        if a.id = accountId then { a with balance := a.balance + amount } else a)).map
      (fun a => if a.id = accountId then { a with balance := a.balance - amount } else a) =
      accounts := by
  rw [List.map_map]
  conv_rhs => rw [← List.map_id accounts]
  apply List.map_congr_left
  intro a _
  by_cases h : a.id = accountId
  · cases a
    simp_all
  · simp [h]

theorem find_inserted (ts : List Transaction) (t : Transaction) (userId : Nat)
    (hid : t.id = lastInsertRowid (ts.map (fun t => t.id))) (huser : t.userId = userId) :
    (ts ++ [t]).find? (fun r => decide (r.id = t.id ∧ r.userId = userId)) = some t := by
  have hnone : ts.find? (fun r => decide (r.id = t.id ∧ r.userId = userId)) = none := by
    apply List.find?_eq_none.mpr
    intro r hr
    have := lastInsertRowid_ne_of_mem hr
    simp [hid, this]
  rw [List.find?_append, hnone]
  simp [List.find?_cons, huser]

theorem filter_inserted (ts : List Transaction) (t : Transaction) (userId : Nat)
    (hid : t.id = lastInsertRowid (ts.map (fun t => t.id))) (huser : t.userId = userId) :
    (ts ++ [t]).filter (fun r => !decide (r.id = t.id ∧ r.userId = userId)) = ts := by
  rw [List.filter_append,
    filter_eq_self_of_id_ne userId (fun r hr => hid ▸ lastInsertRowid_ne_of_mem hr)]
  simp [List.filter_cons, huser]

/-- Reversal with exact sums.  After a `createTransaction` that succeeds, deleting the
transaction it created succeeds, restores the balance of every account to its value
before the create and restores the transactions to what they were. -/
theorem delete_after_create_restores (db : Db) (userId : Nat) (body : TransactionBody)
    (hok : (createTransaction db userId body).1.isError = false) :
    ∃ newId,
      (createTransaction db userId body).1 = .success 201 newId ∧
      (deleteTransaction (createTransaction db userId body).2 userId newId).1 =
        .success 200 newId ∧
      (∀ accountId,
        balanceOf (deleteTransaction (createTransaction db userId body).2 userId newId).2
          accountId = balanceOf db accountId) ∧
      (deleteTransaction (createTransaction db userId body).2 userId newId).2.transactions =
        db.transactions := by
  obtain ⟨account, category, -, -, -, -, hres⟩ := createTransaction_success hok
  rw [hres]
  refine ⟨_, rfl, ?_⟩
  dsimp only
  have hfind : findTransaction
      (updateBalance (insertTransaction db userId body.accountId body.categoryId
        body.description body.amount body.date (jsOrNull body.notes)).2 body.amount
        body.accountId)
      (lastInsertRowid (db.transactions.map (fun t => t.id))) userId =
      some { id := lastInsertRowid (db.transactions.map (fun t => t.id)), userId := userId,
             accountId := body.accountId, categoryId := body.categoryId,
             description := body.description, amount := body.amount, date := body.date,
             notes := jsOrNull body.notes } :=
    find_inserted db.transactions
      { id := lastInsertRowid (db.transactions.map (fun t => t.id)), userId := userId,
        accountId := body.accountId, categoryId := body.categoryId,
        description := body.description, amount := body.amount, date := body.date,
        notes := jsOrNull body.notes } userId rfl rfl
  unfold deleteTransaction
  rw [hfind]
  dsimp only
  refine ⟨rfl, ?_, ?_⟩
  · intro accountId
    unfold balanceOf
    show Option.map _ (List.find? _ (List.map _ (List.map _ db.accounts))) = _
    rw [revert_update_accounts]
  · exact filter_inserted db.transactions
      { id := lastInsertRowid (db.transactions.map (fun t => t.id)), userId := userId,
        accountId := body.accountId, categoryId := body.categoryId,
        description := body.description, amount := body.amount, date := body.date,
        notes := jsOrNull body.notes } userId rfl rfl

theorem createTransaction_error_unchanged (db : Db) (userId : Nat) (body : TransactionBody)
    (h : (createTransaction db userId body).1.isError = true) :
    (createTransaction db userId body).2 = db := by
  unfold createTransaction at h ⊢
  split
  · rfl
  · split
    · rfl
    · rename_i account _ _ category _
      dsimp only at h ⊢
      by_cases h1 : body.amount > 0 ∧ category.type ≠ .income
      · rw [if_pos h1]
      · by_cases h2 : body.amount < 0 ∧ category.type ≠ .expense
        · rw [if_neg h1, if_pos h2]
        · by_cases h3 : body.amount < 0 ∧ account.type ≠ .credit ∧
              account.balance + body.amount < 0
          · rw [if_neg h1, if_neg h2, if_pos h3]
          · exfalso
            simp_all [Response.isError]

theorem updateTransaction_error_unchanged (db : Db) (userId id : Nat)
    (body : TransactionBody) (h : (updateTransaction db userId id body).1.isError = true) :
    (updateTransaction db userId id body).2 = db := by
  unfold updateTransaction at h ⊢
  split
  · rfl
  · split
    · rfl
    · split
      · rfl
      · rename_i category _
        dsimp only at h ⊢
        by_cases h1 : body.amount > 0 ∧ category.type ≠ .income
        · rw [if_pos h1]
        · by_cases h2 : body.amount < 0 ∧ category.type ≠ .expense
          · rw [if_neg h1, if_pos h2]
          · exfalso
            simp_all [Response.isError]

theorem deleteTransaction_error_unchanged (db : Db) (userId id : Nat)
    (h : (deleteTransaction db userId id).1.isError = true) :
    (deleteTransaction db userId id).2 = db := by
  unfold deleteTransaction at h ⊢
  split
  · rfl
  · exfalso
    simp_all [Response.isError]

theorem duplicateTransaction_error_unchanged (db : Db) (userId id : Nat)
    (body : DuplicateBody) (today : String)
    (h : (duplicateTransaction db userId id body today).1.isError = true) :
    (duplicateTransaction db userId id body today).2 = db := by
  unfold duplicateTransaction at h ⊢
  split
  · rfl
  · split
    · rfl
    · rename_i t _ _ account _
      dsimp only at h ⊢
      by_cases h3 : t.amount < 0 ∧ account.type ≠ .credit ∧ account.balance + t.amount < 0
      · rw [if_pos h3]
      · exfalso
        simp_all [Response.isError]

theorem deleteTransaction_of_none {db : Db} {userId id : Nat}
    (h : findTransaction db id userId = none) :
    deleteTransaction db userId id = (.failure 404 .TRANSACTION_NOT_FOUND none, db) := by
  unfold deleteTransaction
  rw [h]

theorem deleteTransaction_twice (db : Db) (userId id : Nat) :
    deleteTransaction (deleteTransaction db userId id).2 userId id =
      (.failure 404 .TRANSACTION_NOT_FOUND none, (deleteTransaction db userId id).2) := by
  have hnone : findTransaction (deleteTransaction db userId id).2 id userId = none := by
    unfold deleteTransaction
    cases hf : findTransaction db id userId with
    | none => exact hf
    | some t =>
      dsimp only
      unfold findTransaction deleteTransactionRow revertBalance
      apply List.find?_eq_none.mpr
      intro r hr
      have := (List.mem_filter.mp hr).2
      simp at this ⊢
      tauto
  exact deleteTransaction_of_none hnone

/-- C9: atomicity on error.  Whenever one of the four transaction calls answers with an
error, the database after the call is the database before it, so every balance and
every transaction row is as before; and deleting a transaction a second time answers
`TRANSACTION_NOT_FOUND` and changes nothing, so its amount is reversed only once. -/
theorem atomicity_on_error (db : Db) (op : TxOp) (userId id : Nat) :
    ((op.handle db).1.isError = true → (op.handle db).2 = db) ∧
    deleteTransaction (deleteTransaction db userId id).2 userId id =
      (.failure 404 .TRANSACTION_NOT_FOUND none, (deleteTransaction db userId id).2) := by
  refine ⟨fun h => ?_, deleteTransaction_twice db userId id⟩
  cases op with
  | create u body => exact createTransaction_error_unchanged db u body h
  | update u i body => exact updateTransaction_error_unchanged db u i body h
  | delete u i => exact deleteTransaction_error_unchanged db u i h
  | duplicate u i body today => exact duplicateTransaction_error_unchanged db u i body today h

theorem atomicity_on_error_witness :
    (TxOp.handle fundsExampleDb (.create 1 fundsExampleBody)).1.isError = true ∧
    (TxOp.handle fundsExampleDb (.create 1 fundsExampleBody)).2 = fundsExampleDb ∧
    (deleteTransaction moveExampleDb 1 1).1 = .success 200 1 ∧
    balanceOf (deleteTransaction moveExampleDb 1 1).2 1 = some 100000 ∧
    balanceOf (deleteTransaction (deleteTransaction moveExampleDb 1 1).2 1 1).2 1 =
      some 100000 :=
  ⟨by decide,
    (atomicity_on_error fundsExampleDb (.create 1 fundsExampleBody) 1 1).1 (by decide),
    by decide, by decide, by decide⟩

theorem duplicateTransaction_success {db : Db} {userId id : Nat} {body : DuplicateBody}
    {today : String} {source : Transaction}
    (hsource : findTransaction db id userId = some source)
    (hok : (duplicateTransaction db userId id body today).1.isError = false) :
    ∃ account,
      findAccount db source.accountId userId = some account ∧
      ¬ (source.amount < 0 ∧ account.type ≠ .credit ∧
        account.balance + source.amount < 0) ∧
      duplicateTransaction db userId id body today =
        (.success 201 (lastInsertRowid (db.transactions.map (fun t => t.id))),
          updateBalance (insertTransaction db userId source.accountId source.categoryId
            (jsOr body.description (source.description ++ " (copie)")) source.amount
            (jsOr body.date today) source.notes).2 source.amount source.accountId) := by
  unfold duplicateTransaction at hok ⊢
  rw [hsource] at hok ⊢
  dsimp only at hok ⊢
  cases haccount : findAccount db source.accountId userId with
  | none => rw [haccount] at hok; simp [Response.isError] at hok
  | some account =>
    rw [haccount] at hok
    dsimp only at hok ⊢
    by_cases h3 : source.amount < 0 ∧ account.type ≠ .credit ∧
        account.balance + source.amount < 0
    · rw [if_pos h3] at hok; simp [Response.isError] at hok
    · rw [if_neg h3]
      exact ⟨account, rfl, h3, rfl⟩

/-- C10, counterexample: duplicating the transaction "Loyer" without a description
gives the description "Loyer (copie)", not "Loyer (copy)", and a description sent as
the empty string is replaced by the same default. -/
theorem duplicateTransaction_default_description :
    ((duplicateTransaction moveExampleDb 1 1 { date := none, description := none }
      "2024-03-10").2.transactions.map (fun t => t.description)) =
      ["Loyer", "Loyer (copie)"] ∧
    "Loyer (copie)" ≠ "Loyer" ++ " (copy)" ∧
    ((duplicateTransaction moveExampleDb 1 1 { date := none, description := some "" }
      "2024-03-10").2.transactions.map (fun t => t.description)) =
      ["Loyer", "Loyer (copie)"] := by
  decide

/-- C10, amended: a `duplicateTransaction` that succeeds answers 201 with an id
different from the source and from every existing transaction, appends one transaction
with the owner, account, category, amount and notes of the source, leaves the source
unchanged and adds the amount to the balance of the account; the new date is the given
one or today; the new description is the source description followed by " (copie)"
when no description or an empty one is supplied, and the supplied one otherwise. -/
theorem duplicateTransaction_effect (db : Db) (userId id : Nat) (body : DuplicateBody)
    (today : String) (source : Transaction)
    (hsource : findTransaction db id userId = some source)
    (hok : (duplicateTransaction db userId id body today).1.isError = false) :
    ∃ newId,
      (duplicateTransaction db userId id body today).1 = .success 201 newId ∧
      newId ≠ id ∧ (∀ t ∈ db.transactions, t.id ≠ newId) ∧
      source.userId = userId ∧
      (duplicateTransaction db userId id body today).2.transactions =
        db.transactions ++
          [{ id := newId, userId := userId, accountId := source.accountId,
             categoryId := source.categoryId,
             description := jsOr body.description (source.description ++ " (copie)"),
             amount := source.amount, date := jsOr body.date today,
             notes := source.notes }] ∧
      findTransaction (duplicateTransaction db userId id body today).2 id userId =
        some source ∧
      (∃ b, balanceOf db source.accountId = some b ∧
        balanceOf (duplicateTransaction db userId id body today).2 source.accountId =
          some (b + source.amount)) ∧
      (body.description = none ∨ body.description = some "" →
        jsOr body.description (source.description ++ " (copie)") =
          source.description ++ " (copie)") ∧
      (∀ d, body.description = some d → d ≠ "" →
        jsOr body.description (source.description ++ " (copie)") = d) := by
  obtain ⟨account, haccount, -, hres⟩ := duplicateTransaction_success hsource hok
  have hmem : source ∈ db.transactions := List.mem_of_find?_eq_some hsource
  have hp : source.id = id ∧ source.userId = userId := by
    simpa using List.find?_some hsource
  rw [hres]
  refine ⟨_, rfl, ?_, fun t ht => lastInsertRowid_ne_of_mem ht, hp.2, rfl, ?_, ?_, ?_, ?_⟩
  · exact fun h => lastInsertRowid_ne_of_mem hmem (hp.1.trans h.symm)
  · show (db.transactions ++ [_]).find? _ = some source
    rw [List.find?_append]
    unfold findTransaction at hsource
    rw [hsource]
    rfl
  · obtain ⟨b, hb⟩ := balanceOf_isSome_of_findAccount haccount
    refine ⟨b, hb, ?_⟩
    rw [balanceOf_updateBalance, if_pos rfl]
    show (balanceOf db source.accountId).map _ = _
    rw [hb]
    rfl
  · rintro (h | h) <;> simp [jsOr, h]
  · intro d hd hne
    simp [jsOr, hd, hne]

theorem duplicateTransaction_effect_witness :
    findTransaction moveExampleDb 1 1 = some moveExampleOld ∧
    (duplicateTransaction moveExampleDb 1 1 { date := none, description := some "Avril" }
      "2024-04-01").1.isError = false ∧
    balanceOf (duplicateTransaction moveExampleDb 1 1
      { date := none, description := some "Avril" } "2024-04-01").2 1 = some 40000 ∧
    ∃ newId,
      (duplicateTransaction moveExampleDb 1 1 { date := none, description := some "Avril" }
        "2024-04-01").1 = .success 201 newId ∧
      newId ≠ 1 ∧ (∀ t ∈ moveExampleDb.transactions, t.id ≠ newId) ∧
      moveExampleOld.userId = 1 ∧
      (duplicateTransaction moveExampleDb 1 1 { date := none, description := some "Avril" }
        "2024-04-01").2.transactions =
        moveExampleDb.transactions ++
          [{ id := newId, userId := 1, accountId := moveExampleOld.accountId,
             categoryId := moveExampleOld.categoryId,
             description := jsOr (some "Avril") (moveExampleOld.description ++ " (copie)"),
             amount := moveExampleOld.amount, date := jsOr none "2024-04-01",
             notes := moveExampleOld.notes }] ∧
      findTransaction (duplicateTransaction moveExampleDb 1 1
        { date := none, description := some "Avril" } "2024-04-01").2 1 1 =
        some moveExampleOld ∧
      (∃ b, balanceOf moveExampleDb moveExampleOld.accountId = some b ∧
        balanceOf (duplicateTransaction moveExampleDb 1 1
          { date := none, description := some "Avril" } "2024-04-01").2
          moveExampleOld.accountId = some (b + moveExampleOld.amount)) ∧
      ((some "Avril" : Option String) = none ∨ (some "Avril" : Option String) = some "" →
        jsOr (some "Avril") (moveExampleOld.description ++ " (copie)") =
          moveExampleOld.description ++ " (copie)") ∧
      (∀ d, (some "Avril" : Option String) = some d → d ≠ "" →
        jsOr (some "Avril") (moveExampleOld.description ++ " (copie)") = d) :=
  ⟨by decide, by decide, by decide,
    duplicateTransaction_effect moveExampleDb 1 1
      { date := none, description := some "Avril" } "2024-04-01" moveExampleOld
      (by decide) (by decide)⟩

theorem duplicateTransaction_funds_iff {db : Db} {userId id : Nat} {body : DuplicateBody}
    {today : String} {source : Transaction}
    (hsource : findTransaction db id userId = some source) :
    (duplicateTransaction db userId id body today).1.code? = some .INSUFFICIENT_FUNDS ↔
      ∃ account, findAccount db source.accountId userId = some account ∧
        source.amount < 0 ∧ account.type ≠ .credit ∧
        account.balance + source.amount < 0 := by
  unfold duplicateTransaction
  rw [hsource]
  dsimp only
  cases haccount : findAccount db source.accountId userId with
  | none => simp [Response.code?]
  | some account =>
    dsimp only
    by_cases h3 : source.amount < 0 ∧ account.type ≠ .credit ∧
        account.balance + source.amount < 0
    · rw [if_pos h3]
      simp only [Response.code?, true_iff]
      exact ⟨account, rfl, h3⟩
    · rw [if_neg h3]
      simp only [Response.code?, insertTransaction, reduceCtorEq, false_iff]
      rintro ⟨a, ha, hrest⟩
      cases ha
      exact h3 hrest

theorem textLe_total (a b : String) : textLe a b ∨ textLe b a :=
  le_total a.toList b.toList

theorem textLe_trans {a b c : String} (h1 : textLe a b) (h2 : textLe b c) : textLe a c :=
  le_trans (α := List Char) h1 h2

theorem textLe_refl (a : String) : textLe a a :=
  le_refl a.toList

theorem similarBefore_total (reference a b : Transaction) :
    similarBefore reference a b ∨ similarBefore reference b a := by
  unfold similarBefore
  rcases Nat.lt_trichotomy (similarRank reference a) (similarRank reference b) with h | h | h
  · exact Or.inl (Or.inl h)
  · rcases textLe_total a.date b.date with hd | hd
    · exact Or.inr (Or.inr ⟨h.symm, hd⟩)
    · exact Or.inl (Or.inr ⟨h, hd⟩)
  · exact Or.inr (Or.inl h)

theorem similarBefore_trans {reference a b c : Transaction}
    (h1 : similarBefore reference a b) (h2 : similarBefore reference b c) :
    similarBefore reference a c := by
  unfold similarBefore at *
  rcases h1 with h1 | ⟨h1, d1⟩ <;> rcases h2 with h2 | ⟨h2, d2⟩
  · exact Or.inl (by omega)
  · exact Or.inl (by omega)
  · exact Or.inl (by omega)
  · exact Or.inr ⟨h1.trans h2, textLe_trans d2 d1⟩

instance (reference : Transaction) : IsTotal Transaction (similarBefore reference) :=
  ⟨similarBefore_total reference⟩

instance (reference : Transaction) : IsTrans Transaction (similarBefore reference) :=
  ⟨fun _ _ _ => similarBefore_trans⟩

theorem sqlLimit_sublist {α : Type} (n : Int) (rows : List α) :
    (sqlLimit n rows).Sublist rows := by
  unfold sqlLimit
  split_ifs
  · exact List.Sublist.refl rows
  · exact List.take_sublist _ _

theorem sqlLimit_length {α : Type} (n : Int) (rows : List α) (h : 0 ≤ n) :
    ((sqlLimit n rows).length : Int) ≤ n := by
  unfold sqlLimit
  rw [if_neg (by omega)]
  have := List.length_take_le n.toNat rows
  omega

/-- C12, the code at the failing input: the route reads `limit` from the query with
no check and binds it to `LIMIT`; with `limit = -1` the query has no bound and returns
the four matching transactions of the caller, more than `limit`, where the sibling
`GET /transactions` refuses a `limit` outside 1 to 100. -/
theorem findSimilar_negative_limit_unbounded :
    findSimilar similarExampleDb 1 1 (some (-1)) =
      .data 200
        [{ id := 4, userId := 1, accountId := 1, categoryId := 1, description := "Essence",
           amount := -40000, date := "2024-03-07", notes := none },
         { id := 6, userId := 1, accountId := 1, categoryId := 1, description := "Essence",
           amount := -30000, date := "2024-01-20", notes := none },
         { id := 3, userId := 1, accountId := 1, categoryId := 1, description := "Taxi",
           amount := -26000, date := "2024-02-07", notes := none },
         { id := 2, userId := 1, accountId := 2, categoryId := 2, description := "Courses",
           amount := -85000, date := "2024-02-05", notes := none }] ∧
    ¬ ((4 : Int) ≤ -1) := by
  decide

/-- The answer of `findSimilar` with whole amounts: for a reference transaction of the
caller, `findSimilar` answers 200 with a list of transactions which has at most `limit`
elements when `limit` is not negative; each of them is an existing transaction of
the caller other than the reference and meets at least one criterion; the rank is 1 for
an exact description match, otherwise 2 for the same category with an amount within the
tolerance, otherwise 3; in the list no transaction of a higher rank precedes one of a
lower rank and within a rank no earlier-dated transaction precedes a later-dated one. -/
theorem findSimilar_result (db : Db) (userId id : Nat) (limit : Option Int)
    (reference : Transaction)
    (href : findTransaction db id userId = some reference) :
    ∃ rows,
      findSimilar db userId id limit = .data 200 rows ∧
      (0 ≤ limit.getD 10 → (rows.length : Int) ≤ limit.getD 10) ∧
      (∀ t ∈ rows, t ∈ db.transactions ∧ t.userId = userId ∧ t.id ≠ id ∧
        similarCriteria reference t) ∧
      (∀ t, (similarRank reference t = 1 ↔ t.description = reference.description) ∧
        (similarRank reference t = 2 ↔ t.description ≠ reference.description ∧
          t.categoryId = reference.categoryId ∧
          withinTolerance t.amount reference.amount) ∧
        (similarRank reference t = 3 ↔ t.description ≠ reference.description ∧
          ¬ (t.categoryId = reference.categoryId ∧
            withinTolerance t.amount reference.amount))) ∧
      rows.Pairwise (fun a b =>
        similarRank reference a ≤ similarRank reference b ∧
        (similarRank reference a = similarRank reference b → textLe b.date a.date)) := by
  unfold findSimilar
  rw [href]
  dsimp only
  refine ⟨_, rfl, sqlLimit_length _ _, ?_, ?_, ?_⟩
  · intro t ht
    have h1 := (sqlLimit_sublist _ _).subset ht
    have h2 := (List.perm_insertionSort _ _).subset h1
    have h3 := List.mem_filter.mp h2
    have h4 := List.mem_filter.mp h3.1
    have h5 : t.userId = userId ∧ t.id ≠ id ∧ similarCriteria reference t := by
      simpa using h3.2
    exact ⟨h4.1, h5⟩
  · intro t
    unfold similarRank
    by_cases hd : t.description = reference.description
    · simp [hd]
    · by_cases hc : t.categoryId = reference.categoryId ∧
          withinTolerance t.amount reference.amount
      · simp [hd, hc]
      · simp only [hd, hc, if_false]
        simp
        tauto
  · have hsorted := List.sorted_insertionSort (similarBefore reference)
      (List.filter (fun t =>
        decide (t.userId = userId ∧ t.id ≠ id ∧ similarCriteria reference t))
        (List.filter (fun t =>
          decide ((db.categories.find? (fun c => decide (c.id = t.categoryId))).isSome ∧
            (db.accounts.find? (fun a => decide (a.id = t.accountId))).isSome))
          db.transactions))
    have hsub := List.Pairwise.sublist (sqlLimit_sublist (limit.getD 10) _) hsorted
    refine hsub.imp ?_
    intro a b hab
    unfold similarBefore at hab
    rcases hab with h | ⟨h, hd⟩
    · exact ⟨Nat.le_of_lt h, fun heq => absurd heq (Nat.ne_of_lt h)⟩
    · exact ⟨Nat.le_of_eq h, fun _ => hd⟩

theorem findSimilar_result_witness :
    findTransaction similarExampleDb 1 1 =
      some { id := 1, userId := 1, accountId := 2, categoryId := 1,
             description := "Essence", amount := -25000, date := "2024-01-03",
             notes := none } ∧
    (findSimilar similarExampleDb 1 1 (some 3)).status = 200 ∧
    ∃ rows,
      findSimilar similarExampleDb 1 1 (some 3) = .data 200 rows ∧
      (0 ≤ (some (3 : Int)).getD 10 → (rows.length : Int) ≤ (some (3 : Int)).getD 10) ∧
      (∀ t ∈ rows, t ∈ similarExampleDb.transactions ∧ t.userId = 1 ∧ t.id ≠ 1 ∧
        similarCriteria similarReference t) ∧
      (∀ t, (similarRank similarReference t = 1 ↔
          t.description = similarReference.description) ∧
        (similarRank similarReference t = 2 ↔
          t.description ≠ similarReference.description ∧
          t.categoryId = similarReference.categoryId ∧
          withinTolerance t.amount similarReference.amount) ∧
        (similarRank similarReference t = 3 ↔
          t.description ≠ similarReference.description ∧
          ¬ (t.categoryId = similarReference.categoryId ∧
            withinTolerance t.amount similarReference.amount))) ∧
      rows.Pairwise (fun a b =>
        similarRank similarReference a ≤ similarRank similarReference b ∧
        (similarRank similarReference a = similarRank similarReference b →
          textLe b.date a.date)) :=
  ⟨by decide, by decide,
    findSimilar_result similarExampleDb 1 1 (some 3) similarReference (by decide)⟩

/-- C13: budget evaluation.  For a budget with a positive amount, the remaining amount
is `max(0, amount - spent)`, the percentage is `min(100, spent / amount * 100)` and the
status is over when `spent > amount`, otherwise warning when the percentage exceeds 80,
otherwise good; `getBudget` answers with this evaluation of the budget amount and the
recomputed spending.  An amount of 50000 with 42500 spent gives 85 percent and the
status warning. -/
theorem evaluateBudget_spec (amount spent : Int) (hamount : 0 < amount) :
    (evaluateBudget amount spent).remaining = max 0 (amount - spent) ∧
    (evaluateBudget amount spent).percentage = min 100 ((spent : ℚ) / amount * 100) ∧
    ((evaluateBudget amount spent).status = .over ↔ spent > amount) ∧
    ((evaluateBudget amount spent).status = .warning ↔
      ¬ spent > amount ∧ (evaluateBudget amount spent).percentage > 80) ∧
    ((evaluateBudget amount spent).status = .good ↔
      ¬ spent > amount ∧ ¬ (evaluateBudget amount spent).percentage > 80) ∧
    (∀ (db : Db) (userId id : Nat) (budget : Budget),
      findBudgetJoined db id userId = some budget →
      getBudget db userId id = .data 200 (budgetWithSpending db userId budget)) ∧
    evaluateBudget 50000 42500 =
      { spent := 42500, remaining := 7500, percentage := 85, isOverBudget := false,
        status := .warning } := by
  have hcap : ∀ p : ℚ, min 100 p > 80 ↔ p > 80 := by
    intro p
    constructor
    · intro h; exact lt_of_lt_of_le h (min_le_right _ _)
    · intro h; exact lt_min (by norm_num) h
  refine ⟨rfl, ?_, ?_, ?_, ?_, ?_, by decide!⟩
  · simp [evaluateBudget, hamount]
  · unfold evaluateBudget
    by_cases hover : spent > amount
    · simp [hover]
    · by_cases hwarn : (if amount > 0 then ((spent : ℚ) / (amount : ℚ)) * 100 else 0) > 80
      · simp [hover, hwarn]
      · simp [hover, hwarn]
  · unfold evaluateBudget
    simp only [hcap]
    by_cases hover : spent > amount
    · simp [hover]
    · by_cases hwarn : (if amount > 0 then ((spent : ℚ) / (amount : ℚ)) * 100 else 0) > 80
      · simp [hover, hwarn]
      · simp [hover, hwarn]
  · unfold evaluateBudget
    simp only [hcap]
    by_cases hover : spent > amount
    · simp [hover]
    · by_cases hwarn : (if amount > 0 then ((spent : ℚ) / (amount : ℚ)) * 100 else 0) > 80
      · simp [hover, hwarn]
      · simp [hover, hwarn]
  · intro db userId id budget hfind
    unfold getBudget budgetWithSpending
    rw [hfind]

theorem evaluateBudget_spec_witness :
    (0 : Int) < 50000 ∧
    (evaluateBudget 50000 42500).remaining = max 0 (50000 - 42500) ∧
    (evaluateBudget 50000 42500).percentage = min 100 (((42500 : Int) : ℚ) /
      ((50000 : Int) : ℚ) * 100) ∧
    (evaluateBudget 50000 42500).percentage = 85 ∧
    (evaluateBudget 50000 42500).status = .warning ∧
    (evaluateBudget 50000 60000).status = .over ∧
    (evaluateBudget 50000 40000).status = .good ∧
    getBudget budgetExampleDb 1 1 =
      .data 200 (budgetExample,
        { spent := 42500, remaining := 7500, percentage := 85, isOverBudget := false,
          status := .warning }) :=
  ⟨by decide, (evaluateBudget_spec 50000 42500 (by decide)).1,
    (evaluateBudget_spec 50000 42500 (by decide)).2.1,
    by decide!, by decide!, by decide!, by decide!, by decide!⟩

theorem sqlSumAbs_foldl (rows : List Transaction) (acc : Option Int) :
    (rows.foldl (fun acc t => some (acc.getD 0 + (t.amount.natAbs : Int))) acc).getD 0 =
      acc.getD 0 + (rows.map (fun t => |t.amount|)).sum := by
  induction rows generalizing acc with
  | nil => simp
  | cons r rs ih =>
    rw [List.foldl_cons, ih]
    simp only [Option.getD_some, List.map_cons, List.sum_cons, Int.natCast_natAbs]
    ring

theorem spending_eq_spentSpec (db : Db) (userId categoryId : Nat)
    (startDate endDate : String) :
    spending db userId categoryId startDate endDate =
      spentSpec db userId categoryId startDate endDate := by
  unfold spending spentSpec sqlSumAbs
  rw [sqlSumAbs_foldl]
  simp

/-- C14: the spent value of a budget is recomputed from the transactions on every read.
The value of the spending query is the sum of the absolute amounts of exactly the
transactions of the owner with the category of the budget, a negative amount and a date
inside the window, bounds included; it is 0 when there is none; a further transaction
adds its absolute amount when it meets these conditions and nothing otherwise; and
`getBudget` answers with the evaluation of this sum for the budget of the caller. -/
theorem spent_recomputed (db : Db) (userId categoryId : Nat) (startDate endDate : String) :
    spending db userId categoryId startDate endDate =
      spentSpec db userId categoryId startDate endDate ∧
    ((∀ t ∈ db.transactions, ¬ countsAsSpending userId categoryId startDate endDate t) →
      spending db userId categoryId startDate endDate = 0) ∧
    (∀ t : Transaction,
      spending { db with transactions := db.transactions ++ [t] } userId categoryId
          startDate endDate =
        spending db userId categoryId startDate endDate +
          (if t.userId = userId ∧ t.categoryId = categoryId ∧ t.amount < 0 ∧
              textLe startDate t.date ∧ textLe t.date endDate
            then |t.amount| else 0)) ∧
    (∀ (id : Nat) (budget : Budget), findBudgetJoined db id userId = some budget →
      budget.userId = userId ∧
      getBudget db userId id =
        .data 200 (budget, evaluateBudget budget.amount
          (spentSpec db budget.userId budget.categoryId budget.startDate
            budget.endDate))) := by
  refine ⟨spending_eq_spentSpec db userId categoryId startDate endDate, ?_, ?_, ?_⟩
  · intro hnone
    rw [spending_eq_spentSpec]
    unfold spentSpec
    have : db.transactions.filter
        (fun t => decide (countsAsSpending userId categoryId startDate endDate t)) = [] := by
      apply List.filter_eq_nil_iff.mpr
      intro t ht
      simpa using hnone t ht
    rw [this]
    rfl
  · intro t
    rw [spending_eq_spentSpec, spending_eq_spentSpec]
    unfold spentSpec
    dsimp only
    rw [List.filter_append, List.map_append, List.sum_append]
    congr 1
    by_cases h : countsAsSpending userId categoryId startDate endDate t
    · have h' := h
      unfold countsAsSpending at h'
      simp [List.filter_cons, h, h']
    · have h' := h
      unfold countsAsSpending at h'
      simp [List.filter_cons, h, h']
  · intro id budget hfind
    have hp := List.find?_some hfind
    have huser : budget.userId = userId := by
      simp only [decide_eq_true_eq] at hp
      exact hp.2.2
    refine ⟨huser, ?_⟩
    unfold getBudget
    rw [hfind, huser]
    dsimp only
    rw [spending_eq_spentSpec]

theorem spent_recomputed_witness :
    spending budgetExampleDb 1 1 "2024-03-01" "2024-03-31" = 42500 ∧
    spending budgetExampleDb 1 2 "2024-04-01" "2024-04-30" = 0 ∧
    (∀ t ∈ budgetExampleDb.transactions,
      ¬ countsAsSpending 1 2 "2024-04-01" "2024-04-30" t) ∧
    findBudgetJoined budgetExampleDb 1 1 = some budgetExample ∧
    (createTransaction budgetExampleDb 1
      { description := "Taxi", amount := -5000, categoryId := 1, accountId := 1,
        date := "2024-03-15", notes := none }).1 = .success 201 7 ∧
    spending (createTransaction budgetExampleDb 1
      { description := "Taxi", amount := -5000, categoryId := 1, accountId := 1,
        date := "2024-03-15", notes := none }).2 1 1 "2024-03-01" "2024-03-31" = 47500 ∧
    (budgetExample.userId = 1 ∧
      getBudget budgetExampleDb 1 1 =
        .data 200 (budgetExample, evaluateBudget budgetExample.amount
          (spentSpec budgetExampleDb budgetExample.userId budgetExample.categoryId
            budgetExample.startDate budgetExample.endDate))) :=
  ⟨by decide, (spent_recomputed budgetExampleDb 1 2 "2024-04-01" "2024-04-30").2.1
      (by decide), by decide, by decide, by decide, by decide,
    (spent_recomputed budgetExampleDb 1 1 "2024-03-01" "2024-03-31").2.2.2 1 budgetExample
      (by decide)⟩

/-! ### Budget windows -/

theorem overlapClauses_of_intersects {existing : Budget} {startDate endDate : String}
    (h : intersects existing startDate endDate) :
    overlapClauses existing startDate endDate := by
  unfold intersects at h
  unfold overlapClauses overlapFirst overlapSecond overlapThird
  rcases textLe_total existing.startDate startDate with h1 | h1
  · exact Or.inl ⟨h1, h.1⟩
  · rcases textLe_total endDate existing.endDate with h2 | h2
    · exact Or.inr (Or.inl ⟨h.2, h2⟩)
    · exact Or.inr (Or.inr ⟨h1, h2⟩)

theorem intersects_of_overlapClauses {existing : Budget} {startDate endDate : String}
    (hnew : textLe startDate endDate)
    (hexisting : textLe existing.startDate existing.endDate)
    (h : overlapClauses existing startDate endDate) :
    intersects existing startDate endDate := by
  unfold overlapClauses overlapFirst overlapSecond overlapThird at h
  unfold intersects
  rcases h with ⟨h1, h2⟩ | ⟨h1, h2⟩ | ⟨h1, h2⟩
  · exact ⟨h2, textLe_trans h1 hnew⟩
  · exact ⟨textLe_trans hnew h2, h1⟩
  · exact ⟨textLe_trans h1 hexisting, textLe_trans hexisting h2⟩

theorem textLe_of_validWindow {startDate endDate : String}
    (h : validWindow startDate endDate) : textLe startDate endDate := by
  rcases textLe_total startDate endDate with h1 | h1
  · exact h1
  · exact absurd h1 h

theorem overlapClauses_iff_intersects {existing : Budget} {startDate endDate : String}
    (hnew : validWindow startDate endDate)
    (hexisting : validWindow existing.startDate existing.endDate) :
    overlapClauses existing startDate endDate ↔ intersects existing startDate endDate :=
  ⟨intersects_of_overlapClauses (textLe_of_validWindow hnew)
    (textLe_of_validWindow hexisting), overlapClauses_of_intersects⟩

theorem createBudget_overlapping_iff (db : Db) (userId : Nat) (body : BudgetBody) :
    createBudget db userId body = (.failure 409 .OVERLAPPING_BUDGET none, db) ↔
      ∃ category, findCategory db body.categoryId = some category ∧
        category.type = .expense ∧
        ∃ b ∈ db.budgets, b.userId = userId ∧ b.categoryId = body.categoryId ∧
          overlapClauses b body.startDate body.endDate := by
  unfold createBudget
  cases hcat : findCategory db body.categoryId with
  | none => simp
  | some category =>
    dsimp only
    by_cases hexp : category.type = .expense
    · rw [if_neg (by simpa using hexp)]
      cases hfind : db.budgets.find? (fun b =>
          decide (b.userId = userId ∧ b.categoryId = body.categoryId ∧
            overlapClauses b body.startDate body.endDate)) with
      | none =>
        dsimp only
        have hnone := List.find?_eq_none.mp hfind
        constructor
        · intro h
          simp at h
        · rintro ⟨c, hc, -, b, hb, h1, h2, h3⟩
          exact absurd (by simpa using ⟨h1, h2, h3⟩) (hnone b hb)
      | some b =>
        dsimp only
        have hmem := List.mem_of_find?_eq_some hfind
        have hp : b.userId = userId ∧ b.categoryId = body.categoryId ∧
            overlapClauses b body.startDate body.endDate := by
          simpa using List.find?_some hfind
        simp only [true_iff]
        exact ⟨category, rfl, hexp, b, hmem, hp⟩
    · rw [if_pos hexp]
      constructor
      · intro h
        simp at h
      · rintro ⟨c, hc, hce, -⟩
        cases hc
        exact absurd hce hexp

/-- C16, counterexample: for the stored window 10 to 20 March and the new window 1 to 31
March, both well formed, the third clause holds while neither of the first two does;
`createBudget` reports the overlap, and a query with the first two clauses alone would
report none. -/
theorem third_clause_not_redundant :
    validWindow windowExample.startDate windowExample.endDate ∧
    validWindow "2024-03-01" "2024-03-31" ∧
    overlapThird windowExample "2024-03-01" "2024-03-31" ∧
    ¬ (overlapFirst windowExample "2024-03-01" ∨ overlapSecond windowExample "2024-03-31") ∧
    (createBudget windowExampleDb 1 (windowBody "2024-03-01" "2024-03-31")).1 =
      .failure 409 .OVERLAPPING_BUDGET none ∧
    windowExampleDb.budgets.find? (fun b =>
      decide (b.userId = 1 ∧ b.categoryId = 1 ∧
        (overlapFirst b "2024-03-01" ∨ overlapSecond b "2024-03-31"))) = none := by
  decide

/-- C16, amended: the third clause is not redundant.  For well-formed windows the first
two clauses imply the intersection test; when the third clause holds, the first two hold
exactly when the stored window starts no later than the new start or ends no earlier
than the new end; the three clauses report a budget that the first two miss exactly when
the stored window lies strictly inside the new one; and the three clauses together are
equivalent to the two-sided intersection test. -/
theorem third_clause_role (existing : Budget) (startDate endDate : String)
    (hnew : validWindow startDate endDate)
    (hexisting : validWindow existing.startDate existing.endDate) :
    (overlapFirst existing startDate ∨ overlapSecond existing endDate →
      intersects existing startDate endDate) ∧
    (overlapThird existing startDate endDate →
      (overlapFirst existing startDate ∨ overlapSecond existing endDate ↔
        textLe existing.startDate startDate ∨ textLe endDate existing.endDate)) ∧
    (overlapClauses existing startDate endDate ∧
        ¬ (overlapFirst existing startDate ∨ overlapSecond existing endDate) ↔
      ¬ textLe existing.startDate startDate ∧ ¬ textLe endDate existing.endDate ∧
        overlapThird existing startDate endDate) ∧
    (overlapClauses existing startDate endDate ↔
      intersects existing startDate endDate) := by
  have hse := textLe_of_validWindow hnew
  have hbe := textLe_of_validWindow hexisting
  have hthird : overlapThird existing startDate endDate →
      (overlapFirst existing startDate ∨ overlapSecond existing endDate ↔
        textLe existing.startDate startDate ∨ textLe endDate existing.endDate) := by
    intro h3
    unfold overlapThird at h3
    unfold overlapFirst overlapSecond
    constructor
    · rintro (⟨h1, -⟩ | ⟨-, h2⟩)
      · exact Or.inl h1
      · exact Or.inr h2
    · rintro (h | h)
      · exact Or.inl ⟨h, textLe_trans h3.1 hbe⟩
      · exact Or.inr ⟨textLe_trans hbe h3.2, h⟩
  refine ⟨?_, hthird, ?_, overlapClauses_iff_intersects hnew hexisting⟩
  · intro h
    apply intersects_of_overlapClauses hse hbe
    unfold overlapClauses
    rcases h with h | h
    · exact Or.inl h
    · exact Or.inr (Or.inl h)
  · constructor
    · rintro ⟨hc, hnot⟩
      have h3 : overlapThird existing startDate endDate := by
        unfold overlapClauses at hc
        rcases hc with h | h | h
        · exact absurd (Or.inl h) hnot
        · exact absurd (Or.inr h) hnot
        · exact h
      have := (hthird h3).not.mp hnot
      exact ⟨fun h => this (Or.inl h), fun h => this (Or.inr h), h3⟩
    · rintro ⟨h1, h2, h3⟩
      refine ⟨Or.inr (Or.inr h3), ?_⟩
      rw [hthird h3]
      rintro (h | h)
      · exact h1 h
      · exact h2 h

theorem third_clause_role_witness :
    validWindow "2024-03-01" "2024-03-31" ∧
    validWindow windowExample.startDate windowExample.endDate ∧
    (overlapClauses windowExample "2024-03-01" "2024-03-31" ∧
        ¬ (overlapFirst windowExample "2024-03-01" ∨
          overlapSecond windowExample "2024-03-31") ↔
      ¬ textLe windowExample.startDate "2024-03-01" ∧
        ¬ textLe "2024-03-31" windowExample.endDate ∧
        overlapThird windowExample "2024-03-01" "2024-03-31") ∧
    (overlapClauses windowExample "2024-03-01" "2024-03-31" ↔
      intersects windowExample "2024-03-01" "2024-03-31") :=
  ⟨by decide, by decide,
    (third_clause_role windowExample "2024-03-01" "2024-03-31" (by decide)
      (by decide)).2.2.1,
    (third_clause_role windowExample "2024-03-01" "2024-03-31" (by decide)
      (by decide)).2.2.2⟩

theorem intersects_symm {a b : Budget} :
    intersects a b.startDate b.endDate ↔ intersects b a.startDate a.endDate := by
  unfold intersects
  exact And.comm

theorem createBudget_success {db : Db} {userId : Nat} {body : BudgetBody}
    (hok : (createBudget db userId body).1.isError = false) :
    (∀ b ∈ db.budgets, b.userId = userId → b.categoryId = body.categoryId →
      ¬ overlapClauses b body.startDate body.endDate) ∧
    (createBudget db userId body).2.budgets =
      db.budgets ++
        [{ id := lastInsertRowid (db.budgets.map (fun b => b.id)), userId := userId,
           categoryId := body.categoryId, amount := body.amount, period := body.period,
           startDate := body.startDate, endDate := body.endDate }] := by
  unfold createBudget at hok ⊢
  cases hcat : findCategory db body.categoryId with
  | none => rw [hcat] at hok; simp [Response.isError] at hok
  | some category =>
    rw [hcat] at hok
    dsimp only at hok ⊢
    by_cases hexp : category.type ≠ .expense
    · rw [if_pos hexp] at hok; simp [Response.isError] at hok
    · rw [if_neg hexp] at hok ⊢
      cases hfind : db.budgets.find? (fun b =>
          decide (b.userId = userId ∧ b.categoryId = body.categoryId ∧
            overlapClauses b body.startDate body.endDate)) with
      | some b => rw [hfind] at hok; simp [Response.isError] at hok
      | none =>
        refine ⟨?_, rfl⟩
        intro b hb h1 h2 h3
        exact absurd (by simpa using ⟨h1, h2, h3⟩) (List.find?_eq_none.mp hfind b hb)

theorem updateBudget_success {db : Db} {userId id : Nat} {body : BudgetBody}
    (hok : (updateBudget db userId id body).1.isError = false) :
    (∀ b ∈ db.budgets, b.userId = userId → b.categoryId = body.categoryId → b.id ≠ id →
      ¬ overlapClauses b body.startDate body.endDate) ∧
    (updateBudget db userId id body).2.budgets =
      db.budgets.map (fun b =>
        if b.id = id ∧ b.userId = userId then
          { b with categoryId := body.categoryId, amount := body.amount,
                   period := body.period, startDate := body.startDate,
                   endDate := body.endDate }
        else b) := by
  unfold updateBudget at hok ⊢
  cases hb : findBudget db id userId with
  | none => rw [hb] at hok; simp [Response.isError] at hok
  | some existing =>
    rw [hb] at hok
    dsimp only at hok ⊢
    cases hcat : findCategory db body.categoryId with
    | none => rw [hcat] at hok; simp [Response.isError] at hok
    | some category =>
      rw [hcat] at hok
      dsimp only at hok ⊢
      by_cases hexp : category.type ≠ .expense
      · rw [if_pos hexp] at hok; simp [Response.isError] at hok
      · rw [if_neg hexp] at hok ⊢
        cases hfind : db.budgets.find? (fun b =>
            decide (b.userId = userId ∧ b.categoryId = body.categoryId ∧ b.id ≠ id ∧
              overlapClauses b body.startDate body.endDate)) with
        | some b => rw [hfind] at hok; simp [Response.isError] at hok
        | none =>
          refine ⟨?_, rfl⟩
          intro b hb h1 h2 h3 h4
          exact absurd (by simpa using ⟨h1, h2, h3, h4⟩)
            (List.find?_eq_none.mp hfind b hb)

theorem createBudget_error_unchanged {db : Db} {userId : Nat} {body : BudgetBody}
    (h : (createBudget db userId body).1.isError = true) :
    (createBudget db userId body).2 = db := by
  unfold createBudget at h ⊢
  cases hcat : findCategory db body.categoryId with
  | none => rfl
  | some category =>
    rw [hcat] at h
    dsimp only at h ⊢
    by_cases hexp : category.type ≠ .expense
    · rw [if_pos hexp]
    · rw [if_neg hexp] at h ⊢
      cases hfind : db.budgets.find? (fun b =>
          decide (b.userId = userId ∧ b.categoryId = body.categoryId ∧
            overlapClauses b body.startDate body.endDate)) with
      | some b => rfl
      | none => rw [hfind] at h; simp [Response.isError] at h

theorem updateBudget_error_unchanged {db : Db} {userId id : Nat} {body : BudgetBody}
    (h : (updateBudget db userId id body).1.isError = true) :
    (updateBudget db userId id body).2 = db := by
  unfold updateBudget at h ⊢
  cases hb : findBudget db id userId with
  | none => rfl
  | some existing =>
    rw [hb] at h
    dsimp only at h ⊢
    cases hcat : findCategory db body.categoryId with
    | none => rfl
    | some category =>
      rw [hcat] at h
      dsimp only at h ⊢
      by_cases hexp : category.type ≠ .expense
      · rw [if_pos hexp]
      · rw [if_neg hexp] at h ⊢
        cases hfind : db.budgets.find? (fun b =>
            decide (b.userId = userId ∧ b.categoryId = body.categoryId ∧ b.id ≠ id ∧
              overlapClauses b body.startDate body.endDate)) with
        | some b => rfl
        | none => rw [hfind] at h; simp [Response.isError] at h

theorem createBudget_keeps_noOverlap {db : Db} {userId : Nat} {body : BudgetBody}
    (hno : NoOverlap db) (hok : (createBudget db userId body).1.isError = false) :
    NoOverlap (createBudget db userId body).2 := by
  obtain ⟨hclear, hbudgets⟩ := createBudget_success hok
  unfold NoOverlap
  rw [hbudgets]
  intro a ha b hb hid huser hcat
  rcases List.mem_append.mp ha with ha | ha <;> rcases List.mem_append.mp hb with hb | hb
  · exact hno a ha b hb hid huser hcat
  · rw [List.mem_singleton] at hb
    subst hb
    exact fun h => hclear a ha huser hcat (overlapClauses_of_intersects h)
  · rw [List.mem_singleton] at ha
    subst ha
    exact fun h => hclear b hb huser.symm hcat.symm
      (overlapClauses_of_intersects (intersects_symm.mp h))
  · rw [List.mem_singleton] at ha hb
    subst ha hb
    exact absurd rfl hid

theorem updateBudget_keeps_noOverlap {db : Db} {userId id : Nat} {body : BudgetBody}
    (hno : NoOverlap db) (hok : (updateBudget db userId id body).1.isError = false) :
    NoOverlap (updateBudget db userId id body).2 := by
  obtain ⟨hclear, hbudgets⟩ := updateBudget_success hok
  unfold NoOverlap
  rw [hbudgets]
  intro a' ha' b' hb' hid huser hcat
  obtain ⟨a, ha, rfl⟩ := List.mem_map.mp ha'
  obtain ⟨b, hb, rfl⟩ := List.mem_map.mp hb'
  by_cases hua : a.id = id ∧ a.userId = userId <;>
    by_cases hub : b.id = id ∧ b.userId = userId
  · rw [if_pos hua, if_pos hub] at hid
    exact absurd (hua.1.trans hub.1.symm) hid
  · rw [if_pos hua, if_neg hub] at hid huser hcat ⊢
    have hbid : b.id ≠ id := fun h => hid (hua.1.trans h.symm)
    have hbuser : b.userId = userId := huser.symm.trans hua.2
    intro h
    exact hclear b hb hbuser hcat.symm hbid
      (overlapClauses_of_intersects (intersects_symm.mp h))
  · rw [if_neg hua, if_pos hub] at hid huser hcat ⊢
    have haid : a.id ≠ id := fun h => hid (h.trans hub.1.symm)
    have hauser : a.userId = userId := huser.trans hub.2
    intro h
    exact hclear a ha hauser hcat haid (overlapClauses_of_intersects h)
  · rw [if_neg hua, if_neg hub] at hid huser hcat ⊢
    exact hno a ha b hb hid huser hcat

theorem updateBudget_resave {db : Db} {userId id : Nat} {b : Budget}
    (hno : NoOverlap db) (hvalid : WindowsValid db)
    (hfind : findBudget db id userId = some b)
    (hcat : (findCategory db b.categoryId).map (fun c => c.type) =
      some CategoryType.expense) :
    (updateBudget db userId id b.toBody).1 = .success 200 id := by
  have hmem : b ∈ db.budgets := List.mem_of_find?_eq_some hfind
  have hp : b.id = id ∧ b.userId = userId := by simpa using List.find?_some hfind
  unfold updateBudget
  rw [hfind]
  dsimp only [Budget.toBody]
  cases hc : findCategory db b.categoryId with
  | none => rw [hc] at hcat; simp at hcat
  | some category =>
    rw [hc] at hcat
    have hexp : category.type = .expense := by simpa using hcat
    dsimp only
    rw [if_neg (by simpa using hexp)]
    have hnone : db.budgets.find? (fun x =>
        decide (x.userId = userId ∧ x.categoryId = b.categoryId ∧ x.id ≠ id ∧
          overlapClauses x b.startDate b.endDate)) = none := by
      apply List.find?_eq_none.mpr
      intro x hx
      simp only [decide_eq_true_eq]
      rintro ⟨h1, h2, h3, h4⟩
      have hint := intersects_of_overlapClauses
        (textLe_of_validWindow (hvalid b hmem)) (textLe_of_validWindow (hvalid x hx)) h4
      exact hno x hx b hmem (fun h => h3 (h.trans hp.1)) (h1.trans hp.2.symm) h2 hint
    rw [hnone]

/-- C17, amended: the no-overlap invariant.  If no two distinct budgets of one owner and
one category have intersecting windows, the dates compared as the stored texts are, the
same holds after any successful `createBudget` and any successful `updateBudget`; stored
windows keep their end after their start, as texts, when the request does; and
`updateBudget` leaves the budget being updated out of the comparison, so that re-saving
a budget with its own values succeeds when every stored window has its end after its
start as texts and the category of the budget still has type expense. -/
theorem no_overlap_invariant (db : Db) (userId id : Nat) (body : BudgetBody)
    (hno : NoOverlap db) :
    ((createBudget db userId body).1.isError = false →
      NoOverlap (createBudget db userId body).2) ∧
    ((updateBudget db userId id body).1.isError = false →
      NoOverlap (updateBudget db userId id body).2) ∧
    (WindowsValid db → validWindow body.startDate body.endDate →
      WindowsValid (createBudget db userId body).2 ∧
      WindowsValid (updateBudget db userId id body).2) ∧
    (∀ b, WindowsValid db → findBudget db id userId = some b →
      (findCategory db b.categoryId).map (fun c => c.type) = some CategoryType.expense →
      (updateBudget db userId id b.toBody).1 = .success 200 id) := by
  refine ⟨createBudget_keeps_noOverlap hno, updateBudget_keeps_noOverlap hno, ?_,
    fun b hvalid hfind hcat => updateBudget_resave hno hvalid hfind hcat⟩
  intro hvalid hbody
  constructor
  · by_cases hok : (createBudget db userId body).1.isError = false
    · unfold WindowsValid
      rw [(createBudget_success hok).2]
      intro b hb
      rcases List.mem_append.mp hb with hb | hb
      · exact hvalid b hb
      · rw [List.mem_singleton] at hb
        subst hb
        exact hbody
    · rw [createBudget_error_unchanged (by simpa using hok)]
      exact hvalid
  · by_cases hok : (updateBudget db userId id body).1.isError = false
    · unfold WindowsValid
      rw [(updateBudget_success hok).2]
      intro b' hb'
      obtain ⟨b, hb, rfl⟩ := List.mem_map.mp hb'
      by_cases hu : b.id = id ∧ b.userId = userId
      · rw [if_pos hu]
        exact hbody
      · rw [if_neg hu]
        exact hvalid b hb
    · rw [updateBudget_error_unchanged (by simpa using hok)]
      exact hvalid

theorem no_overlap_invariant_witness :
    NoOverlap windowExampleDb ∧ WindowsValid windowExampleDb ∧
    (createBudget windowExampleDb 1 (windowBody "2024-03-21" "2024-03-31")).1.isError =
      false ∧
    NoOverlap (createBudget windowExampleDb 1 (windowBody "2024-03-21" "2024-03-31")).2 ∧
    (updateBudget windowExampleDb 1 1 (windowBody "2024-03-05" "2024-03-25")).1.isError =
      false ∧
    NoOverlap (updateBudget windowExampleDb 1 1 (windowBody "2024-03-05" "2024-03-25")).2 ∧
    findBudget windowExampleDb 1 1 = some windowExample ∧
    (updateBudget windowExampleDb 1 1 windowExample.toBody).1 = .success 200 1 :=
  ⟨by decide, by decide, by decide,
    (no_overlap_invariant windowExampleDb 1 1 (windowBody "2024-03-21" "2024-03-31")
      (by decide)).1 (by decide),
    by decide,
    (no_overlap_invariant windowExampleDb 1 1 (windowBody "2024-03-05" "2024-03-25")
      (by decide)).2.1 (by decide),
    by decide,
    (no_overlap_invariant windowExampleDb 1 1 (windowBody "2024-03-05" "2024-03-25")
      (by decide)).2.2.2 windowExample (by decide) (by decide) (by decide)⟩

/-! ### Goals -/

theorem goal_eq_of_id_eq {goals : List Goal} {a b : Goal}
    (hu : (goals.map (fun g => g.id)).Nodup) (ha : a ∈ goals) (hb : b ∈ goals)
    (h : a.id = b.id) : a = b :=
  List.inj_on_of_nodup_map hu ha hb h

theorem contributeToGoal_invalid (db : Db) (userId id : Nat) (amount : Option Int)
    (h : amount = none ∨ ∃ a, amount = some a ∧ a ≤ 0) :
    contributeToGoal db userId id amount = (.error 400 .INVALID_CONTRIBUTION_AMOUNT, db) := by
  unfold contributeToGoal
  rcases h with h | ⟨a, h, ha⟩
  · rw [h]
  · rw [h]
    dsimp only
    rw [if_pos (Or.inr ha)]

theorem updateGoalAmount_goals {db : Db} {userId id : Nat} {goal : Goal} (a : Int)
    (hu : GoalIdsUnique db) (hfind : findGoal db id userId = some goal) :
    (updateGoalAmount db (goal.currentAmount + a) id userId).goals =
      db.goals.map (fun g =>
        if g.id = id then { g with currentAmount := g.currentAmount + a } else g) := by
  have hmem : goal ∈ db.goals := List.mem_of_find?_eq_some hfind
  have hp : goal.id = id ∧ goal.userId = userId := by simpa using List.find?_some hfind
  unfold updateGoalAmount
  dsimp only
  apply List.map_congr_left
  intro g hg
  by_cases hid : g.id = id
  · have : g = goal := goal_eq_of_id_eq hu hg hmem (hid.trans hp.1.symm)
    subst this
    rw [if_pos hp, if_pos hid]
  · rw [if_neg (fun h => hid h.1), if_neg hid]

theorem find?_goal_by_id {db : Db} {userId id : Nat} {goal : Goal}
    (hu : GoalIdsUnique db) (hfind : findGoal db id userId = some goal) :
    db.goals.find? (fun g => decide (g.id = id)) = some goal := by
  have hmem : goal ∈ db.goals := List.mem_of_find?_eq_some hfind
  have hp : goal.id = id ∧ goal.userId = userId := by simpa using List.find?_some hfind
  cases hf : db.goals.find? (fun g => decide (g.id = id)) with
  | none =>
    have := List.find?_eq_none.mp hf goal hmem
    simp [hp.1] at this
  | some x =>
    have hx : x ∈ db.goals := List.mem_of_find?_eq_some hf
    have hxid : x.id = id := by simpa using List.find?_some hf
    rw [goal_eq_of_id_eq hu hx hmem (hxid.trans hp.1.symm)]

theorem find?_map_goal (goals : List Goal) (id : Nat) (f : Goal → Goal)
    (hf : ∀ g, (f g).id = g.id) :
    (goals.map f).find? (fun g => decide (g.id = id)) =
      (goals.find? (fun g => decide (g.id = id))).map f := by
  rw [List.find?_map]
  congr 1
  apply congrArg (fun p => List.find? p goals)
  funext g
  simp [hf]

/-- The contribution for an amount that is absent or sent as a JSON number.  When the
amount is missing or not positive the call fails
with `INVALID_CONTRIBUTION_AMOUNT` and the database is unchanged; otherwise, for a goal
owned by the caller (goal ids being unique), the call answers 200 with that goal, its
`currentAmount` raised by the amount, and in the database the goal differs from before
in its `currentAmount` only, raised by the amount, every other goal being unchanged.
With target 500000 and 150000 saved, contributing 100000 gives 250000 saved, progress 50
and the status active. -/
theorem contributeToGoal_spec (db : Db) (userId id : Nat) (amount : Option Int) :
    ((amount = none ∨ ∃ a, amount = some a ∧ a ≤ 0) →
      contributeToGoal db userId id amount =
        (.error 400 .INVALID_CONTRIBUTION_AMOUNT, db)) ∧
    (∀ (a : Int) (goal : Goal), amount = some a → 0 < a → GoalIdsUnique db →
      findGoal db id userId = some goal →
      (contributeToGoal db userId id amount).2.goals =
        db.goals.map (fun g =>
          if g.id = id then { g with currentAmount := g.currentAmount + a } else g) ∧
      (∃ view, (contributeToGoal db userId id amount).1 =
        .data 200 ({ goal with currentAmount := goal.currentAmount + a }, view)) ∧
      (contributeToGoal db userId id amount).2.accounts = db.accounts ∧
      (contributeToGoal db userId id amount).2.transactions = db.transactions ∧
      (contributeToGoal db userId id amount).2.budgets = db.budgets) ∧
    contributeToGoal goalExampleDb 1 1 (some 100000) =
      (.data 200 ({ goalExample with currentAmount := 250000 },
        { progress := 50, remaining := 250000, isCompleted := false, status := .active }),
        updateGoalAmount goalExampleDb 250000 1 1) := by
  refine ⟨contributeToGoal_invalid db userId id amount, ?_, by decide!⟩
  intro a goal hamount hpos hu hfind
  have hgoals := updateGoalAmount_goals a hu hfind
  have hread : (updateGoalAmount db (goal.currentAmount + a) id userId).goals.find?
      (fun g => decide (g.id = id)) =
      some { goal with currentAmount := goal.currentAmount + a } := by
    rw [hgoals, find?_map_goal db.goals id _ (fun g => by by_cases h : g.id = id <;> simp [h]),
      find?_goal_by_id hu hfind]
    have hp : goal.id = id ∧ goal.userId = userId := by simpa using List.find?_some hfind
    simp [hp.1]
  unfold contributeToGoal
  rw [hamount]
  dsimp only
  rw [if_neg (by omega), hfind]
  dsimp only
  rw [hread]
  exact ⟨hgoals, ⟨_, rfl⟩, rfl, rfl, rfl⟩

theorem contributeToGoal_spec_witness :
    GoalIdsUnique goalExampleDb ∧
    findGoal goalExampleDb 1 1 = some goalExample ∧
    contributeToGoal goalExampleDb 1 1 none =
      (.error 400 .INVALID_CONTRIBUTION_AMOUNT, goalExampleDb) ∧
    contributeToGoal goalExampleDb 1 1 (some (-5)) =
      (.error 400 .INVALID_CONTRIBUTION_AMOUNT, goalExampleDb) ∧
    (contributeToGoal goalExampleDb 1 1 (some 100000)).2.goals =
      goalExampleDb.goals.map (fun g =>
        if g.id = 1 then { g with currentAmount := g.currentAmount + 100000 } else g) :=
  ⟨by decide, by decide,
    (contributeToGoal_spec goalExampleDb 1 1 none).1 (Or.inl rfl),
    (contributeToGoal_spec goalExampleDb 1 1 (some (-5))).1
      (Or.inr ⟨-5, rfl, by decide⟩),
    ((contributeToGoal_spec goalExampleDb 1 1 (some 100000)).2.1 100000 goalExample rfl
      (by decide) (by decide) (by decide)).1⟩

/-- C19, the code at the failing input: goal 1 is due on 1 January 2025 and not
completed; after a contribution of 100000 the response of `contributeToGoal` carries the
status active, while `getGoal` on the resulting database one second after the deadline
answers expired for the same goal. -/
theorem contributeToGoal_status_ignores_deadline :
    (contributeToGoal goalExampleDb 1 1 (some 100000)).1 =
      .data 200 ({ goalExample with currentAmount := 250000 },
        { progress := 50, remaining := 250000, isCompleted := false,
          status := .active }) ∧
    getGoal (contributeToGoal goalExampleDb 1 1 (some 100000)).2 1 1 (jan2025 + 1000) =
      .data 200 ({ goalExample with currentAmount := 250000 },
        { progress := 50, remaining := 250000, isCompleted := false,
          status := .expired }) := by
  decide!

theorem progress_eq_hundred_iff (current target : Int) (htarget : 0 < target) :
    min 100 (((current : ℚ) / (target : ℚ)) * 100) = 100 ↔ current ≥ target := by
  have ht : (0 : ℚ) < (target : ℚ) := by exact_mod_cast htarget
  rw [min_eq_left_iff]
  constructor
  · intro h
    have h1 : (1 : ℚ) ≤ (current : ℚ) / (target : ℚ) := by linarith
    rw [le_div_iff₀ ht] at h1
    have h2 : (target : ℚ) ≤ (current : ℚ) := by linarith
    exact_mod_cast h2
  · intro h
    have h2 : (target : ℚ) ≤ (current : ℚ) := by exact_mod_cast h
    have h1 : (1 : ℚ) ≤ (current : ℚ) / (target : ℚ) := by
      rw [le_div_iff₀ ht]
      linarith
    linarith

/-- C20: goal progress and status on read.  The progress is
`min(100, currentAmount / targetAmount * 100)` for a positive target and 0 for a target
of 0; the status is completed exactly when `currentAmount >= targetAmount`, expired
exactly when the goal is not completed and has a deadline earlier than now, and active
otherwise; so for a positive target the goal is completed exactly when the progress is
100, and a completed goal is completed whatever its deadline.  `getGoal` answers with
this computation for a goal of the caller. -/
theorem goalStats_spec (goal : Goal) (now : Int) :
    (0 < goal.targetAmount →
      (goalStats goal now).progress =
        min 100 (((goal.currentAmount : ℚ) / (goal.targetAmount : ℚ)) * 100)) ∧
    (goal.targetAmount = 0 → (goalStats goal now).progress = 0) ∧
    ((goalStats goal now).status = .completed ↔ goal.currentAmount ≥ goal.targetAmount) ∧
    ((goalStats goal now).status = .expired ↔
      ¬ goal.currentAmount ≥ goal.targetAmount ∧
        ∃ deadline, goal.deadline = some deadline ∧ deadline < now) ∧
    ((goalStats goal now).status = .active ↔
      ¬ goal.currentAmount ≥ goal.targetAmount ∧
        ¬ ∃ deadline, goal.deadline = some deadline ∧ deadline < now) ∧
    (0 < goal.targetAmount →
      ((goalStats goal now).status = .completed ↔ (goalStats goal now).progress = 100)) ∧
    (goal.currentAmount ≥ goal.targetAmount →
      ∀ deadline, (goalStats { goal with deadline := deadline } now).status = .completed) ∧
    (∀ (db : Db) (userId id : Nat), findGoal db id userId = some goal →
      getGoal db userId id now = .data 200 (goal, goalStats goal now)) := by
  have hstatus_completed :
      (goalStats goal now).status = .completed ↔ goal.currentAmount ≥ goal.targetAmount := by
    unfold goalStats
    by_cases hc : goal.currentAmount ≥ goal.targetAmount
    · simp [hc]
    · cases hd : goal.deadline with
      | none => simp [hc]
      | some d => by_cases hlt : d < now <;> simp [hc, hlt]
  refine ⟨?_, ?_, hstatus_completed, ?_, ?_, ?_, ?_, ?_⟩
  · intro h
    simp [goalStats, h]
  · intro h
    simp [goalStats, h]
  · unfold goalStats
    by_cases hc : goal.currentAmount ≥ goal.targetAmount
    · simp [hc]
    · cases hd : goal.deadline with
      | none => simp [hc]
      | some d => by_cases hlt : d < now <;> simp [hc, hlt]
  · unfold goalStats
    by_cases hc : goal.currentAmount ≥ goal.targetAmount
    · simp [hc]
    · cases hd : goal.deadline with
      | none => simp [hc]
      | some d => by_cases hlt : d < now <;> simp [hc, hlt]
  · intro h
    rw [hstatus_completed]
    have : (goalStats goal now).progress =
        min 100 (((goal.currentAmount : ℚ) / (goal.targetAmount : ℚ)) * 100) := by
      simp [goalStats, h]
    rw [this, progress_eq_hundred_iff _ _ h]
  · intro h deadline
    unfold goalStats
    simp [h]
  · intro db userId id hfind
    unfold getGoal
    rw [hfind]

theorem goalStats_spec_witness :
    (0 : Int) < goalExample.targetAmount ∧
    (goalStats goalExample jan2024).progress = 30 ∧
    (goalStats goalExample jan2024).status = .active ∧
    (goalStats goalExample (jan2025 + 1000)).status = .expired ∧
    (goalStats { goalExample with currentAmount := 500000 } (jan2025 + 1000)).status =
      .completed ∧
    (goalStats { goalExample with currentAmount := 500000 } (jan2025 + 1000)).progress =
      100 ∧
    (goalStats { goalExample with targetAmount := 0 } jan2024).progress = 0 ∧
    getGoal goalExampleDb 1 1 jan2024 =
      .data 200 (goalExample,
        { progress := 30, remaining := 350000, isCompleted := false, status := .active }) ∧
    ((goalStats goalExample jan2024).status = .completed ↔
      (goalStats goalExample jan2024).progress = 100) :=
  ⟨by decide, by decide!, by decide!, by decide!, by decide!, by decide!, by decide!,
    by decide!, (goalStats_spec goalExample jan2024).2.2.2.2.2.1 (by decide)⟩

theorem foldl_add_eq_sum (l : List Int) (init : Int) :
    l.foldl (fun sum x => sum + x) init = init + l.sum := by
  induction l generalizing init with
  | nil => simp
  | cons x xs ih => rw [List.foldl_cons, ih, List.sum_cons]; ring

/-- C27: trend prediction.  With at least three monthly totals the prediction is the sum
of the last three divided by 3; with fewer than three there is no prediction. -/
theorem monthlyPrediction_spec (spendingTrends : List Int) :
    (3 ≤ spendingTrends.length →
      monthlyPrediction spendingTrends =
        some ((((spendingTrends.reverse.take 3).sum : Int) : ℚ) / 3)) ∧
    (∀ (earlier : List Int) (a b c : Int),
      monthlyPrediction (earlier ++ [a, b, c]) = some (((a + b + c : Int) : ℚ) / 3)) ∧
    (spendingTrends.length < 3 → monthlyPrediction spendingTrends = none) ∧
    monthlyPrediction [400000, 520000, 480000, 410000] = some 470000 ∧
    monthlyPrediction [520000, 477000] = none := by
  have hlast : ∀ (earlier : List Int) (a b c : Int),
      monthlyPrediction (earlier ++ [a, b, c]) = some (((a + b + c : Int) : ℚ) / 3) := by
    intro earlier a b c
    unfold monthlyPrediction
    have hlen : (earlier ++ [a, b, c]).length = earlier.length + 3 := by simp
    rw [if_pos (by omega)]
    have hdrop : (earlier ++ [a, b, c]).drop ((earlier ++ [a, b, c]).length - 3) =
        [a, b, c] := by
      rw [hlen, Nat.add_sub_cancel, List.drop_left]
    simp only [hdrop, foldl_add_eq_sum]
    simp
    ring
  refine ⟨?_, hlast, ?_, ?_, ?_⟩
  · intro h
    obtain ⟨earlier, lastThree, hsplit, hl3⟩ :
        ∃ earlier lastThree : List Int, spendingTrends = earlier ++ lastThree ∧
          lastThree.length = 3 :=
      ⟨spendingTrends.take (spendingTrends.length - 3),
        spendingTrends.drop (spendingTrends.length - 3),
        (List.take_append_drop _ _).symm, by simp; omega⟩
    match lastThree, hl3 with
    | [a, b, c], _ =>
      rw [hsplit, hlast]
      simp [List.reverse_append]
      ring
  · intro h
    unfold monthlyPrediction
    rw [if_neg (by omega)]
  · decide!
  · decide!

theorem monthlyPrediction_spec_witness :
    3 ≤ [400000, 520000, 480000, 410000].length ∧
    monthlyPrediction [400000, 520000, 480000, 410000] =
      some ((((([400000, 520000, 480000, 410000] : List Int).reverse.take 3).sum : Int) : ℚ) / 3) ∧
    monthlyPrediction [520000, 477000] = none :=
  ⟨by decide, (monthlyPrediction_spec [400000, 520000, 480000, 410000]).1 (by decide),
    (monthlyPrediction_spec [520000, 477000]).2.2.1 (by decide)⟩

theorem revert_then_update_same_account (db : Db) (oldAmount amount : Int)
    (accountId : Nat) :
    updateBalance (revertBalance db oldAmount accountId) amount accountId =
      updateBalance db (amount - oldAmount) accountId := by
  unfold updateBalance revertBalance
  dsimp only
  congr 1
  rw [List.map_map]
  apply List.map_congr_left
  intro a _
  by_cases h : a.id = accountId
  · simp only [Function.comp, h, if_true]
    congr 1
    ring
  · simp only [Function.comp, h, if_false]

/-- With exact sums the two reconciliation branches of `updateTransaction` agree on one
account.  Subtracting the old amount from an account and then adding the new amount to the same
account gives the database that adding `newAmount - oldAmount` once gives, so for a
transaction that keeps its account the result of a successful `updateTransaction` is the
same whichever branch the comparison of the two account ids selects. -/
theorem reconcile_branches_agree (db : Db) (oldAmount amount : Int) (accountId : Nat) :
    reconcileBalances db false oldAmount accountId amount accountId =
      reconcileBalances db true oldAmount accountId amount accountId ∧
    (∀ (userId id : Nat) (body : TransactionBody) (old : Transaction) (sameAccount : Bool),
      findTransaction db id userId = some old → old.accountId = body.accountId →
      (updateTransaction db userId id body).1.isError = false →
      updateTransaction db userId id body =
        (.success 200 id,
          updateTransactionRow
            (reconcileBalances db sameAccount old.amount old.accountId body.amount
              body.accountId)
            body.description body.amount body.categoryId body.accountId body.date
            (jsOrNull body.notes) id userId)) := by
  have hagree : reconcileBalances db false oldAmount accountId amount accountId =
      reconcileBalances db true oldAmount accountId amount accountId := by
    unfold reconcileBalances
    simp only [if_true, Bool.false_eq_true, if_false]
    exact revert_then_update_same_account db oldAmount amount accountId
  refine ⟨hagree, ?_⟩
  intro userId id body old sameAccount hold hsame hok
  rw [(updateTransaction_success hold hok).2, if_pos hsame]
  cases sameAccount with
  | true => rfl
  | false =>
    unfold reconcileBalances
    simp only [Bool.false_eq_true, if_false]
    rw [hsame, revert_then_update_same_account]

/-! ### Tables a route does not write -/

theorem createTransaction_frame (db : Db) (userId : Nat) (body : TransactionBody) :
    (createTransaction db userId body).2.categories = db.categories ∧
    (createTransaction db userId body).2.budgets = db.budgets ∧
    (createTransaction db userId body).2.goals = db.goals := by
  unfold createTransaction
  repeat' split
  all_goals exact ⟨rfl, rfl, rfl⟩

theorem updateTransaction_frame (db : Db) (userId id : Nat) (body : TransactionBody) :
    (updateTransaction db userId id body).2.categories = db.categories ∧
    (updateTransaction db userId id body).2.budgets = db.budgets ∧
    (updateTransaction db userId id body).2.goals = db.goals := by
  unfold updateTransaction
  repeat' split
  all_goals exact ⟨rfl, rfl, rfl⟩

theorem deleteTransaction_frame (db : Db) (userId id : Nat) :
    (deleteTransaction db userId id).2.categories = db.categories ∧
    (deleteTransaction db userId id).2.budgets = db.budgets ∧
    (deleteTransaction db userId id).2.goals = db.goals := by
  unfold deleteTransaction
  repeat' split
  all_goals exact ⟨rfl, rfl, rfl⟩

theorem duplicateTransaction_frame (db : Db) (userId id : Nat) (body : DuplicateBody) (today : String) :
    (duplicateTransaction db userId id body today).2.categories = db.categories ∧
    (duplicateTransaction db userId id body today).2.budgets = db.budgets ∧
    (duplicateTransaction db userId id body today).2.goals = db.goals := by
  unfold duplicateTransaction
  repeat' split
  all_goals exact ⟨rfl, rfl, rfl⟩

theorem createAccount_frame (db : Db) (userId : Nat) (name bank : String) (type : AccountType) (balance : Option Int) :
    (createAccount db userId name bank type balance).2.transactions = db.transactions ∧
    (createAccount db userId name bank type balance).2.categories = db.categories ∧
    (createAccount db userId name bank type balance).2.budgets = db.budgets ∧
    (createAccount db userId name bank type balance).2.goals = db.goals := by
  unfold createAccount
  repeat' split
  all_goals exact ⟨rfl, rfl, rfl, rfl⟩

theorem updateAccount_frame (db : Db) (userId id : Nat) (name bank : String) (type : AccountType) (balance : Int) :
    (updateAccount db userId id name bank type balance).2.transactions = db.transactions ∧
    (updateAccount db userId id name bank type balance).2.categories = db.categories ∧
    (updateAccount db userId id name bank type balance).2.budgets = db.budgets ∧
    (updateAccount db userId id name bank type balance).2.goals = db.goals := by
  unfold updateAccount
  repeat' split
  all_goals exact ⟨rfl, rfl, rfl, rfl⟩

theorem deleteAccount_frame (db : Db) (userId id : Nat) :
    (deleteAccount db userId id).2.transactions = db.transactions ∧
    (deleteAccount db userId id).2.categories = db.categories ∧
    (deleteAccount db userId id).2.budgets = db.budgets ∧
    (deleteAccount db userId id).2.goals = db.goals := by
  unfold deleteAccount
  repeat' split
  all_goals first | exact ⟨rfl, rfl, rfl, rfl⟩ | (dsimp only; split_ifs <;> exact ⟨rfl, rfl, rfl, rfl⟩)

theorem createCategory_frame (db : Db) (name : String) (type : CategoryType) (color : Option String) :
    (createCategory db name type color).2.accounts = db.accounts ∧
    (createCategory db name type color).2.transactions = db.transactions ∧
    (createCategory db name type color).2.budgets = db.budgets ∧
    (createCategory db name type color).2.goals = db.goals := by
  unfold createCategory
  repeat' split
  all_goals exact ⟨rfl, rfl, rfl, rfl⟩

theorem updateCategory_frame (db : Db) (id : Nat) (name : String) (type : CategoryType) (color : String) :
    (updateCategory db id name type color).2.accounts = db.accounts ∧
    (updateCategory db id name type color).2.transactions = db.transactions ∧
    (updateCategory db id name type color).2.budgets = db.budgets ∧
    (updateCategory db id name type color).2.goals = db.goals := by
  unfold updateCategory
  repeat' split
  all_goals exact ⟨rfl, rfl, rfl, rfl⟩

theorem deleteCategory_frame (db : Db) (id : Nat) :
    (deleteCategory db id).2.accounts = db.accounts ∧
    (deleteCategory db id).2.transactions = db.transactions ∧
    (deleteCategory db id).2.budgets = db.budgets ∧
    (deleteCategory db id).2.goals = db.goals := by
  unfold deleteCategory
  repeat' split
  all_goals first | exact ⟨rfl, rfl, rfl, rfl⟩ | (dsimp only; split_ifs <;> exact ⟨rfl, rfl, rfl, rfl⟩)

theorem createBudget_frame (db : Db) (userId : Nat) (body : BudgetBody) :
    (createBudget db userId body).2.accounts = db.accounts ∧
    (createBudget db userId body).2.transactions = db.transactions ∧
    (createBudget db userId body).2.categories = db.categories ∧
    (createBudget db userId body).2.goals = db.goals := by
  unfold createBudget
  repeat' split
  all_goals exact ⟨rfl, rfl, rfl, rfl⟩

theorem updateBudget_frame (db : Db) (userId id : Nat) (body : BudgetBody) :
    (updateBudget db userId id body).2.accounts = db.accounts ∧
    (updateBudget db userId id body).2.transactions = db.transactions ∧
    (updateBudget db userId id body).2.categories = db.categories ∧
    (updateBudget db userId id body).2.goals = db.goals := by
  unfold updateBudget
  repeat' split
  all_goals exact ⟨rfl, rfl, rfl, rfl⟩

theorem deleteBudget_frame (db : Db) (userId id : Nat) :
    (deleteBudget db userId id).2.accounts = db.accounts ∧
    (deleteBudget db userId id).2.transactions = db.transactions ∧
    (deleteBudget db userId id).2.categories = db.categories ∧
    (deleteBudget db userId id).2.goals = db.goals := by
  unfold deleteBudget
  repeat' split
  all_goals exact ⟨rfl, rfl, rfl, rfl⟩

theorem createGoal_frame (db : Db) (userId : Nat) (body : GoalBody) :
    (createGoal db userId body).2.accounts = db.accounts ∧
    (createGoal db userId body).2.transactions = db.transactions ∧
    (createGoal db userId body).2.categories = db.categories ∧
    (createGoal db userId body).2.budgets = db.budgets := by
  exact ⟨rfl, rfl, rfl, rfl⟩

theorem updateGoal_frame (db : Db) (userId id : Nat) (body : GoalBody) (currentAmount : Int) :
    (updateGoal db userId id body currentAmount).2.accounts = db.accounts ∧
    (updateGoal db userId id body currentAmount).2.transactions = db.transactions ∧
    (updateGoal db userId id body currentAmount).2.categories = db.categories ∧
    (updateGoal db userId id body currentAmount).2.budgets = db.budgets := by
  unfold updateGoal
  repeat' split
  all_goals exact ⟨rfl, rfl, rfl, rfl⟩

theorem deleteGoal_frame (db : Db) (userId id : Nat) :
    (deleteGoal db userId id).2.accounts = db.accounts ∧
    (deleteGoal db userId id).2.transactions = db.transactions ∧
    (deleteGoal db userId id).2.categories = db.categories ∧
    (deleteGoal db userId id).2.budgets = db.budgets := by
  unfold deleteGoal
  repeat' split
  all_goals exact ⟨rfl, rfl, rfl, rfl⟩

theorem contributeToGoal_frame (db : Db) (userId id : Nat) (amount : Option Int) :
    (contributeToGoal db userId id amount).2.accounts = db.accounts ∧
    (contributeToGoal db userId id amount).2.transactions = db.transactions ∧
    (contributeToGoal db userId id amount).2.categories = db.categories ∧
    (contributeToGoal db userId id amount).2.budgets = db.budgets := by
  unfold contributeToGoal
  repeat' split
  all_goals first | exact ⟨rfl, rfl, rfl, rfl⟩ | (dsimp only; split <;> exact ⟨rfl, rfl, rfl, rfl⟩)

/-! ### Balances under the account routes -/

theorem reachable_induction {P : Db → Prop} (h0 : P Db.empty)
    (hstep : ∀ db op, P db → P (Operation.apply db op)) :
    ∀ db, Reachable db → P db := by
  have key : ∀ ops db, P db → P (runOperations db ops) := by
    intro ops
    induction ops with
    | nil => intro db h; exact h
    | cons op ops ih => intro db h; exact ih _ (hstep db op h)
  rintro db ⟨ops, rfl⟩
  exact key ops _ h0

theorem find?_id_map_account (accounts : List Account) (id : Nat) (f : Account → Account)
    (hf : ∀ a, (f a).id = a.id) :
    (accounts.map f).find? (fun a => decide (a.id = id)) =
      (accounts.find? (fun a => decide (a.id = id))).map f := by
  rw [List.find?_map]
  congr 1
  apply congrArg (fun p => List.find? p accounts)
  funext a
  simp [hf]

theorem balanceOf_congr {db db1 : Db} (h : db1.accounts = db.accounts) (accountId : Nat) :
    balanceOf db1 accountId = balanceOf db accountId := by
  unfold balanceOf
  rw [h]

theorem account_eq_of_id_eq {accounts : List Account} {a b : Account}
    (hu : (accounts.map (fun a => a.id)).Nodup) (ha : a ∈ accounts) (hb : b ∈ accounts)
    (h : a.id = b.id) : a = b :=
  List.inj_on_of_nodup_map hu ha hb h

theorem balanceOf_createAccount {db : Db} {accountId : Nat} {b : Int}
    (hb : balanceOf db accountId = some b) (userId : Nat) (name bank : String)
    (type : AccountType) (balance : Option Int) :
    balanceOf (createAccount db userId name bank type balance).2 accountId = some b := by
  unfold createAccount
  split
  · exact hb
  · unfold balanceOf at hb ⊢
    dsimp only
    rw [List.find?_append]
    cases hf : db.accounts.find? (fun a => decide (a.id = accountId)) with
    | none => rw [hf] at hb; cases hb
    | some a => rw [hf] at hb; simpa using hb

theorem balanceOf_deleteAccount {db : Db} (hu : AccountIdsUnique db) {accountId : Nat}
    {b : Int} (hb : balanceOf db accountId = some b) (userId id : Nat) :
    balanceOf (deleteAccount db userId id).2 accountId = some b ∨
    (accountId = id ∧ balanceOf (deleteAccount db userId id).2 accountId = none) := by
  unfold deleteAccount
  cases hacc : findAccount db id userId with
  | none => exact Or.inl hb
  | some account =>
    dsimp only
    split
    · exact Or.inl hb
    · have hmem : account ∈ db.accounts := List.mem_of_find?_eq_some hacc
      have hp : account.id = id ∧ account.userId = userId := by
        simpa using List.find?_some hacc
      by_cases hid : accountId = id
      · refine Or.inr ⟨hid, ?_⟩
        unfold balanceOf
        dsimp only
        rw [Option.map_eq_none', List.find?_eq_none]
        intro a ha
        rw [List.mem_filter] at ha
        have hne : a.id ≠ accountId := by
          intro h
          have : a = account :=
            account_eq_of_id_eq hu ha.1 hmem (by rw [h, hid, hp.1])
          subst this
          simp [hp.1, hp.2] at ha
        simpa using hne
      · left
        unfold balanceOf at hb ⊢
        dsimp only
        have hfind : List.find? (fun a : Account => decide (a.id = accountId))
            (List.filter (fun a => !decide (a.id = id ∧ a.userId = userId)) db.accounts) =
            List.find? (fun a : Account => decide (a.id = accountId)) db.accounts := by
          rw [List.find?_filter]
          congr 1
          funext a
          by_cases h : a.id = accountId
          · simp [h, hid]
          · simp [h]
        rw [hfind]
        exact hb

theorem balanceOf_updateAccount {db : Db} (hu : AccountIdsUnique db) {accountId : Nat}
    {b : Int} (hb : balanceOf db accountId = some b) (userId id : Nat) (name bank : String)
    (type : AccountType) (balance : Int) :
    balanceOf (updateAccount db userId id name bank type balance).2 accountId =
      if accountId = id ∧ (updateAccount db userId id name bank type balance).1.isError = false
      then some balance else some b := by
  unfold updateAccount
  cases hacc : findAccount db id userId with
  | none => simpa [Response.isError] using hb
  | some account =>
    dsimp only
    split
    · simpa [Response.isError] using hb
    · have hmem : account ∈ db.accounts := List.mem_of_find?_eq_some hacc
      have hp : account.id = id ∧ account.userId = userId := by
        simpa using List.find?_some hacc
      unfold balanceOf at hb ⊢
      dsimp only
      rw [find?_id_map_account _ _ _ (by intro a; split <;> rfl)]
      cases hf : db.accounts.find? (fun a => decide (a.id = accountId)) with
      | none => rw [hf] at hb; cases hb
      | some a =>
        rw [hf] at hb
        have hamem : a ∈ db.accounts := List.mem_of_find?_eq_some hf
        have haid : a.id = accountId := by simpa using List.find?_some hf
        have hbal : a.balance = b := by simpa using hb
        by_cases hid : accountId = id
        · have : a = account := account_eq_of_id_eq hu hamem hmem (by rw [haid, hid, hp.1])
          subst this
          simp [hid, hp.1, hp.2, Response.isError]
        · have : a.id ≠ id := fun h => hid (haid ▸ h)
          simp [hid, this, hbal]



/-- C21, as stated, fails: `updateAccount` is not one of the four transaction
operations, yet it replaces the balance 70000 of account 1 by the balance 5 of the
request. -/
theorem updateAccount_overwrites_balance :
    (∀ t, overwriteBalance ≠ .transaction t) ∧
    balanceOf fundsExampleDb 1 = some 70000 ∧
    balanceOf (overwriteBalance.apply fundsExampleDb) 1 = some 5 := by
  refine ⟨?_, by decide, by decide⟩
  intro t h
  cases h

/-- C21, amended: with unique account ids, every operation other than the four
transaction operations and `updateAccount` leaves the balance of an existing account
unchanged, unless it is `deleteAccount` of that very account, which removes it; and
`updateAccount` leaves every balance unchanged except that, when it succeeds, it sets the
balance of its target to the balance of the request. -/
theorem balance_frame_outside_engine (db : Db) (hu : AccountIdsUnique db) (accountId : Nat)
    (b : Int) (hb : balanceOf db accountId = some b) :
    (∀ op : Operation, (∀ t, op ≠ .transaction t) →
      (∀ userId id name bank type balance,
        op ≠ .updateAccount userId id name bank type balance) →
      balanceOf (op.apply db) accountId = some b ∨
      ((∃ userId, op = .deleteAccount userId accountId) ∧
        balanceOf (op.apply db) accountId = none)) ∧
    (∀ userId id name bank type balance,
      balanceOf (updateAccount db userId id name bank type balance).2 accountId =
        if accountId = id ∧
          (updateAccount db userId id name bank type balance).1.isError = false
        then some balance else some b) := by
  refine ⟨?_, fun userId id name bank type balance =>
    balanceOf_updateAccount hu hb userId id name bank type balance⟩
  intro op hT hU
  cases op with
  | transaction t => exact absurd rfl (hT t)
  | updateAccount userId id name bank type balance =>
    exact absurd rfl (hU userId id name bank type balance)
  | createAccount userId name bank type balance =>
    exact Or.inl (balanceOf_createAccount hb userId name bank type balance)
  | deleteAccount userId id =>
    rcases balanceOf_deleteAccount hu hb userId id with h | ⟨hid, h⟩
    · exact Or.inl h
    · subst hid
      exact Or.inr ⟨⟨userId, rfl⟩, h⟩
  | createCategory name type color =>
    exact Or.inl ((balanceOf_congr (createCategory_frame db name type color).1 _).trans hb)
  | updateCategory id name type color =>
    exact Or.inl ((balanceOf_congr (updateCategory_frame db id name type color).1 _).trans hb)
  | deleteCategory id =>
    exact Or.inl ((balanceOf_congr (deleteCategory_frame db id).1 _).trans hb)
  | createBudget userId body =>
    exact Or.inl ((balanceOf_congr (createBudget_frame db userId body).1 _).trans hb)
  | updateBudget userId id body =>
    exact Or.inl ((balanceOf_congr (updateBudget_frame db userId id body).1 _).trans hb)
  | deleteBudget userId id =>
    exact Or.inl ((balanceOf_congr (deleteBudget_frame db userId id).1 _).trans hb)
  | createGoal userId body =>
    exact Or.inl ((balanceOf_congr (createGoal_frame db userId body).1 _).trans hb)
  | updateGoal userId id body currentAmount =>
    exact Or.inl
      ((balanceOf_congr (updateGoal_frame db userId id body currentAmount).1 _).trans hb)
  | deleteGoal userId id =>
    exact Or.inl ((balanceOf_congr (deleteGoal_frame db userId id).1 _).trans hb)
  | contributeToGoal userId id amount =>
    exact Or.inl
      ((balanceOf_congr (contributeToGoal_frame db userId id amount).1 _).trans hb)

theorem balance_frame_outside_engine_witness :
    AccountIdsUnique fundsExampleDb ∧ balanceOf fundsExampleDb 1 = some 70000 ∧
    ((∀ op : Operation, (∀ t, op ≠ .transaction t) →
      (∀ userId id name bank type balance,
        op ≠ .updateAccount userId id name bank type balance) →
      balanceOf (op.apply fundsExampleDb) 1 = some 70000 ∨
      ((∃ userId, op = .deleteAccount userId 1) ∧
        balanceOf (op.apply fundsExampleDb) 1 = none)) ∧
    (∀ userId id name bank type balance,
      balanceOf (updateAccount fundsExampleDb userId id name bank type balance).2 1 =
        if 1 = id ∧
          (updateAccount fundsExampleDb userId id name bank type balance).1.isError = false
        then some balance else some 70000)) :=
  ⟨by unfold AccountIdsUnique; decide, by decide,
    balance_frame_outside_engine fundsExampleDb (by unfold AccountIdsUnique; decide) 1 70000
      (by decide)⟩

/-! ### Rows found by the lookups -/

theorem findAccount_some {db : Db} {x u : Nat} {a : Account}
    (h : findAccount db x u = some a) : a ∈ db.accounts ∧ a.id = x ∧ a.userId = u := by
  have hp : a.id = x ∧ a.userId = u := by simpa using List.find?_some h
  exact ⟨List.mem_of_find?_eq_some h, hp⟩

theorem findTransaction_some {db : Db} {x u : Nat} {t : Transaction}
    (h : findTransaction db x u = some t) :
    t ∈ db.transactions ∧ t.id = x ∧ t.userId = u := by
  have hp : t.id = x ∧ t.userId = u := by simpa using List.find?_some h
  exact ⟨List.mem_of_find?_eq_some h, hp⟩

theorem findCategory_some {db : Db} {x : Nat} {c : Category}
    (h : findCategory db x = some c) : c ∈ db.categories ∧ c.id = x := by
  have hp : c.id = x := by simpa using List.find?_some h
  exact ⟨List.mem_of_find?_eq_some h, hp⟩

theorem findCategory_isSome_iff (db : Db) (x : Nat) :
    (findCategory db x).isSome = true ↔ ∃ c ∈ db.categories, c.id = x := by
  unfold findCategory
  rw [List.find?_isSome]
  simp

/-! ### The accounts after a call -/

theorem createTransaction_accounts (db : Db) (userId : Nat) (body : TransactionBody) :
    ∃ f : Account → Account,
      (createTransaction db userId body).2.accounts = db.accounts.map f ∧
      (∀ a, (f a).id = a.id ∧ (f a).userId = a.userId) ∧
      (∀ a, f a ≠ a → ∃ acct ∈ db.accounts, acct.id = a.id ∧ acct.userId = userId) := by
  by_cases herr : (createTransaction db userId body).1.isError = true
  · exact ⟨fun a => a, by rw [createTransaction_error_unchanged db userId body herr]; simp,
      fun a => ⟨rfl, rfl⟩, fun a h => absurd rfl h⟩
  · obtain ⟨account, category, hacc, _, _, _, heq⟩ :=
      createTransaction_success (Bool.eq_false_iff.mpr herr)
    rw [heq]
    refine ⟨fun a => if a.id = body.accountId then
      { a with balance := a.balance + body.amount } else a, rfl, ?_, ?_⟩
    · intro a
      dsimp only
      split <;> exact ⟨rfl, rfl⟩
    · intro a h
      have hid : a.id = body.accountId := by
        by_contra hne
        exact h (if_neg hne)
      obtain ⟨hm, h1, h2⟩ := findAccount_some hacc
      exact ⟨account, hm, h1.trans hid.symm, h2⟩

theorem updateTransaction_accounts (db : Db) (ho : OwnAccounts db) (userId id : Nat)
    (body : TransactionBody) :
    ∃ f : Account → Account,
      (updateTransaction db userId id body).2.accounts = db.accounts.map f ∧
      (∀ a, (f a).id = a.id ∧ (f a).userId = a.userId) ∧
      (∀ a, f a ≠ a → ∃ acct ∈ db.accounts, acct.id = a.id ∧ acct.userId = userId) := by
  by_cases herr : (updateTransaction db userId id body).1.isError = true
  · exact ⟨fun a => a, by rw [updateTransaction_error_unchanged db userId id body herr]; simp,
      fun a => ⟨rfl, rfl⟩, fun a h => absurd rfl h⟩
  · cases hold : findTransaction db id userId with
    | none =>
      exfalso
      apply herr
      unfold updateTransaction
      rw [hold]
      rfl
    | some old =>
      obtain ⟨⟨account, hacc⟩, heq⟩ :=
        updateTransaction_success hold (Bool.eq_false_iff.mpr herr)
      obtain ⟨hm, h1, h2⟩ := findAccount_some hacc
      obtain ⟨holdm, _, holdu⟩ := findTransaction_some hold
      obtain ⟨oldAccount, hom, ho1, ho2⟩ := ho old holdm
      rw [heq]
      by_cases hsame : old.accountId = body.accountId
      · rw [if_pos hsame]
        refine ⟨fun a => if a.id = body.accountId then
          { a with balance := a.balance + (body.amount - old.amount) } else a, rfl, ?_, ?_⟩
        · intro a
          dsimp only
          split <;> exact ⟨rfl, rfl⟩
        · intro a h
          have hid : a.id = body.accountId := by
            by_contra hne
            exact h (if_neg hne)
          exact ⟨account, hm, h1.trans hid.symm, h2⟩
      · rw [if_neg hsame]
        refine ⟨fun a =>
          (fun a : Account => if a.id = body.accountId then
            { a with balance := a.balance + body.amount } else a)
          ((fun a : Account => if a.id = old.accountId then
            { a with balance := a.balance - old.amount } else a) a), ?_, ?_, ?_⟩
        · unfold updateTransactionRow updateBalance revertBalance
          dsimp only
          rw [List.map_map]
          rfl
        · intro a
          dsimp only
          split <;> split <;> exact ⟨rfl, rfl⟩
        · intro a h
          by_cases hid : a.id = body.accountId
          · exact ⟨account, hm, h1.trans hid.symm, h2⟩
          · by_cases hid2 : a.id = old.accountId
            · exact ⟨oldAccount, hom, ho1.trans hid2.symm, ho2.trans holdu⟩
            · exfalso
              apply h
              dsimp only
              rw [if_neg hid2, if_neg hid]

theorem deleteTransaction_accounts (db : Db) (ho : OwnAccounts db) (userId id : Nat) :
    ∃ f : Account → Account,
      (deleteTransaction db userId id).2.accounts = db.accounts.map f ∧
      (∀ a, (f a).id = a.id ∧ (f a).userId = a.userId) ∧
      (∀ a, f a ≠ a → ∃ acct ∈ db.accounts, acct.id = a.id ∧ acct.userId = userId) := by
  unfold deleteTransaction
  cases hold : findTransaction db id userId with
  | none => exact ⟨fun a => a, by simp, fun a => ⟨rfl, rfl⟩, fun a h => absurd rfl h⟩
  | some old =>
    obtain ⟨holdm, _, holdu⟩ := findTransaction_some hold
    obtain ⟨oldAccount, hom, ho1, ho2⟩ := ho old holdm
    refine ⟨fun a => if a.id = old.accountId then
      { a with balance := a.balance - old.amount } else a, rfl, ?_, ?_⟩
    · intro a
      dsimp only
      split <;> exact ⟨rfl, rfl⟩
    · intro a h
      have hid : a.id = old.accountId := by
        by_contra hne
        exact h (if_neg hne)
      exact ⟨oldAccount, hom, ho1.trans hid.symm, ho2.trans holdu⟩

theorem duplicateTransaction_accounts (db : Db) (userId id : Nat) (body : DuplicateBody)
    (today : String) :
    ∃ f : Account → Account,
      (duplicateTransaction db userId id body today).2.accounts = db.accounts.map f ∧
      (∀ a, (f a).id = a.id ∧ (f a).userId = a.userId) ∧
      (∀ a, f a ≠ a → ∃ acct ∈ db.accounts, acct.id = a.id ∧ acct.userId = userId) := by
  by_cases herr : (duplicateTransaction db userId id body today).1.isError = true
  · exact ⟨fun a => a,
      by rw [duplicateTransaction_error_unchanged db userId id body today herr]; simp,
      fun a => ⟨rfl, rfl⟩, fun a h => absurd rfl h⟩
  · cases hsource : findTransaction db id userId with
    | none =>
      exfalso
      apply herr
      unfold duplicateTransaction
      rw [hsource]
      rfl
    | some source =>
      obtain ⟨account, hacc, _, heq⟩ :=
        duplicateTransaction_success hsource (Bool.eq_false_iff.mpr herr)
      obtain ⟨hm, h1, h2⟩ := findAccount_some hacc
      rw [heq]
      refine ⟨fun a => if a.id = source.accountId then
        { a with balance := a.balance + source.amount } else a, rfl, ?_, ?_⟩
      · intro a
        dsimp only
        split <;> exact ⟨rfl, rfl⟩
      · intro a h
        have hid : a.id = source.accountId := by
          by_contra hne
          exact h (if_neg hne)
        exact ⟨account, hm, h1.trans hid.symm, h2⟩

theorem updateAccount_accounts (db : Db) (userId id : Nat) (name bank : String)
    (type : AccountType) (balance : Int) :
    ∃ f : Account → Account,
      (updateAccount db userId id name bank type balance).2.accounts = db.accounts.map f ∧
      (∀ a, (f a).id = a.id ∧ (f a).userId = a.userId) ∧
      (∀ a, f a ≠ a → ∃ acct ∈ db.accounts, acct.id = a.id ∧ acct.userId = userId) := by
  unfold updateAccount
  cases hacc : findAccount db id userId with
  | none => exact ⟨fun a => a, by simp, fun a => ⟨rfl, rfl⟩, fun a h => absurd rfl h⟩
  | some account =>
    obtain ⟨hm, h1, h2⟩ := findAccount_some hacc
    dsimp only
    split
    · exact ⟨fun a => a, by simp, fun a => ⟨rfl, rfl⟩, fun a h => absurd rfl h⟩
    · refine ⟨fun a => if a.id = id ∧ a.userId = userId then
        { a with name := name, bank := bank, type := type, balance := balance } else a,
        rfl, ?_, ?_⟩
      · intro a
        dsimp only
        split <;> exact ⟨rfl, rfl⟩
      · intro a h
        have hid : a.id = id ∧ a.userId = userId := by
          by_contra hne
          exact h (if_neg hne)
        exact ⟨account, hm, h1.trans hid.1.symm, h2⟩

/-- The accounts after a call: rows are rewritten in place with their id and owner kept,
and only rows of the caller change; or a row of the caller is appended under a fresh id;
or a row of the caller that carries no transaction of the caller is removed. -/
theorem apply_accounts (db : Db) (ho : OwnAccounts db) (op : Operation) :
    (∃ f : Account → Account, (op.apply db).accounts = db.accounts.map f ∧
      (∀ a, (f a).id = a.id ∧ (f a).userId = a.userId) ∧
      (∀ a, f a ≠ a → ∃ u, op.caller = some u ∧
        ∃ acct ∈ db.accounts, acct.id = a.id ∧ acct.userId = u)) ∨
    (∃ r u, op.caller = some u ∧ r.userId = u ∧
      r.id = lastInsertRowid (db.accounts.map (fun a => a.id)) ∧
      (op.apply db).accounts = db.accounts ++ [r]) ∨
    (∃ u id, op.caller = some u ∧
      (op.apply db).accounts =
        db.accounts.filter (fun a => !decide (a.id = id ∧ a.userId = u)) ∧
      (op.apply db).transactions = db.transactions ∧
      ∀ t ∈ db.transactions, ¬ (t.accountId = id ∧ t.userId = u)) := by
  have same : ∀ {db1 : Db}, db1.accounts = db.accounts →
      ∃ f : Account → Account, db1.accounts = db.accounts.map f ∧
        (∀ a, (f a).id = a.id ∧ (f a).userId = a.userId) ∧
        (∀ a, f a ≠ a → ∃ u, op.caller = some u ∧
          ∃ acct ∈ db.accounts, acct.id = a.id ∧ acct.userId = u) :=
    fun h => ⟨fun a => a, by rw [h]; simp, fun a => ⟨rfl, rfl⟩, fun a h => absurd rfl h⟩
  cases op with
  | transaction t =>
    left
    cases t with
    | create userId body =>
      obtain ⟨f, h1, h2, h3⟩ := createTransaction_accounts db userId body
      exact ⟨f, h1, h2, fun a h => ⟨userId, rfl, h3 a h⟩⟩
    | update userId id body =>
      obtain ⟨f, h1, h2, h3⟩ := updateTransaction_accounts db ho userId id body
      exact ⟨f, h1, h2, fun a h => ⟨userId, rfl, h3 a h⟩⟩
    | delete userId id =>
      obtain ⟨f, h1, h2, h3⟩ := deleteTransaction_accounts db ho userId id
      exact ⟨f, h1, h2, fun a h => ⟨userId, rfl, h3 a h⟩⟩
    | duplicate userId id body today =>
      obtain ⟨f, h1, h2, h3⟩ := duplicateTransaction_accounts db userId id body today
      exact ⟨f, h1, h2, fun a h => ⟨userId, rfl, h3 a h⟩⟩
  | updateAccount userId id name bank type balance =>
    left
    obtain ⟨f, h1, h2, h3⟩ := updateAccount_accounts db userId id name bank type balance
    exact ⟨f, h1, h2, fun a h => ⟨userId, rfl, h3 a h⟩⟩
  | createAccount userId name bank type balance =>
    show _ ∨ _ ∨ _
    simp only [Operation.apply, Operation.caller]
    unfold createAccount
    split
    · exact Or.inl (same rfl)
    · exact Or.inr (Or.inl ⟨_, userId, rfl, rfl, rfl, rfl⟩)
  | deleteAccount userId id =>
    simp only [Operation.apply, Operation.caller]
    unfold deleteAccount
    split
    · exact Or.inl (same rfl)
    · dsimp only
      split
      · exact Or.inl (same rfl)
      · rename_i hcount
        refine Or.inr (Or.inr ⟨userId, id, rfl, rfl, rfl, ?_⟩)
        intro t ht hp
        apply hcount
        apply List.length_pos_of_mem
        exact List.mem_filter.mpr ⟨ht, by simpa using hp⟩
  | createCategory name type color => exact Or.inl (same (createCategory_frame db name type color).1)
  | updateCategory id name type color =>
    exact Or.inl (same (updateCategory_frame db id name type color).1)
  | deleteCategory id => exact Or.inl (same (deleteCategory_frame db id).1)
  | createBudget userId body => exact Or.inl (same (createBudget_frame db userId body).1)
  | updateBudget userId id body => exact Or.inl (same (updateBudget_frame db userId id body).1)
  | deleteBudget userId id => exact Or.inl (same (deleteBudget_frame db userId id).1)
  | createGoal userId body => exact Or.inl (same (createGoal_frame db userId body).1)
  | updateGoal userId id body currentAmount =>
    exact Or.inl (same (updateGoal_frame db userId id body currentAmount).1)
  | deleteGoal userId id => exact Or.inl (same (deleteGoal_frame db userId id).1)
  | contributeToGoal userId id amount =>
    exact Or.inl (same (contributeToGoal_frame db userId id amount).1)

/-! ### The transactions after a call -/

theorem createTransaction_transactions (db : Db) (userId : Nat) (body : TransactionBody) :
    (createTransaction db userId body).2.transactions = db.transactions ∨
    ∃ r : Transaction,
      (createTransaction db userId body).2.transactions = db.transactions ++ [r] ∧
      r.userId = userId ∧ (findAccount db r.accountId userId).isSome = true ∧
      (findCategory db r.categoryId).isSome = true := by
  unfold createTransaction
  cases hacc : findAccount db body.accountId userId with
  | none => exact Or.inl rfl
  | some account =>
    dsimp only
    cases hcat : findCategory db body.categoryId with
    | none => exact Or.inl rfl
    | some category =>
      dsimp only
      split_ifs
      · exact Or.inl rfl
      · exact Or.inl rfl
      · exact Or.inl rfl
      · exact Or.inr ⟨_, rfl, rfl, by rw [hacc]; rfl, by rw [hcat]; rfl⟩

theorem updateTransaction_transactions (db : Db) (userId id : Nat)
    (body : TransactionBody) :
    (updateTransaction db userId id body).2.transactions = db.transactions ∨
    ∃ g : Transaction → Transaction,
      (updateTransaction db userId id body).2.transactions =
        db.transactions.map (fun t => if t.id = id ∧ t.userId = userId then g t else t) ∧
      ∀ t, (g t).id = t.id ∧ (g t).userId = t.userId ∧
        (findAccount db (g t).accountId userId).isSome = true ∧
        (findCategory db (g t).categoryId).isSome = true := by
  unfold updateTransaction
  cases hold : findTransaction db id userId with
  | none => exact Or.inl rfl
  | some old =>
    dsimp only
    cases hacc : findAccount db body.accountId userId with
    | none => exact Or.inl rfl
    | some account =>
      dsimp only
      cases hcat : findCategory db body.categoryId with
      | none => exact Or.inl rfl
      | some category =>
        dsimp only
        by_cases h1 : body.amount > 0 ∧ category.type ≠ .income
        · rw [if_pos h1]
          exact Or.inl rfl
        · rw [if_neg h1]
          by_cases h2 : body.amount < 0 ∧ category.type ≠ .expense
          · rw [if_pos h2]
            exact Or.inl rfl
          · rw [if_neg h2]
            right
            refine ⟨fun t =>
              { t with
                description := body.description, amount := body.amount,
                categoryId := body.categoryId, accountId := body.accountId,
                date := body.date, notes := jsOrNull body.notes }, ?_, ?_⟩
            · unfold updateTransactionRow
              by_cases hsame : old.accountId = body.accountId
              · rw [if_pos hsame]
                rfl
              · rw [if_neg hsame]
                rfl
            · intro t
              exact ⟨rfl, rfl, by rw [hacc]; rfl, by rw [hcat]; rfl⟩

theorem duplicateTransaction_transactions (db : Db) (userId id : Nat) (body : DuplicateBody)
    (today : String) :
    (duplicateTransaction db userId id body today).2.transactions = db.transactions ∨
    ∃ r : Transaction,
      (duplicateTransaction db userId id body today).2.transactions =
        db.transactions ++ [r] ∧
      r.userId = userId ∧ (findAccount db r.accountId userId).isSome = true ∧
      ∃ s ∈ db.transactions, s.categoryId = r.categoryId := by
  unfold duplicateTransaction
  cases hsource : findTransaction db id userId with
  | none => exact Or.inl rfl
  | some source =>
    dsimp only
    cases hacc : findAccount db source.accountId userId with
    | none => exact Or.inl rfl
    | some account =>
      dsimp only
      split_ifs
      · exact Or.inl rfl
      · exact Or.inr ⟨_, rfl, rfl, by rw [hacc]; rfl,
          source, (findTransaction_some hsource).1, rfl⟩

/-- The transactions after a call: unchanged; or a row of the caller is appended, on an
account of the caller and in a category that exists or that an earlier row has; or the
caller's row with one id is rewritten, keeping its id and owner, onto an account of the
caller and a category that exists; or the caller's row with one id is removed. -/
theorem apply_transactions (db : Db) (op : Operation) :
    (op.apply db).transactions = db.transactions ∨
    (∃ (r : Transaction) (u : Nat),
      (op.apply db).transactions = db.transactions ++ [r] ∧ op.caller = some u ∧
      r.userId = u ∧ (findAccount db r.accountId u).isSome = true ∧
      ((findCategory db r.categoryId).isSome = true ∨
        ∃ s ∈ db.transactions, s.categoryId = r.categoryId)) ∨
    (∃ (g : Transaction → Transaction) (u id : Nat),
      (op.apply db).transactions =
        db.transactions.map (fun t => if t.id = id ∧ t.userId = u then g t else t) ∧
      op.caller = some u ∧
      ∀ t, (g t).id = t.id ∧ (g t).userId = t.userId ∧
        (findAccount db (g t).accountId u).isSome = true ∧
        (findCategory db (g t).categoryId).isSome = true) ∨
    (∃ u id : Nat,
      (op.apply db).transactions =
        db.transactions.filter (fun t => !decide (t.id = id ∧ t.userId = u)) ∧
      op.caller = some u) := by
  cases op with
  | transaction t =>
    cases t with
    | create userId body =>
      rcases createTransaction_transactions db userId body with h | ⟨r, h1, h2, h3, h4⟩
      · exact Or.inl h
      · exact Or.inr (Or.inl ⟨r, userId, h1, rfl, h2, h3, Or.inl h4⟩)
    | update userId id body =>
      rcases updateTransaction_transactions db userId id body with h | ⟨g, h1, h2⟩
      · exact Or.inl h
      · exact Or.inr (Or.inr (Or.inl ⟨g, userId, id, h1, rfl, h2⟩))
    | delete userId id =>
      simp only [Operation.apply, Operation.caller, TxOp.handle]
      unfold deleteTransaction
      split
      · exact Or.inl rfl
      · exact Or.inr (Or.inr (Or.inr ⟨userId, id, rfl, rfl⟩))
    | duplicate userId id body today =>
      rcases duplicateTransaction_transactions db userId id body today with
        h | ⟨r, h1, h2, h3, h4⟩
      · exact Or.inl h
      · exact Or.inr (Or.inl ⟨r, userId, h1, rfl, h2, h3, Or.inr h4⟩)
  | createAccount userId name bank type balance =>
    exact Or.inl (createAccount_frame db userId name bank type balance).1
  | updateAccount userId id name bank type balance =>
    exact Or.inl (updateAccount_frame db userId id name bank type balance).1
  | deleteAccount userId id => exact Or.inl (deleteAccount_frame db userId id).1
  | createCategory name type color =>
    exact Or.inl (createCategory_frame db name type color).2.1
  | updateCategory id name type color =>
    exact Or.inl (updateCategory_frame db id name type color).2.1
  | deleteCategory id => exact Or.inl (deleteCategory_frame db id).2.1
  | createBudget userId body => exact Or.inl (createBudget_frame db userId body).2.1
  | updateBudget userId id body => exact Or.inl (updateBudget_frame db userId id body).2.1
  | deleteBudget userId id => exact Or.inl (deleteBudget_frame db userId id).2.1
  | createGoal userId body => exact Or.inl (createGoal_frame db userId body).2.1
  | updateGoal userId id body currentAmount =>
    exact Or.inl (updateGoal_frame db userId id body currentAmount).2.1
  | deleteGoal userId id => exact Or.inl (deleteGoal_frame db userId id).2.1
  | contributeToGoal userId id amount =>
    exact Or.inl (contributeToGoal_frame db userId id amount).2.1

/-! ### Invariants kept by every call -/

theorem nodup_keys_append_fresh {α : Type} (key : α → Nat) (l : List α) (r : α)
    (hu : (l.map key).Nodup) (hr : key r = lastInsertRowid (l.map key)) :
    ((l ++ [r]).map key).Nodup := by
  rw [List.map_append, List.map_singleton]
  refine List.Nodup.append hu (List.nodup_singleton _) ?_
  intro x hx hx1
  rw [List.mem_singleton] at hx1
  subst hx1
  rw [hr] at hx
  exact lastInsertRowid_not_mem _ hx

theorem accountIdsUnique_apply (db : Db) (ho : OwnAccounts db) (hu : AccountIdsUnique db)
    (op : Operation) : AccountIdsUnique (op.apply db) := by
  unfold AccountIdsUnique at hu ⊢
  rcases apply_accounts db ho op with ⟨f, h1, h2, _⟩ | ⟨r, u, _, _, h3, h4⟩ | ⟨u, id, _, h2, _⟩
  · rw [h1, List.map_map]
    have : ((fun a : Account => a.id) ∘ f) = fun a : Account => a.id := by
      funext a
      exact (h2 a).1
    rw [this]
    exact hu
  · rw [h4]
    exact nodup_keys_append_fresh (fun a : Account => a.id) db.accounts r hu h3
  · rw [h2]
    exact hu.sublist ((List.filter_sublist db.accounts).map _)

theorem ownAccounts_apply (db : Db) (ho : OwnAccounts db) (op : Operation) :
    OwnAccounts (op.apply db) := by
  have hold : ∀ t ∈ (op.apply db).transactions,
      ∃ a ∈ db.accounts, a.id = t.accountId ∧ a.userId = t.userId := by
    intro t ht
    rcases apply_transactions db op with h | ⟨r, u, h1, _, h2, h3, _⟩ |
        ⟨g, u, id, h1, _, h2⟩ | ⟨u, id, h1, _⟩
    · rw [h] at ht
      exact ho t ht
    · rw [h1, List.mem_append, List.mem_singleton] at ht
      rcases ht with ht | rfl
      · exact ho t ht
      · obtain ⟨a, ha⟩ := Option.isSome_iff_exists.mp h3
        obtain ⟨hm, hid, hus⟩ := findAccount_some ha
        exact ⟨a, hm, hid, hus.trans h2.symm⟩
    · rw [h1, List.mem_map] at ht
      obtain ⟨s, hs, rfl⟩ := ht
      by_cases hc : s.id = id ∧ s.userId = u
      · rw [if_pos hc]
        obtain ⟨a, ha⟩ := Option.isSome_iff_exists.mp (h2 s).2.2.1
        obtain ⟨hm, hid, hus⟩ := findAccount_some ha
        exact ⟨a, hm, hid, hus.trans ((h2 s).2.1.trans hc.2).symm⟩
      · rw [if_neg hc]
        exact ho s hs
    · rw [h1] at ht
      exact ho t (List.mem_of_mem_filter ht)
  intro t ht
  obtain ⟨a, ham, haid, hau⟩ := hold t ht
  rcases apply_accounts db ho op with ⟨f, h1, h2, _⟩ | ⟨r, u, _, _, _, h4⟩ | ⟨u, id, _, h2, h3, h4⟩
  · refine ⟨f a, ?_, (h2 a).1.trans haid, (h2 a).2.trans hau⟩
    rw [h1]
    exact List.mem_map_of_mem f ham
  · refine ⟨a, ?_, haid, hau⟩
    rw [h4]
    exact List.mem_append_left _ ham
  · refine ⟨a, ?_, haid, hau⟩
    rw [h2, List.mem_filter]
    refine ⟨ham, ?_⟩
    rw [h3] at ht
    have := h4 t ht
    rw [← haid, ← hau] at this
    rw [Bool.not_eq_true', decide_eq_false_iff_not]
    exact this

theorem reachable_ownAccounts (db : Db) (hr : Reachable db) :
    OwnAccounts db ∧ AccountIdsUnique db := by
  refine @reachable_induction (fun db => OwnAccounts db ∧ AccountIdsUnique db) ?_ ?_ db hr
  · show OwnAccounts Db.empty ∧ AccountIdsUnique Db.empty
    exact ⟨fun t ht => (by cases ht), List.nodup_nil⟩
  · intro db op h
    show OwnAccounts (op.apply db) ∧ AccountIdsUnique (op.apply db)
    exact ⟨ownAccounts_apply db h.1 op, accountIdsUnique_apply db h.1 h.2 op⟩

/-! ### Deleting an account -/

theorem findAccount_of_mem {db : Db} {a : Account} (ha : a ∈ db.accounts) :
    ∃ found, findAccount db a.id a.userId = some found := by
  apply Option.isSome_iff_exists.mp
  unfold findAccount
  rw [List.find?_isSome]
  exact ⟨a, ha, by simp⟩

/-- C24, as stated, fails on the name of the code: deleting account 2 of user 1, which
carries one transaction, is refused with the code `ACCOUNT_HAS_TRANSACTIONS`, not
`HAS_TRANSACTIONS`. -/
theorem deleteAccount_code_name :
    (deleteAccount ledgerExampleDb 1 2).1 =
      .failure 409 .ACCOUNT_HAS_TRANSACTIONS (some (.transactionCount 1)) ∧
    (deleteAccount ledgerExampleDb 1 2).1.code?.map ErrorCode.code =
      some "ACCOUNT_HAS_TRANSACTIONS" ∧
    (deleteAccount ledgerExampleDb 1 2).1.code?.map ErrorCode.code ≠
      some "HAS_TRANSACTIONS" := by
  decide

/-- C24, amended: in a state with unique account ids where each transaction is on an
account of its owner, `deleteAccount` fails with `ACCOUNT_HAS_TRANSACTIONS` if and only
if the account exists, is owned by the caller and at least one transaction references
it; the failure reports the number of these transactions and leaves the database as it
was; and when no transaction references an account of the caller, the call succeeds and
removes exactly the rows of `accounts` with that id, touching nothing else. -/
theorem deleteAccount_spec (db : Db) (hu : AccountIdsUnique db) (ho : OwnAccounts db)
    (userId id : Nat) :
    ((deleteAccount db userId id).1.code? = some .ACCOUNT_HAS_TRANSACTIONS ↔
      (∃ a ∈ db.accounts, a.id = id ∧ a.userId = userId) ∧
      (∃ t ∈ db.transactions, t.accountId = id)) ∧
    ((deleteAccount db userId id).1.code? = some .ACCOUNT_HAS_TRANSACTIONS →
      deleteAccount db userId id =
        (.failure 409 .ACCOUNT_HAS_TRANSACTIONS
          (some (.transactionCount (transactionsOn db id).length)), db)) ∧
    ((∃ a ∈ db.accounts, a.id = id ∧ a.userId = userId) →
      (∀ t ∈ db.transactions, t.accountId ≠ id) →
      deleteAccount db userId id =
        (.success 200 id,
          { db with accounts := db.accounts.filter (fun a => !decide (a.id = id)) })) := by
  have hown : ∀ account, findAccount db id userId = some account →
      ∀ t ∈ db.transactions, t.accountId = id → t.userId = userId := by
    intro account hacc t ht hid
    obtain ⟨hm, h1, h2⟩ := findAccount_some hacc
    obtain ⟨a, ham, ha1, ha2⟩ := ho t ht
    have : a = account := account_eq_of_id_eq hu ham hm (by rw [ha1, hid, h1])
    rw [← ha2, this, h2]
  have hfilter : ∀ account, findAccount db id userId = some account →
      db.transactions.filter (fun t => decide (t.accountId = id ∧ t.userId = userId)) =
        transactionsOn db id := by
    intro account hacc
    unfold transactionsOn
    apply List.filter_congr
    intro t ht
    by_cases h : t.accountId = id
    · simp [h, hown account hacc t ht h]
    · simp [h]
  have hrows : ∀ account, findAccount db id userId = some account →
      db.accounts.filter (fun a => !decide (a.id = id ∧ a.userId = userId)) =
        db.accounts.filter (fun a => !decide (a.id = id)) := by
    intro account hacc
    obtain ⟨hm, h1, h2⟩ := findAccount_some hacc
    apply List.filter_congr
    intro a ha
    by_cases h : a.id = id
    · have : a = account := account_eq_of_id_eq hu ha hm (by rw [h, h1])
      simp [h, this, h2]
    · simp [h]
  refine ⟨⟨?_, ?_⟩, ?_, ?_⟩
  · intro hcode
    unfold deleteAccount at hcode
    cases hacc : findAccount db id userId with
    | none => rw [hacc] at hcode; simp [Response.code?] at hcode
    | some account =>
      rw [hacc] at hcode
      dsimp only at hcode
      obtain ⟨hm, h1, h2⟩ := findAccount_some hacc
      refine ⟨⟨account, hm, h1, h2⟩, ?_⟩
      by_cases hcount : (db.transactions.filter
          (fun t => decide (t.accountId = id ∧ t.userId = userId))).length > 0
      · obtain ⟨t, ht⟩ := List.exists_mem_of_length_pos hcount
        rw [List.mem_filter] at ht
        exact ⟨t, ht.1, (of_decide_eq_true ht.2).1⟩
      · rw [if_neg hcount] at hcode
        simp [Response.code?] at hcode
  · rintro ⟨⟨a, ha, h1, h2⟩, t, ht, htid⟩
    obtain ⟨account, hacc⟩ := findAccount_of_mem ha
    rw [h1, h2] at hacc
    unfold deleteAccount
    rw [hacc]
    dsimp only
    have hcount : (db.transactions.filter
        (fun t => decide (t.accountId = id ∧ t.userId = userId))).length > 0 := by
      apply List.length_pos_of_mem
      exact List.mem_filter.mpr ⟨ht, decide_eq_true ⟨htid, hown account hacc t ht htid⟩⟩
    rw [if_pos hcount]
    rfl
  · intro hcode
    unfold deleteAccount at hcode ⊢
    cases hacc : findAccount db id userId with
    | none => rw [hacc] at hcode; simp [Response.code?] at hcode
    | some account =>
      rw [hacc] at hcode
      dsimp only at hcode ⊢
      by_cases hcount : (db.transactions.filter
          (fun t => decide (t.accountId = id ∧ t.userId = userId))).length > 0
      · rw [if_pos hcount, hfilter account hacc]
      · rw [if_neg hcount] at hcode
        simp [Response.code?] at hcode
  · rintro ⟨a, ha, h1, h2⟩ hnone
    obtain ⟨account, hacc⟩ := findAccount_of_mem ha
    rw [h1, h2] at hacc
    unfold deleteAccount
    rw [hacc]
    dsimp only
    have hcount : ¬ (db.transactions.filter
        (fun t => decide (t.accountId = id ∧ t.userId = userId))).length > 0 := by
      intro hpos
      obtain ⟨t, ht⟩ := List.exists_mem_of_length_pos hpos
      rw [List.mem_filter] at ht
      exact hnone t ht.1 (of_decide_eq_true ht.2).1
    rw [if_neg hcount, hrows account hacc]

theorem deleteAccount_spec_witness :
    AccountIdsUnique ledgerExampleDb ∧ OwnAccounts ledgerExampleDb ∧
    ((deleteAccount ledgerExampleDb 1 2).1.code? = some .ACCOUNT_HAS_TRANSACTIONS ↔
      (∃ a ∈ ledgerExampleDb.accounts, a.id = 2 ∧ a.userId = 1) ∧
      (∃ t ∈ ledgerExampleDb.transactions, t.accountId = 2)) ∧
    deleteAccount ledgerExampleDb 1 1 =
      (.success 200 1,
        { ledgerExampleDb with
          accounts := ledgerExampleDb.accounts.filter (fun a => !decide (a.id = 1)) }) :=
  ⟨by unfold AccountIdsUnique; decide, by unfold OwnAccounts; decide,
    (deleteAccount_spec ledgerExampleDb (by unfold AccountIdsUnique; decide)
      (by unfold OwnAccounts; decide) 1 2).1,
    (deleteAccount_spec ledgerExampleDb (by unfold AccountIdsUnique; decide)
      (by unfold OwnAccounts; decide) 1 1).2.2 (by decide) (by decide)⟩

/-! ### The budgets and the categories after a call -/

theorem createBudget_budgets (db : Db) (userId : Nat) (body : BudgetBody) :
    (createBudget db userId body).2.budgets = db.budgets ∨
    ∃ r : Budget, (createBudget db userId body).2.budgets = db.budgets ++ [r] ∧
      r.userId = userId ∧ (findCategory db r.categoryId).isSome = true := by
  unfold createBudget
  cases hcat : findCategory db body.categoryId with
  | none => exact Or.inl rfl
  | some category =>
    dsimp only
    split_ifs
    · exact Or.inl rfl
    · split
      · exact Or.inl rfl
      · exact Or.inr ⟨_, rfl, rfl, by rw [hcat]; rfl⟩

theorem updateBudget_budgets (db : Db) (userId id : Nat) (body : BudgetBody) :
    (updateBudget db userId id body).2.budgets = db.budgets ∨
    ∃ g : Budget → Budget,
      (updateBudget db userId id body).2.budgets =
        db.budgets.map (fun b => if b.id = id ∧ b.userId = userId then g b else b) ∧
      ∀ b, (g b).id = b.id ∧ (g b).userId = b.userId ∧
        (findCategory db (g b).categoryId).isSome = true := by
  unfold updateBudget
  cases hb : findBudget db id userId with
  | none => exact Or.inl rfl
  | some existing =>
    dsimp only
    cases hcat : findCategory db body.categoryId with
    | none => exact Or.inl rfl
    | some category =>
      dsimp only
      split_ifs
      · exact Or.inl rfl
      · split
        · exact Or.inl rfl
        · right
          refine ⟨fun b =>
            { b with
              categoryId := body.categoryId, amount := body.amount,
              period := body.period, startDate := body.startDate,
              endDate := body.endDate }, rfl, ?_⟩
          intro b
          exact ⟨rfl, rfl, by rw [hcat]; rfl⟩

/-- The budgets after a call: unchanged; or a row of the caller is appended, in a
category that exists; or the caller's row with one id is rewritten, keeping its id and
owner, into a category that exists; or the caller's row with one id is removed. -/
theorem apply_budgets (db : Db) (op : Operation) :
    (op.apply db).budgets = db.budgets ∨
    (∃ (r : Budget) (u : Nat),
      (op.apply db).budgets = db.budgets ++ [r] ∧ op.caller = some u ∧
      r.userId = u ∧ (findCategory db r.categoryId).isSome = true) ∨
    (∃ (g : Budget → Budget) (u id : Nat),
      (op.apply db).budgets =
        db.budgets.map (fun b => if b.id = id ∧ b.userId = u then g b else b) ∧
      op.caller = some u ∧
      ∀ b, (g b).id = b.id ∧ (g b).userId = b.userId ∧
        (findCategory db (g b).categoryId).isSome = true) ∨
    (∃ u id : Nat,
      (op.apply db).budgets =
        db.budgets.filter (fun b => !decide (b.id = id ∧ b.userId = u)) ∧
      op.caller = some u) := by
  cases op with
  | transaction t =>
    cases t with
    | create userId body => exact Or.inl (createTransaction_frame db userId body).2.1
    | update userId id body => exact Or.inl (updateTransaction_frame db userId id body).2.1
    | delete userId id => exact Or.inl (deleteTransaction_frame db userId id).2.1
    | duplicate userId id body today =>
      exact Or.inl (duplicateTransaction_frame db userId id body today).2.1
  | createAccount userId name bank type balance =>
    exact Or.inl (createAccount_frame db userId name bank type balance).2.2.1
  | updateAccount userId id name bank type balance =>
    exact Or.inl (updateAccount_frame db userId id name bank type balance).2.2.1
  | deleteAccount userId id => exact Or.inl (deleteAccount_frame db userId id).2.2.1
  | createCategory name type color =>
    exact Or.inl (createCategory_frame db name type color).2.2.1
  | updateCategory id name type color =>
    exact Or.inl (updateCategory_frame db id name type color).2.2.1
  | deleteCategory id => exact Or.inl (deleteCategory_frame db id).2.2.1
  | createBudget userId body =>
    rcases createBudget_budgets db userId body with h | ⟨r, h1, h2, h3⟩
    · exact Or.inl h
    · exact Or.inr (Or.inl ⟨r, userId, h1, rfl, h2, h3⟩)
  | updateBudget userId id body =>
    rcases updateBudget_budgets db userId id body with h | ⟨g, h1, h2⟩
    · exact Or.inl h
    · exact Or.inr (Or.inr (Or.inl ⟨g, userId, id, h1, rfl, h2⟩))
  | deleteBudget userId id =>
    simp only [Operation.apply, Operation.caller]
    unfold deleteBudget
    split
    · exact Or.inl rfl
    · exact Or.inr (Or.inr (Or.inr ⟨userId, id, rfl, rfl⟩))
  | createGoal userId body => exact Or.inl (createGoal_frame db userId body).2.2.2
  | updateGoal userId id body currentAmount =>
    exact Or.inl (updateGoal_frame db userId id body currentAmount).2.2.2
  | deleteGoal userId id => exact Or.inl (deleteGoal_frame db userId id).2.2.2
  | contributeToGoal userId id amount =>
    exact Or.inl (contributeToGoal_frame db userId id amount).2.2.2

/-- The categories after a call: rows are rewritten in place with their id kept; or a
row is appended; or the rows with one id are removed, by a call that changes no
transaction and no budget and finds none of them in that category. -/
theorem apply_categories (db : Db) (op : Operation) :
    (∃ f : Category → Category, (op.apply db).categories = db.categories.map f ∧
      ∀ c, (f c).id = c.id) ∨
    (∃ r : Category, (op.apply db).categories = db.categories ++ [r]) ∨
    (∃ id : Nat,
      (op.apply db).categories = db.categories.filter (fun c => !decide (c.id = id)) ∧
      (op.apply db).transactions = db.transactions ∧
      (op.apply db).budgets = db.budgets ∧
      (∀ t ∈ db.transactions, t.categoryId ≠ id) ∧
      (∀ b ∈ db.budgets, b.categoryId ≠ id)) := by
  have same : ∀ {db1 : Db}, db1.categories = db.categories →
      ∃ f : Category → Category, db1.categories = db.categories.map f ∧
        ∀ c, (f c).id = c.id :=
    fun h => ⟨fun c => c, by rw [h]; simp, fun c => rfl⟩
  cases op with
  | transaction t =>
    cases t with
    | create userId body => exact Or.inl (same (createTransaction_frame db userId body).1)
    | update userId id body =>
      exact Or.inl (same (updateTransaction_frame db userId id body).1)
    | delete userId id => exact Or.inl (same (deleteTransaction_frame db userId id).1)
    | duplicate userId id body today =>
      exact Or.inl (same (duplicateTransaction_frame db userId id body today).1)
  | createAccount userId name bank type balance =>
    exact Or.inl (same (createAccount_frame db userId name bank type balance).2.1)
  | updateAccount userId id name bank type balance =>
    exact Or.inl (same (updateAccount_frame db userId id name bank type balance).2.1)
  | deleteAccount userId id => exact Or.inl (same (deleteAccount_frame db userId id).2.1)
  | createCategory name type color =>
    simp only [Operation.apply]
    unfold createCategory
    split
    · exact Or.inl (same rfl)
    · exact Or.inr (Or.inl ⟨_, rfl⟩)
  | updateCategory id name type color =>
    simp only [Operation.apply]
    unfold updateCategory
    split
    · exact Or.inl (same rfl)
    · split
      · exact Or.inl (same rfl)
      · refine Or.inl ⟨fun c => if c.id = id then
          { c with name := name, type := type, color := color } else c, rfl, ?_⟩
        intro c
        dsimp only
        split <;> rfl
  | deleteCategory id =>
    simp only [Operation.apply]
    unfold deleteCategory
    split
    · exact Or.inl (same rfl)
    · dsimp only
      split
      · exact Or.inl (same rfl)
      · rename_i htx
        split
        · exact Or.inl (same rfl)
        · rename_i hbu
          refine Or.inr (Or.inr ⟨id, rfl, rfl, rfl, ?_, ?_⟩)
          · intro t ht hid
            apply htx
            apply List.length_pos_of_mem
            exact List.mem_filter.mpr ⟨ht, decide_eq_true hid⟩
          · intro b hb hid
            apply hbu
            apply List.length_pos_of_mem
            exact List.mem_filter.mpr ⟨hb, decide_eq_true hid⟩
  | createBudget userId body => exact Or.inl (same (createBudget_frame db userId body).2.2.1)
  | updateBudget userId id body =>
    exact Or.inl (same (updateBudget_frame db userId id body).2.2.1)
  | deleteBudget userId id => exact Or.inl (same (deleteBudget_frame db userId id).2.2.1)
  | createGoal userId body => exact Or.inl (same (createGoal_frame db userId body).2.2.1)
  | updateGoal userId id body currentAmount =>
    exact Or.inl (same (updateGoal_frame db userId id body currentAmount).2.2.1)
  | deleteGoal userId id => exact Or.inl (same (deleteGoal_frame db userId id).2.2.1)
  | contributeToGoal userId id amount =>
    exact Or.inl (same (contributeToGoal_frame db userId id amount).2.2.1)

theorem categoryRefs_apply (db : Db) (hc : CategoryRefs db) (op : Operation) :
    CategoryRefs (op.apply db) := by
  have htx : ∀ t ∈ (op.apply db).transactions,
      ∃ c ∈ db.categories, c.id = t.categoryId := by
    intro t ht
    rcases apply_transactions db op with h | ⟨r, u, h1, _, _, _, h4⟩ |
        ⟨g, u, id, h1, _, h2⟩ | ⟨u, id, h1, _⟩
    · rw [h] at ht
      exact (findCategory_isSome_iff db _).mp (hc.1 t ht)
    · rw [h1, List.mem_append, List.mem_singleton] at ht
      rcases ht with ht | rfl
      · exact (findCategory_isSome_iff db _).mp (hc.1 t ht)
      · rcases h4 with h4 | ⟨s, hs, hsc⟩
        · exact (findCategory_isSome_iff db _).mp h4
        · rw [← hsc]
          exact (findCategory_isSome_iff db _).mp (hc.1 s hs)
    · rw [h1, List.mem_map] at ht
      obtain ⟨s, hs, rfl⟩ := ht
      by_cases hcond : s.id = id ∧ s.userId = u
      · rw [if_pos hcond]
        exact (findCategory_isSome_iff db _).mp (h2 s).2.2.2
      · rw [if_neg hcond]
        exact (findCategory_isSome_iff db _).mp (hc.1 s hs)
    · rw [h1] at ht
      exact (findCategory_isSome_iff db _).mp (hc.1 t (List.mem_of_mem_filter ht))
  have hbu : ∀ b ∈ (op.apply db).budgets,
      ∃ c ∈ db.categories, c.id = b.categoryId := by
    intro b hb
    rcases apply_budgets db op with h | ⟨r, u, h1, _, _, h4⟩ |
        ⟨g, u, id, h1, _, h2⟩ | ⟨u, id, h1, _⟩
    · rw [h] at hb
      exact (findCategory_isSome_iff db _).mp (hc.2 b hb)
    · rw [h1, List.mem_append, List.mem_singleton] at hb
      rcases hb with hb | rfl
      · exact (findCategory_isSome_iff db _).mp (hc.2 b hb)
      · exact (findCategory_isSome_iff db _).mp h4
    · rw [h1, List.mem_map] at hb
      obtain ⟨s, hs, rfl⟩ := hb
      by_cases hcond : s.id = id ∧ s.userId = u
      · rw [if_pos hcond]
        exact (findCategory_isSome_iff db _).mp (h2 s).2.2
      · rw [if_neg hcond]
        exact (findCategory_isSome_iff db _).mp (hc.2 s hs)
    · rw [h1] at hb
      exact (findCategory_isSome_iff db _).mp (hc.2 b (List.mem_of_mem_filter hb))
  have hkeep : ∀ x : Nat, (∃ c ∈ db.categories, c.id = x) →
      ((∃ t ∈ (op.apply db).transactions, t.categoryId = x) ∨
        (∃ b ∈ (op.apply db).budgets, b.categoryId = x)) →
      ∃ c ∈ (op.apply db).categories, c.id = x := by
    rintro x ⟨c, hcm, hcx⟩ href
    rcases apply_categories db op with ⟨f, h1, h2⟩ | ⟨r, h1⟩ | ⟨id, h1, h2, h3, h4, h5⟩
    · exact ⟨f c, by rw [h1]; exact List.mem_map_of_mem f hcm, (h2 c).trans hcx⟩
    · exact ⟨c, by rw [h1]; exact List.mem_append_left _ hcm, hcx⟩
    · refine ⟨c, ?_, hcx⟩
      rw [h1, List.mem_filter]
      refine ⟨hcm, ?_⟩
      have hne : c.id ≠ id := by
        rw [hcx]
        rcases href with ⟨t, ht, htx⟩ | ⟨b, hb, hbx⟩
        · rw [h2] at ht
          exact htx ▸ h4 t ht
        · rw [h3] at hb
          exact hbx ▸ h5 b hb
      simpa using hne
  constructor
  · intro t ht
    exact (findCategory_isSome_iff _ _).mpr (hkeep _ (htx t ht) (Or.inl ⟨t, ht, rfl⟩))
  · intro b hb
    exact (findCategory_isSome_iff _ _).mpr (hkeep _ (hbu b hb) (Or.inr ⟨b, hb, rfl⟩))

theorem reachable_categoryRefs (db : Db) (hr : Reachable db) : CategoryRefs db := by
  refine @reachable_induction (fun db => CategoryRefs db) ?_ ?_ db hr
  · exact ⟨fun t ht => (by cases ht), fun b hb => (by cases hb)⟩
  · intro db op h
    exact categoryRefs_apply db h op

/-! ### Deleting a category -/

/-- C25: `deleteCategory` on an existing category succeeds, removing the rows with that
id and nothing else, if and only if no transaction and no budget, of whatever user,
refers to the category; otherwise it fails with status 409 and `CATEGORY_IN_USE` and
leaves the database as it was.  In every reachable state each transaction and each budget
refers to a category that exists. -/
theorem deleteCategory_guards_references (db : Db) :
    (∀ id : Nat, (findCategory db id).isSome = true →
      ((deleteCategory db id).1.isError = false ↔
        (∀ t ∈ db.transactions, t.categoryId ≠ id) ∧
        (∀ b ∈ db.budgets, b.categoryId ≠ id)) ∧
      ((deleteCategory db id).1.isError = false →
        deleteCategory db id =
          (.success 200 id,
            { db with categories := db.categories.filter (fun c => !decide (c.id = id)) }) ∧
        findCategory (deleteCategory db id).2 id = none) ∧
      ((deleteCategory db id).1.isError = true →
        (∃ details, (deleteCategory db id).1 = .failure 409 .CATEGORY_IN_USE details) ∧
        (deleteCategory db id).2 = db)) ∧
    (Reachable db → CategoryRefs db) := by
  refine ⟨?_, reachable_categoryRefs db⟩
  intro id hex
  obtain ⟨category, hcat⟩ := Option.isSome_iff_exists.mp hex
  have htx : (db.transactions.filter (fun t => decide (t.categoryId = id))).length > 0 ↔
      ∃ t ∈ db.transactions, t.categoryId = id := by
    constructor
    · intro h
      obtain ⟨t, ht⟩ := List.exists_mem_of_length_pos h
      rw [List.mem_filter] at ht
      exact ⟨t, ht.1, of_decide_eq_true ht.2⟩
    · rintro ⟨t, ht, hid⟩
      exact List.length_pos_of_mem (List.mem_filter.mpr ⟨ht, decide_eq_true hid⟩)
  have hbu : (db.budgets.filter (fun b => decide (b.categoryId = id))).length > 0 ↔
      ∃ b ∈ db.budgets, b.categoryId = id := by
    constructor
    · intro h
      obtain ⟨b, hb⟩ := List.exists_mem_of_length_pos h
      rw [List.mem_filter] at hb
      exact ⟨b, hb.1, of_decide_eq_true hb.2⟩
    · rintro ⟨b, hb, hid⟩
      exact List.length_pos_of_mem (List.mem_filter.mpr ⟨hb, decide_eq_true hid⟩)
  have hgone : findCategory
      { db with categories := db.categories.filter (fun c => !decide (c.id = id)) } id =
      none := by
    unfold findCategory
    rw [List.find?_eq_none]
    intro c hc
    rw [List.mem_filter] at hc
    simpa using hc.2
  unfold deleteCategory
  rw [hcat]
  dsimp only
  by_cases h1 : (db.transactions.filter (fun t => decide (t.categoryId = id))).length > 0
  · rw [if_pos h1]
    obtain ⟨t, ht, hid⟩ := htx.mp h1
    refine ⟨⟨fun h => by simp [Response.isError] at h, fun h => absurd hid (h.1 t ht)⟩,
      fun h => by simp [Response.isError] at h, fun _ => ⟨⟨_, rfl⟩, rfl⟩⟩
  · rw [if_neg h1]
    by_cases h2 : (db.budgets.filter (fun b => decide (b.categoryId = id))).length > 0
    · rw [if_pos h2]
      obtain ⟨b, hb, hid⟩ := hbu.mp h2
      refine ⟨⟨fun h => by simp [Response.isError] at h, fun h => absurd hid (h.2 b hb)⟩,
        fun h => by simp [Response.isError] at h, fun _ => ⟨⟨_, rfl⟩, rfl⟩⟩
    · rw [if_neg h2]
      refine ⟨⟨fun _ => ⟨fun t ht hid => h1 (htx.mpr ⟨t, ht, hid⟩),
        fun b hb hid => h2 (hbu.mpr ⟨b, hb, hid⟩)⟩, fun _ => rfl⟩,
        fun _ => ⟨rfl, hgone⟩, fun h => by simp [Response.isError] at h⟩

theorem deleteCategory_guards_references_witness :
    (findCategory reachedExampleDb 1).isSome = true ∧
    (deleteCategory reachedExampleDb 1).1.isError = true ∧
    Reachable reachedExampleDb ∧
    ((∃ details,
        (deleteCategory reachedExampleDb 1).1 = .failure 409 .CATEGORY_IN_USE details) ∧
      (deleteCategory reachedExampleDb 1).2 = reachedExampleDb) ∧
    CategoryRefs reachedExampleDb :=
  ⟨by decide, by decide, ⟨reachExampleOps, rfl⟩,
    ((deleteCategory_guards_references reachedExampleDb).1 1 (by decide)).2.2 (by decide),
    (deleteCategory_guards_references reachedExampleDb).2 ⟨reachExampleOps, rfl⟩⟩

/-! ### Category names and ids -/

theorem createCategory_keys (db : Db) (hi : CategoryIdsUnique db)
    (hn : CategoryNamesUnique db) (name : String) (type : CategoryType)
    (color : Option String) :
    CategoryIdsUnique (createCategory db name type color).2 ∧
    CategoryNamesUnique (createCategory db name type color).2 := by
  unfold createCategory
  cases hfind : db.categories.find? (fun c => decide (c.name = name)) with
  | some _ => exact ⟨hi, hn⟩
  | none =>
    dsimp only
    constructor
    · exact nodup_keys_append_fresh (fun c : Category => c.id) db.categories _ hi rfl
    · unfold CategoryNamesUnique at hn ⊢
      dsimp only
      rw [List.map_append, List.map_singleton]
      refine List.Nodup.append hn (List.nodup_singleton _) ?_
      intro x hx hx1
      rw [List.mem_singleton] at hx1
      subst hx1
      obtain ⟨c, hc, hcn⟩ := List.mem_map.mp hx
      have := List.find?_eq_none.mp hfind c hc
      exact this (decide_eq_true hcn)

theorem updateCategory_keys (db : Db) (hi : CategoryIdsUnique db)
    (hn : CategoryNamesUnique db) (id : Nat) (name : String) (type : CategoryType)
    (color : String) :
    CategoryIdsUnique (updateCategory db id name type color).2 ∧
    CategoryNamesUnique (updateCategory db id name type color).2 := by
  unfold updateCategory
  cases hcat : findCategory db id with
  | none => exact ⟨hi, hn⟩
  | some _ =>
    dsimp only
    cases hfind : db.categories.find? (fun c => decide (c.name = name ∧ c.id ≠ id)) with
    | some _ => exact ⟨hi, hn⟩
    | none =>
      dsimp only
      have hother : ∀ c ∈ db.categories, c.name = name → c.id = id := by
        intro c hc hcn
        by_contra hne
        exact List.find?_eq_none.mp hfind c hc (decide_eq_true ⟨hcn, hne⟩)
      constructor
      · unfold CategoryIdsUnique at hi ⊢
        dsimp only
        rw [List.map_map]
        have : ((fun c : Category => c.id) ∘ fun c : Category =>
            if c.id = id then { c with name := name, type := type, color := color }
            else c) = fun c : Category => c.id := by
          funext c
          dsimp only [Function.comp]
          split <;> rfl
        rw [this]
        exact hi
      · unfold CategoryNamesUnique at hn ⊢
        unfold CategoryIdsUnique at hi
        dsimp only
        rw [List.map_map]
        refine List.Nodup.map_on ?_ (List.Nodup.of_map _ hi)
        intro c1 h1 c2 h2 heq
        dsimp only [Function.comp] at heq
        by_cases e1 : c1.id = id
        · by_cases e2 : c2.id = id
          · exact List.inj_on_of_nodup_map hi h1 h2 (e1.trans e2.symm)
          · rw [if_pos e1, if_neg e2] at heq
            exact absurd (hother c2 h2 heq.symm) e2
        · by_cases e2 : c2.id = id
          · rw [if_neg e1, if_pos e2] at heq
            exact absurd (hother c1 h1 heq) e1
          · rw [if_neg e1, if_neg e2] at heq
            exact List.inj_on_of_nodup_map hn h1 h2 heq

theorem deleteCategory_keys (db : Db) (hi : CategoryIdsUnique db)
    (hn : CategoryNamesUnique db) (id : Nat) :
    CategoryIdsUnique (deleteCategory db id).2 ∧
    CategoryNamesUnique (deleteCategory db id).2 := by
  unfold deleteCategory
  split
  · exact ⟨hi, hn⟩
  · dsimp only
    split
    · exact ⟨hi, hn⟩
    · split
      · exact ⟨hi, hn⟩
      · exact ⟨hi.sublist ((List.filter_sublist db.categories).map _),
          hn.sublist ((List.filter_sublist db.categories).map _)⟩

theorem categoryKeys_apply (db : Db) (hi : CategoryIdsUnique db)
    (hn : CategoryNamesUnique db) (op : Operation) :
    CategoryIdsUnique (op.apply db) ∧ CategoryNamesUnique (op.apply db) := by
  have same : ∀ {db1 : Db}, db1.categories = db.categories →
      CategoryIdsUnique db1 ∧ CategoryNamesUnique db1 := by
    intro db1 h
    unfold CategoryIdsUnique at hi ⊢
    unfold CategoryNamesUnique at hn ⊢
    rw [h]
    exact ⟨hi, hn⟩
  cases op with
  | transaction t =>
    cases t with
    | create userId body => exact same (createTransaction_frame db userId body).1
    | update userId id body => exact same (updateTransaction_frame db userId id body).1
    | delete userId id => exact same (deleteTransaction_frame db userId id).1
    | duplicate userId id body today =>
      exact same (duplicateTransaction_frame db userId id body today).1
  | createAccount userId name bank type balance =>
    exact same (createAccount_frame db userId name bank type balance).2.1
  | updateAccount userId id name bank type balance =>
    exact same (updateAccount_frame db userId id name bank type balance).2.1
  | deleteAccount userId id => exact same (deleteAccount_frame db userId id).2.1
  | createCategory name type color => exact createCategory_keys db hi hn name type color
  | updateCategory id name type color => exact updateCategory_keys db hi hn id name type color
  | deleteCategory id => exact deleteCategory_keys db hi hn id
  | createBudget userId body => exact same (createBudget_frame db userId body).2.2.1
  | updateBudget userId id body => exact same (updateBudget_frame db userId id body).2.2.1
  | deleteBudget userId id => exact same (deleteBudget_frame db userId id).2.2.1
  | createGoal userId body => exact same (createGoal_frame db userId body).2.2.1
  | updateGoal userId id body currentAmount =>
    exact same (updateGoal_frame db userId id body currentAmount).2.2.1
  | deleteGoal userId id => exact same (deleteGoal_frame db userId id).2.2.1
  | contributeToGoal userId id amount =>
    exact same (contributeToGoal_frame db userId id amount).2.2.1

theorem reachable_categoryKeys (db : Db) (hr : Reachable db) :
    CategoryIdsUnique db ∧ CategoryNamesUnique db := by
  refine @reachable_induction
    (fun db => CategoryIdsUnique db ∧ CategoryNamesUnique db) ?_ ?_ db hr
  · exact ⟨List.nodup_nil, List.nodup_nil⟩
  · intro db op h
    exact categoryKeys_apply db h.1 h.2 op

theorem categoryIdByName_of_mem {db : Db} (hn : CategoryNamesUnique db) {c : Category}
    (hc : c ∈ db.categories) : categoryIdByName db c.name = some c.id := by
  unfold categoryIdByName
  cases hfind : db.categories.find? (fun r => decide (r.name = c.name)) with
  | none =>
    exact absurd (decide_eq_true rfl) (List.find?_eq_none.mp hfind c hc)
  | some r =>
    have hr : r ∈ db.categories := List.mem_of_find?_eq_some hfind
    have hname : r.name = c.name := by simpa using List.find?_some hfind
    have : r = c := List.inj_on_of_nodup_map hn hr hc hname
    rw [this]
    rfl

theorem spendingByName_eq_spending {db : Db} (hn : CategoryNamesUnique db) {c : Category}
    (hc : c ∈ db.categories) (userId : Nat) (startDate endDate : String) :
    spendingByName db userId c.name startDate endDate =
      spending db userId c.id startDate endDate := by
  unfold spendingByName spending
  congr 2
  apply List.filter_congr
  intro t _
  apply decide_eq_decide.mpr
  unfold countsAsSpendingByName countsAsSpending
  rw [categoryIdByName_of_mem hn hc, Option.some.injEq]

/-- C30: in every reachable state, for each row of the active budgets of a user (a
budget joined with its category), the amount spent that the dashboard and the analytics
compute by looking the category up by its name is the amount spent that `GET /budgets`
and `GET /budgets/:id` compute for that budget by its category id, and the evaluation of
the analytics is the evaluation of `GET /budgets`. -/
theorem spent_by_name_eq_spent_by_id (db : Db) (hr : Reachable db) (userId : Nat)
    (today : String) (row : Budget × Category)
    (hrow : row ∈ activeBudgets db userId today) :
    dashboardSpent db userId row =
      spending db userId row.1.categoryId row.1.startDate row.1.endDate ∧
    dashboardSpent db userId row = (budgetWithSpending db userId row.1).2.spent ∧
    budgetPerformance db userId row = (budgetWithSpending db userId row.1).2 ∧
    (∀ view, getBudget db userId row.1.id = .data 200 (row.1, view) →
      view.spent = dashboardSpent db userId row ∧ view = budgetPerformance db userId row) := by
  have hn := (reachable_categoryKeys db hr).2
  unfold activeBudgets at hrow
  rw [List.mem_flatMap] at hrow
  obtain ⟨b, _, hb⟩ := hrow
  rw [List.mem_map] at hb
  obtain ⟨c, hc, rfl⟩ := hb
  rw [List.mem_filter] at hc
  have hid : b.categoryId = c.id := of_decide_eq_true hc.2
  have key : spendingByName db userId c.name b.startDate b.endDate =
      spending db userId b.categoryId b.startDate b.endDate := by
    rw [hid]
    exact spendingByName_eq_spending hn hc.1 userId b.startDate b.endDate
  refine ⟨key, ?_, ?_, ?_⟩
  · unfold dashboardSpent budgetWithSpending
    dsimp only
    rw [key]
    rfl
  · unfold budgetPerformance budgetWithSpending
    dsimp only
    rw [key]
  · intro view hview
    have hv : view = evaluateBudget b.amount
        (spending db userId b.categoryId b.startDate b.endDate) := by
      unfold getBudget at hview
      dsimp only at hview
      cases hfind : findBudgetJoined db b.id userId with
      | none => rw [hfind] at hview; cases hview
      | some found =>
        rw [hfind] at hview
        dsimp only at hview
        injection hview with _ hpair
        injection hpair with hfound hv
        rw [← hv, hfound]
    unfold dashboardSpent budgetPerformance
    dsimp only
    rw [key, hv]
    exact ⟨rfl, rfl⟩

theorem spent_by_name_eq_spent_by_id_witness :
    Reachable reachedExampleDb ∧
    reachedBudgetRow ∈ activeBudgets reachedExampleDb 1 "2024-03-10" ∧
    dashboardSpent reachedExampleDb 1 reachedBudgetRow =
      spending reachedExampleDb 1 1 "2024-03-01" "2024-03-31" ∧
    dashboardSpent reachedExampleDb 1 reachedBudgetRow = 20000 :=
  ⟨⟨reachExampleOps, rfl⟩, by decide,
    (spent_by_name_eq_spent_by_id reachedExampleDb ⟨reachExampleOps, rfl⟩ 1 "2024-03-10"
      reachedBudgetRow (by decide)).1,
    by decide⟩

/-! ### The goals after a call -/

/-- The goals after a call: unchanged; or a row of the caller is appended; or the
caller's row with one id is rewritten, keeping its owner; or the caller's row with one id
is removed. -/
theorem apply_goals (db : Db) (op : Operation) :
    (op.apply db).goals = db.goals ∨
    (∃ (r : Goal) (u : Nat),
      (op.apply db).goals = db.goals ++ [r] ∧ op.caller = some u ∧ r.userId = u) ∨
    (∃ (g : Goal → Goal) (u id : Nat),
      (op.apply db).goals =
        db.goals.map (fun x => if x.id = id ∧ x.userId = u then g x else x) ∧
      op.caller = some u ∧ ∀ x, (g x).userId = x.userId) ∨
    (∃ u id : Nat,
      (op.apply db).goals =
        db.goals.filter (fun x => !decide (x.id = id ∧ x.userId = u)) ∧
      op.caller = some u) := by
  cases op with
  | transaction t =>
    cases t with
    | create userId body => exact Or.inl (createTransaction_frame db userId body).2.2
    | update userId id body => exact Or.inl (updateTransaction_frame db userId id body).2.2
    | delete userId id => exact Or.inl (deleteTransaction_frame db userId id).2.2
    | duplicate userId id body today =>
      exact Or.inl (duplicateTransaction_frame db userId id body today).2.2
  | createAccount userId name bank type balance =>
    exact Or.inl (createAccount_frame db userId name bank type balance).2.2.2
  | updateAccount userId id name bank type balance =>
    exact Or.inl (updateAccount_frame db userId id name bank type balance).2.2.2
  | deleteAccount userId id => exact Or.inl (deleteAccount_frame db userId id).2.2.2
  | createCategory name type color =>
    exact Or.inl (createCategory_frame db name type color).2.2.2
  | updateCategory id name type color =>
    exact Or.inl (updateCategory_frame db id name type color).2.2.2
  | deleteCategory id => exact Or.inl (deleteCategory_frame db id).2.2.2
  | createBudget userId body => exact Or.inl (createBudget_frame db userId body).2.2.2
  | updateBudget userId id body => exact Or.inl (updateBudget_frame db userId id body).2.2.2
  | deleteBudget userId id => exact Or.inl (deleteBudget_frame db userId id).2.2.2
  | createGoal userId body =>
    exact Or.inr (Or.inl ⟨_, userId, rfl, rfl, rfl⟩)
  | updateGoal userId id body currentAmount =>
    simp only [Operation.apply, Operation.caller]
    unfold updateGoal
    split
    · exact Or.inl rfl
    · exact Or.inr (Or.inr (Or.inl ⟨fun x =>
        { x with
          title := body.title, description := jsOrNull body.description,
          targetAmount := body.targetAmount, currentAmount := currentAmount,
          deadline := body.deadline, category := body.category },
        userId, id, rfl, rfl, fun x => rfl⟩))
  | deleteGoal userId id =>
    simp only [Operation.apply, Operation.caller]
    unfold deleteGoal
    split
    · exact Or.inl rfl
    · exact Or.inr (Or.inr (Or.inr ⟨userId, id, rfl, rfl⟩))
  | contributeToGoal userId id amount =>
    simp only [Operation.apply, Operation.caller]
    unfold contributeToGoal
    cases amount with
    | none => exact Or.inl rfl
    | some amount =>
      dsimp only
      split
      · exact Or.inl rfl
      · cases hgoal : findGoal db id userId with
        | none => exact Or.inl rfl
        | some goal =>
          dsimp only
          have hform : (updateGoalAmount db (goal.currentAmount + amount) id userId).goals =
              db.goals.map (fun x => if x.id = id ∧ x.userId = userId then
                (fun y : Goal => { y with currentAmount := goal.currentAmount + amount }) x
                else x) := rfl
          refine Or.inr (Or.inr (Or.inl ⟨fun y : Goal =>
            { y with currentAmount := goal.currentAmount + amount }, userId, id, ?_, rfl,
            fun x => rfl⟩))
          split
          · exact hform
          · exact hform

/-! ### Rows of another user -/

theorem filter_owner_append {α : Type} (own : α → Nat) (v u : Nat) (l : List α) (r : α)
    (hr : own r = u) (hv : v ≠ u) :
    (l ++ [r]).filter (fun a => decide (own a = v)) =
      l.filter (fun a => decide (own a = v)) := by
  rw [List.filter_append]
  have : [r].filter (fun a => decide (own a = v)) = [] := by
    rw [List.filter_cons_of_neg]
    · rfl
    · simp [hr, Ne.symm hv]
  rw [this, List.append_nil]

theorem filter_owner_map {α : Type} (own : α → Nat) (v : Nat) (f : α → α) (l : List α)
    (h1 : ∀ a, own (f a) = own a) (h2 : ∀ a ∈ l, own a = v → f a = a) :
    (l.map f).filter (fun a => decide (own a = v)) =
      l.filter (fun a => decide (own a = v)) := by
  induction l with
  | nil => rfl
  | cons x xs ih =>
    have ih1 := ih (fun a ha => h2 a (List.mem_cons_of_mem _ ha))
    rw [List.map_cons]
    by_cases hx : own x = v
    · rw [h2 x (List.mem_cons_self _ _) hx, List.filter_cons_of_pos (by simpa using hx),
        List.filter_cons_of_pos (by simpa using hx), ih1]
    · rw [List.filter_cons_of_neg (by simpa [h1] using hx),
        List.filter_cons_of_neg (by simpa using hx), ih1]

theorem filter_owner_filter {α : Type} (own : α → Nat) (v : Nat) (q : α → Bool)
    (l : List α) (h : ∀ a ∈ l, own a = v → q a = true) :
    (l.filter q).filter (fun a => decide (own a = v)) =
      l.filter (fun a => decide (own a = v)) := by
  rw [List.filter_filter]
  apply List.filter_congr
  intro a ha
  by_cases hx : own a = v
  · simp [hx, h a ha hx]
  · simp [hx]

theorem filter_owner_update {α : Type} (own key : α → Nat) (v u id : Nat) (g : α → α)
    (l : List α) (hg : ∀ a, own (g a) = own a) (hv : v ≠ u) :
    (l.map (fun a => if key a = id ∧ own a = u then g a else a)).filter
        (fun a => decide (own a = v)) =
      l.filter (fun a => decide (own a = v)) := by
  apply filter_owner_map
  · intro a
    dsimp only
    split
    · exact hg a
    · rfl
  · intro a _ ha
    dsimp only
    rw [if_neg]
    rintro ⟨_, h⟩
    exact hv (ha.symm.trans h)

theorem filter_owner_delete {α : Type} (own key : α → Nat) (v u id : Nat) (l : List α)
    (hv : v ≠ u) :
    (l.filter (fun a => !decide (key a = id ∧ own a = u))).filter
        (fun a => decide (own a = v)) =
      l.filter (fun a => decide (own a = v)) := by
  apply filter_owner_filter
  intro a _ ha
  have : ¬ (key a = id ∧ own a = u) := by
    rintro ⟨_, h⟩
    exact hv (ha.symm.trans h)
  simp [this]

theorem ownedBy_apply (db : Db) (hu : AccountIdsUnique db) (ho : OwnAccounts db)
    (op : Operation) (u v : Nat) (hcaller : op.caller = some u) (hv : v ≠ u) :
    ownedBy (op.apply db) v = ownedBy db v := by
  have haccounts : (op.apply db).accounts.filter (fun a => decide (a.userId = v)) =
      db.accounts.filter (fun a => decide (a.userId = v)) := by
    rcases apply_accounts db ho op with ⟨f, h1, h2, h3⟩ | ⟨r, w, hw, h2, _, h4⟩ |
        ⟨w, id, hw, h2, _, _⟩
    · rw [h1]
      apply filter_owner_map (fun a : Account => a.userId) v f db.accounts
        (fun a => (h2 a).2)
      intro a ha hav
      by_contra hne
      obtain ⟨w, hw, acct, hacct, hid, hown⟩ := h3 a hne
      rw [hcaller] at hw
      injection hw with hw
      have : acct = a := account_eq_of_id_eq hu hacct ha hid
      rw [this, hav] at hown
      exact hv (hown.trans hw.symm)
    · rw [hcaller] at hw
      injection hw with hw
      rw [h4]
      exact filter_owner_append (fun a : Account => a.userId) v u db.accounts r
        (h2.trans hw.symm) hv
    · rw [hcaller] at hw
      injection hw with hw
      rw [h2, ← hw]
      exact filter_owner_delete (fun a : Account => a.userId) (fun a : Account => a.id)
        v u id db.accounts hv
  have htransactions : (op.apply db).transactions.filter (fun t => decide (t.userId = v)) =
      db.transactions.filter (fun t => decide (t.userId = v)) := by
    rcases apply_transactions db op with h | ⟨r, w, h1, hw, h2, _, _⟩ |
        ⟨g, w, id, h1, hw, h2⟩ | ⟨w, id, h1, hw⟩
    · rw [h]
    · rw [hcaller] at hw
      injection hw with hw
      rw [h1]
      exact filter_owner_append (fun t : Transaction => t.userId) v u db.transactions r
        (h2.trans hw.symm) hv
    · rw [hcaller] at hw
      injection hw with hw
      rw [h1, ← hw]
      exact filter_owner_update (fun t : Transaction => t.userId)
        (fun t : Transaction => t.id) v u id g db.transactions (fun t => (h2 t).2.1) hv
    · rw [hcaller] at hw
      injection hw with hw
      rw [h1, ← hw]
      exact filter_owner_delete (fun t : Transaction => t.userId)
        (fun t : Transaction => t.id) v u id db.transactions hv
  have hbudgets : (op.apply db).budgets.filter (fun b => decide (b.userId = v)) =
      db.budgets.filter (fun b => decide (b.userId = v)) := by
    rcases apply_budgets db op with h | ⟨r, w, h1, hw, h2, _⟩ |
        ⟨g, w, id, h1, hw, h2⟩ | ⟨w, id, h1, hw⟩
    · rw [h]
    · rw [hcaller] at hw
      injection hw with hw
      rw [h1]
      exact filter_owner_append (fun b : Budget => b.userId) v u db.budgets r
        (h2.trans hw.symm) hv
    · rw [hcaller] at hw
      injection hw with hw
      rw [h1, ← hw]
      exact filter_owner_update (fun b : Budget => b.userId)
        (fun b : Budget => b.id) v u id g db.budgets (fun b => (h2 b).2.1) hv
    · rw [hcaller] at hw
      injection hw with hw
      rw [h1, ← hw]
      exact filter_owner_delete (fun b : Budget => b.userId)
        (fun b : Budget => b.id) v u id db.budgets hv
  have hgoals : (op.apply db).goals.filter (fun g => decide (g.userId = v)) =
      db.goals.filter (fun g => decide (g.userId = v)) := by
    rcases apply_goals db op with h | ⟨r, w, h1, hw, h2⟩ |
        ⟨g, w, id, h1, hw, h2⟩ | ⟨w, id, h1, hw⟩
    · rw [h]
    · rw [hcaller] at hw
      injection hw with hw
      rw [h1]
      exact filter_owner_append (fun g : Goal => g.userId) v u db.goals r
        (h2.trans hw.symm) hv
    · rw [hcaller] at hw
      injection hw with hw
      rw [h1, ← hw]
      exact filter_owner_update (fun x : Goal => x.userId)
        (fun x : Goal => x.id) v u id g db.goals h2 hv
    · rw [hcaller] at hw
      injection hw with hw
      rw [h1, ← hw]
      exact filter_owner_delete (fun x : Goal => x.userId)
        (fun x : Goal => x.id) v u id db.goals hv
  unfold ownedBy
  rw [haccounts, htransactions, hbudgets, hgoals]

/-! ### Ids of rows of another user -/

theorem findAccount_none_of_foreign {db : Db} {u id : Nat}
    (h : ∀ a ∈ db.accounts, a.id = id → a.userId ≠ u) : findAccount db id u = none := by
  unfold findAccount
  rw [List.find?_eq_none]
  intro a ha hp
  have hp1 : a.id = id ∧ a.userId = u := of_decide_eq_true hp
  exact h a ha hp1.1 hp1.2

theorem findTransaction_none_of_foreign {db : Db} {u id : Nat}
    (h : ∀ t ∈ db.transactions, t.id = id → t.userId ≠ u) :
    findTransaction db id u = none := by
  unfold findTransaction
  rw [List.find?_eq_none]
  intro t ht hp
  have hp1 : t.id = id ∧ t.userId = u := of_decide_eq_true hp
  exact h t ht hp1.1 hp1.2

theorem findBudget_none_of_foreign {db : Db} {u id : Nat}
    (h : ∀ b ∈ db.budgets, b.id = id → b.userId ≠ u) :
    findBudget db id u = none ∧ findBudgetJoined db id u = none := by
  unfold findBudget findBudgetJoined
  constructor
  · rw [List.find?_eq_none]
    intro b hb hp
    have hp1 : b.id = id ∧ b.userId = u := of_decide_eq_true hp
    exact h b hb hp1.1 hp1.2
  · rw [List.find?_eq_none]
    intro b hb hp
    have hp1 := of_decide_eq_true hp
    exact h b hb hp1.2.1 hp1.2.2

theorem findGoal_none_of_foreign {db : Db} {u id : Nat}
    (h : ∀ g ∈ db.goals, g.id = id → g.userId ≠ u) : findGoal db id u = none := by
  unfold findGoal
  rw [List.find?_eq_none]
  intro g hg hp
  have hp1 : g.id = id ∧ g.userId = u := of_decide_eq_true hp
  exact h g hg hp1.1 hp1.2

theorem account_owner_of_transaction {db : Db} (hu : AccountIdsUnique db)
    (ho : OwnAccounts db) {t : Transaction} (ht : t ∈ db.transactions) :
    (db.accounts.find? (fun a => decide (a.id = t.accountId))).map (fun a => a.userId) =
      some t.userId := by
  obtain ⟨a, ha, hid, hown⟩ := ho t ht
  obtain ⟨found, hfound⟩ := findAccount_of_mem ha
  have := find?_id_of_find?_owner hu hfound
  rw [hid] at this
  rw [this]
  exact congrArg some ((findAccount_some hfound).2.2.trans hown)

/-- C22: owner isolation.  In every reachable state the account of each transaction
exists and belongs to the owner of the transaction; a call made by a user `u` leaves the
accounts (balances included), transactions, budgets and goals of every other user as
they were; and a call of `u` on an id that no row of `u` carries, whether the row
belongs to another user or does not exist, gets the `NOT_FOUND` answer of its entity
and changes nothing (for `contributeToGoal`, once the amount is a positive number). -/
theorem owner_isolation (db : Db) (hr : Reachable db) :
    (∀ t ∈ db.transactions,
      (db.accounts.find? (fun a => decide (a.id = t.accountId))).map (fun a => a.userId) =
        some t.userId) ∧
    (∀ (op : Operation) (u v : Nat), op.caller = some u → v ≠ u →
      ownedBy (op.apply db) v = ownedBy db v) ∧
    (∀ u id : Nat, (∀ a ∈ db.accounts, a.id = id → a.userId ≠ u) →
      (∀ name bank type balance,
        updateAccount db u id name bank type balance =
          (.failure 404 .ACCOUNT_NOT_FOUND none, db)) ∧
      deleteAccount db u id = (.failure 404 .ACCOUNT_NOT_FOUND none, db) ∧
      (∀ body : TransactionBody, body.accountId = id →
        createTransaction db u body = (.failure 404 .ACCOUNT_NOT_FOUND none, db)) ∧
      (∀ (transactionId : Nat) (body : TransactionBody), body.accountId = id →
        (findTransaction db transactionId u).isSome = true →
        updateTransaction db u transactionId body =
          (.failure 404 .ACCOUNT_NOT_FOUND none, db))) ∧
    (∀ u id : Nat, (∀ t ∈ db.transactions, t.id = id → t.userId ≠ u) →
      (∀ body, updateTransaction db u id body =
        (.failure 404 .TRANSACTION_NOT_FOUND none, db)) ∧
      deleteTransaction db u id = (.failure 404 .TRANSACTION_NOT_FOUND none, db) ∧
      (∀ body today, duplicateTransaction db u id body today =
        (.failure 404 .TRANSACTION_NOT_FOUND none, db))) ∧
    (∀ u id : Nat, (∀ b ∈ db.budgets, b.id = id → b.userId ≠ u) →
      getBudget db u id = .error 404 .BUDGET_NOT_FOUND ∧
      (∀ body, updateBudget db u id body = (.failure 404 .BUDGET_NOT_FOUND none, db)) ∧
      deleteBudget db u id = (.failure 404 .BUDGET_NOT_FOUND none, db)) ∧
    (∀ u id : Nat, (∀ g ∈ db.goals, g.id = id → g.userId ≠ u) →
      (∀ now, getGoal db u id now = .error 404 .GOAL_NOT_FOUND) ∧
      (∀ body currentAmount, updateGoal db u id body currentAmount =
        (.failure 404 .GOAL_NOT_FOUND none, db)) ∧
      deleteGoal db u id = (.failure 404 .GOAL_NOT_FOUND none, db) ∧
      (∀ amount : Int, 0 < amount →
        contributeToGoal db u id (some amount) = (.error 404 .GOAL_NOT_FOUND, db))) := by
  obtain ⟨ho, hu⟩ := reachable_ownAccounts db hr
  refine ⟨fun t ht => account_owner_of_transaction hu ho ht,
    fun op u v hc hv => ownedBy_apply db hu ho op u v hc hv, ?_, ?_, ?_, ?_⟩
  · intro u id h
    have hnone := findAccount_none_of_foreign h
    refine ⟨?_, ?_, ?_, ?_⟩
    · intro name bank type balance
      unfold updateAccount
      rw [hnone]
    · unfold deleteAccount
      rw [hnone]
    · intro body hbody
      unfold createTransaction
      rw [hbody, hnone]
    · intro transactionId body hbody hsome
      obtain ⟨old, hold⟩ := Option.isSome_iff_exists.mp hsome
      unfold updateTransaction
      rw [hold, hbody, hnone]
  · intro u id h
    have hnone := findTransaction_none_of_foreign h
    refine ⟨?_, ?_, ?_⟩
    · intro body
      unfold updateTransaction
      rw [hnone]
    · unfold deleteTransaction
      rw [hnone]
    · intro body today
      unfold duplicateTransaction
      rw [hnone]
  · intro u id h
    obtain ⟨hnone, hjoined⟩ := findBudget_none_of_foreign h
    refine ⟨?_, ?_, ?_⟩
    · unfold getBudget
      rw [hjoined]
    · intro body
      unfold updateBudget
      rw [hnone]
    · unfold deleteBudget
      rw [hnone]
  · intro u id h
    have hnone := findGoal_none_of_foreign h
    refine ⟨?_, ?_, ?_, ?_⟩
    · intro now
      unfold getGoal
      rw [hnone]
    · intro body currentAmount
      unfold updateGoal
      rw [hnone]
    · unfold deleteGoal
      rw [hnone]
    · intro amount hpos
      unfold contributeToGoal
      dsimp only
      rw [if_neg (by omega), hnone]

theorem owner_isolation_witness :
    Reachable reachedExampleDb ∧
    ownedBy ((Operation.updateAccount 1 1 "BOA" "BOA" .checking 0).apply reachedExampleDb) 2 =
      ownedBy reachedExampleDb 2 ∧
    (∀ a ∈ reachedExampleDb.accounts, a.id = 2 → a.userId ≠ 1) ∧
    deleteAccount reachedExampleDb 1 2 =
      (.failure 404 .ACCOUNT_NOT_FOUND none, reachedExampleDb) :=
  ⟨⟨reachExampleOps, rfl⟩,
    (owner_isolation reachedExampleDb ⟨reachExampleOps, rfl⟩).2.1
      (.updateAccount 1 1 "BOA" "BOA" .checking 0) 1 2 rfl (by decide),
    by decide,
    ((owner_isolation reachedExampleDb ⟨reachExampleOps, rfl⟩).2.2.1 1 2 (by decide)).2.1⟩

/-! ### Amounts that are zero -/

/-- C23 fails on numeric strings: the number 0 is rejected by the validation chain with
`VALIDATION_ERROR`, whatever the rest of the request, but every numeric string that
writes zero passes it; the string `"0"` (as `"-0"`, `"0.0"` and `"00"`) is one, and it
is then stored by the create
handler as a transaction of amount 0 and by the update handler as the new amount 0 of
transaction 1. -/
theorem zero_text_amount_is_stored :
    (∀ (db : Db) (userId id : Nat) (request : TransactionRequest),
      request.amount = .number 0 →
      postTransaction db userId request = some (.failure 400 .VALIDATION_ERROR none, db) ∧
      putTransaction db userId id request =
        some (.failure 400 .VALIDATION_ERROR none, db)) ∧
    (∀ s : String, (JsonAmount.text s).isZero = true →
      validateAmount (.text s) = true) ∧
    zeroTextRequest.amount.isZero = true ∧
    validateAmount zeroTextRequest.amount = true ∧
    validateAmount (.text "-0") = true ∧ validateAmount (.text "0.0") = true ∧
    validateAmount (.text "00") = true ∧
    (postTransaction createExampleDb 1 zeroTextRequest).map (fun r => r.1) =
      some (.success 201 1) ∧
    (postTransaction createExampleDb 1 zeroTextRequest).map (fun r => r.2.transactions) =
      some [{ id := 1, userId := 1, accountId := 1, categoryId := 1, description := "Loyer",
              amount := 0, date := "2024-03-01", notes := none }] ∧
    (putTransaction moveExampleDb 1 1 zeroTextRequest).map (fun r => r.1) =
      some (.success 200 1) ∧
    (putTransaction moveExampleDb 1 1 zeroTextRequest).map
        (fun r => r.2.transactions.map (fun t => t.amount)) = some [0] := by
  refine ⟨?_, ?_, by decide, by decide, by decide, by decide, by decide, by decide,
    by decide, by decide, by decide⟩
  · intro db userId id request h
    unfold postTransaction putTransaction
    rw [h]
    exact ⟨rfl, rfl⟩
  · intro s h
    unfold JsonAmount.isZero at h
    rw [Bool.and_eq_true] at h
    show (isNumeric s &&
      !decide (|(numericValue s).1| > 999999999 * (10 ^ (numericValue s).2 : Nat))) = true
    rw [h.1, of_decide_eq_true h.2]
    simp

/-! ### Period windows -/

/-- C26, as stated, fails for `all` in the analytics: `GET /analytics` has no case for
it and takes the default, the last month, where `GET /transactions/stats/period` takes
no date filter; on 10 March 2024 the analytics count one of the two transactions of
user 1 and the period statistics both. -/
theorem analytics_all_is_last_month :
    analyticsDateFilter (some "all") = .since "-1 month" ∧
    statsDateFilter (some "all") = .empty ∧
    generalStats periodExampleDb 1 (some "all") march2024 = (1, 100000, 0) ∧
    periodTotals periodExampleDb 1 (some "all") march2024 =
      .data 200 (2, 100000, 40000) := by
  decide

/-! ### Balance history -/

/-- C28 diverges from the code.  For an account of the caller the route answers with
status 500, whatever the period.  On 10 March 2024, for account 1 of user 1 (balance
60000, an expense of 40000 in June 2023 and an income of 100000 on 1 March 2024) and
the period `month`: the claim has the initial balance 60000 - 100000 = -40000 and the
last entry at the current balance 60000; the statements of the handler, read with `t`
as the table, take from the balance the sum of the transactions before the period,
start from 60000 - (-40000) = 100000 and end on 200000. -/
theorem balance_history_diverges :
    (∀ (db : Db) (userId id : Nat), (findAccount db id userId).isSome = true →
      getBalanceHistory db userId id = .error 500 .SQLITE_ERROR) ∧
    getBalanceHistory periodExampleDb 1 1 = .error 500 .SQLITE_ERROR ∧
    balanceOf periodExampleDb 1 = some 60000 ∧
    march2024 (historyModifier (some "month")) = "2024-02-10" ∧
    (historyTransactions periodExampleDb 1 1 "2024-02-10").map (fun t => t.amount) =
      [100000] ∧
    initialTransactionsTotal periodExampleDb 1 1 "2024-02-10" = -40000 ∧
    (∀ account, findAccount periodExampleDb 1 1 = some account →
      balanceHistory periodExampleDb 1 account "2024-02-10" = [("2024-03-01", 200000)]) := by
  refine ⟨?_, by decide, by decide, by decide, by decide, by decide, ?_⟩
  · intro db userId id h
    obtain ⟨account, hacc⟩ := Option.isSome_iff_exists.mp h
    unfold getBalanceHistory
    rw [hacc]
  · intro account h
    have hfound : findAccount periodExampleDb 1 1 =
        some { id := 1, userId := 1, name := "BOA", bank := "BOA", type := .checking,
               balance := 60000 } := by decide
    rw [hfound] at h
    injection h with h
    subst h
    decide

/-! ### Double precision: sums that need no rounding -/

theorem round53_of_abs_lt {x : Int} (h : |x| < 2 ^ 53) : round53 x = x := by
  have hx := abs_lt.mp h
  have hnat : x.natAbs < 2 ^ 53 := by omega
  unfold round53 round53Nat
  rw [if_pos hnat]
  split <;> omega

theorem updateBalanceF_eq {db : Db} {amount : Int} (accountId : Nat)
    (h : ∀ a ∈ db.accounts, |a.balance + amount| < 2 ^ 53) :
    updateBalanceF db amount accountId = updateBalance db amount accountId := by
  unfold updateBalanceF updateBalance
  congr 1
  apply List.map_congr_left
  intro a ha
  rw [round53_of_abs_lt (h a ha)]

theorem revertBalanceF_eq {db : Db} {amount : Int} (accountId : Nat)
    (h : ∀ a ∈ db.accounts, |a.balance - amount| < 2 ^ 53) :
    revertBalanceF db amount accountId = revertBalance db amount accountId := by
  unfold revertBalanceF revertBalance
  congr 1
  apply List.map_congr_left
  intro a ha
  rw [round53_of_abs_lt (h a ha)]

theorem abs_add_lt_of_bounds {b a : Int} {B A : Int} (hb : |b| < B) (ha : |a| < A) :
    |b + a| < B + A :=
  lt_of_le_of_lt (abs_add b a) (add_lt_add hb ha)

theorem abs_sub_lt_of_bounds {b a : Int} {B A : Int} (hb : |b| < B) (ha : |a| < A) :
    |b - a| < B + A :=
  lt_of_le_of_lt (abs_sub b a) (add_lt_add hb ha)

theorem createTransactionF_eq {db : Db} (userId : Nat) {body : TransactionBody}
    (hb : ∀ a ∈ db.accounts, |a.balance| < 2 ^ 52) (ha : |body.amount| < 2 ^ 50) :
    createTransactionF db userId body = createTransaction db userId body := by
  have hsum : ∀ a ∈ db.accounts, |a.balance + body.amount| < 2 ^ 53 := fun a h =>
    lt_trans (abs_add_lt_of_bounds (hb a h) ha) (by norm_num)
  unfold createTransactionF createTransaction
  cases hacc : findAccount db body.accountId userId with
  | none => rfl
  | some account =>
    dsimp only
    rw [round53_of_abs_lt (hsum account (findAccount_some hacc).1)]
    have hupd : updateBalanceF (insertTransaction db userId body.accountId body.categoryId
        body.description body.amount body.date (jsOrNull body.notes)).2 body.amount
        body.accountId =
      updateBalance (insertTransaction db userId body.accountId body.categoryId
        body.description body.amount body.date (jsOrNull body.notes)).2 body.amount
        body.accountId := updateBalanceF_eq body.accountId hsum
    rw [hupd]

theorem deleteTransactionF_eq {db : Db} (userId id : Nat)
    (hb : ∀ a ∈ db.accounts, |a.balance| < 2 ^ 52)
    (ht : ∀ t ∈ db.transactions, |t.amount| < 2 ^ 50) :
    deleteTransactionF db userId id = deleteTransaction db userId id := by
  unfold deleteTransactionF deleteTransaction
  cases hold : findTransaction db id userId with
  | none => rfl
  | some old =>
    dsimp only
    have hamount := ht old (findTransaction_some hold).1
    rw [revertBalanceF_eq old.accountId (fun a h =>
      lt_trans (abs_sub_lt_of_bounds (hb a h) hamount) (by norm_num))]

theorem duplicateTransactionF_eq {db : Db} (userId id : Nat) (body : DuplicateBody)
    (today : String)
    (hb : ∀ a ∈ db.accounts, |a.balance| < 2 ^ 52)
    (ht : ∀ t ∈ db.transactions, |t.amount| < 2 ^ 50) :
    duplicateTransactionF db userId id body today =
      duplicateTransaction db userId id body today := by
  unfold duplicateTransactionF duplicateTransaction
  cases hsource : findTransaction db id userId with
  | none => rfl
  | some source =>
    dsimp only
    have hamount := ht source (findTransaction_some hsource).1
    have hsum : ∀ a ∈ db.accounts, |a.balance + source.amount| < 2 ^ 53 := fun a h =>
      lt_trans (abs_add_lt_of_bounds (hb a h) hamount) (by norm_num)
    cases hacc : findAccount db source.accountId userId with
    | none => rfl
    | some account =>
      dsimp only
      rw [round53_of_abs_lt (hsum account (findAccount_some hacc).1)]
      have hupd : updateBalanceF (insertTransaction db userId source.accountId
          source.categoryId (jsOr body.description (source.description ++ " (copie)"))
          source.amount (jsOr body.date today) source.notes).2 source.amount
          source.accountId =
        updateBalance (insertTransaction db userId source.accountId
          source.categoryId (jsOr body.description (source.description ++ " (copie)"))
          source.amount (jsOr body.date today) source.notes).2 source.amount
          source.accountId := updateBalanceF_eq source.accountId hsum
      rw [hupd]

theorem reconcileF_eq {db : Db} (old : Transaction) (body : TransactionBody)
    (accountIdAsText : Bool)
    (hb : ∀ a ∈ db.accounts, |a.balance| < 2 ^ 52)
    (hold : |old.amount| < 2 ^ 50) (ha : |body.amount| < 2 ^ 50) :
    (if accountIdAsText = false ∧ old.accountId = body.accountId then
        updateBalanceF db (round53 (body.amount - old.amount)) body.accountId
      else
        updateBalanceF (revertBalanceF db old.amount old.accountId) body.amount
          body.accountId) =
      (if old.accountId = body.accountId then
        updateBalance db (body.amount - old.amount) body.accountId
      else
        updateBalance (revertBalance db old.amount old.accountId) body.amount
          body.accountId) := by
  have hdiff : |body.amount - old.amount| < 2 ^ 51 :=
    lt_of_lt_of_le (abs_sub_lt_of_bounds ha hold) (by norm_num)
  have hrevert : revertBalanceF db old.amount old.accountId =
      revertBalance db old.amount old.accountId :=
    revertBalanceF_eq old.accountId (fun a h =>
      lt_trans (abs_sub_lt_of_bounds (hb a h) hold) (by norm_num))
  have hthen : updateBalanceF (revertBalance db old.amount old.accountId) body.amount
      body.accountId =
      updateBalance (revertBalance db old.amount old.accountId) body.amount
        body.accountId := by
    apply updateBalanceF_eq
    intro a h
    unfold revertBalance at h
    rw [List.mem_map] at h
    obtain ⟨a0, h0, rfl⟩ := h
    have hb0 := hb a0 h0
    by_cases hid : a0.id = old.accountId
    · rw [if_pos hid]
      have h1 : |a0.balance - old.amount| < 2 ^ 52 + 2 ^ 50 :=
        abs_sub_lt_of_bounds hb0 hold
      exact lt_trans (abs_add_lt_of_bounds h1 ha) (by norm_num)
    · rw [if_neg hid]
      exact lt_trans (abs_add_lt_of_bounds hb0 ha) (by norm_num)
  by_cases hsame : old.accountId = body.accountId
  · rw [if_pos hsame]
    cases accountIdAsText with
    | false =>
      rw [if_pos ⟨rfl, hsame⟩, round53_of_abs_lt (lt_trans hdiff (by norm_num))]
      exact updateBalanceF_eq body.accountId (fun a h =>
        lt_trans (abs_add_lt_of_bounds (hb a h) hdiff) (by norm_num))
    | true =>
      rw [if_neg (by simp), hrevert, hthen, hsame]
      exact revert_then_update_same_account db old.amount body.amount body.accountId
  · rw [if_neg hsame, if_neg (fun h => hsame h.2), hrevert, hthen]

theorem updateTransactionF_eq {db : Db} (userId id : Nat) {body : TransactionBody}
    (accountIdAsText : Bool)
    (hb : ∀ a ∈ db.accounts, |a.balance| < 2 ^ 52)
    (ht : ∀ t ∈ db.transactions, |t.amount| < 2 ^ 50) (ha : |body.amount| < 2 ^ 50) :
    updateTransactionF db userId id body accountIdAsText =
      updateTransaction db userId id body := by
  unfold updateTransactionF updateTransaction
  cases hold : findTransaction db id userId with
  | none => rfl
  | some old =>
    dsimp only
    rw [reconcileF_eq old body accountIdAsText hb (ht old (findTransaction_some hold).1) ha]

theorem TxOpF.handle_eq {db : Db} (op : TxOpF) (hrange : InRange db)
    (ha : |op.amount| < 2 ^ 50) : op.handle db = op.exact.handle db := by
  have hb : ∀ a ∈ db.accounts, |a.balance| < 2 ^ 52 := fun a h =>
    lt_trans (hrange.1 a h) (by norm_num)
  cases op with
  | create userId body => exact createTransactionF_eq userId hb ha
  | update userId id body accountIdAsText =>
    exact updateTransactionF_eq userId id accountIdAsText hb hrange.2 ha
  | delete userId id => exact deleteTransactionF_eq userId id hb hrange.2
  | duplicate userId id body today =>
    exact duplicateTransactionF_eq userId id body today hb hrange.2

theorem runTxOpsF_eq (db : Db) (ops : List TxOpF) (h : StaysInRange db ops) :
    runTxOpsF db ops = runTxOps db (ops.map TxOpF.exact) := by
  induction ops generalizing db with
  | nil => rfl
  | cons op ops ih =>
    obtain ⟨hrange, ha, hrest⟩ := h
    show runTxOpsF (op.handle db).2 ops = runTxOps (op.exact.handle db).2 (ops.map TxOpF.exact)
    rw [← TxOpF.handle_eq op hrange ha]
    exact ih _ hrest

/-! ### The transaction routes in double precision -/

theorem round53_nonneg {x : Int} (h : 0 ≤ x) : 0 ≤ round53 x := by
  unfold round53
  rw [if_neg (by omega)]
  exact Int.natCast_nonneg _

theorem balanceOf_updateBalanceF (db : Db) (amount : Int) (x accountId : Nat) :
    balanceOf (updateBalanceF db amount x) accountId =
      if x = accountId then (balanceOf db accountId).map (fun b => round53 (b + amount))
      else balanceOf db accountId := by
  unfold balanceOf updateBalanceF
  dsimp only
  rw [find?_id_map_account _ _ _ (by intro a; split <;> rfl)]
  cases hfind : db.accounts.find? (fun a => decide (a.id = accountId)) with
  | none => simp
  | some a =>
    have haid : a.id = accountId := by simpa using List.find?_some hfind
    by_cases hx : x = accountId
    · simp [hx, haid]
    · have : a.id ≠ x := fun h => hx (h.symm.trans haid)
      simp [hx, this]

theorem insert_apply_nonnegativeF (db : Db) (userId target categoryId : Nat)
    (description : String) (amount : Int) (date : String) (notes : Option String)
    (account : Account) (accountId : Nat) (type : AccountType) (b : Int)
    (hunique : AccountIdsUnique db)
    (htype : accountTypeOf db accountId = some type) (hcredit : type ≠ .credit)
    (hbalance : balanceOf db accountId = some b) (hnonneg : 0 ≤ b)
    (haccount : findAccount db target userId = some account)
    (hfunds : ¬ (amount < 0 ∧ account.type ≠ .credit ∧
      round53 (account.balance + amount) < 0)) :
    ∃ b', balanceOf (updateBalanceF (insertTransaction db userId target categoryId
        description amount date notes).2 amount target) accountId = some b' ∧ 0 ≤ b' := by
  rw [balanceOf_updateBalanceF]
  have hins : balanceOf (insertTransaction db userId target categoryId description amount
      date notes).2 accountId = balanceOf db accountId := rfl
  rw [hins, hbalance]
  by_cases ht : target = accountId
  · subst ht
    obtain ⟨hb, hty⟩ := balanceOf_of_findAccount hunique haccount
    rw [hbalance] at hb
    rw [htype] at hty
    have hb' : b = account.balance := by simpa using hb
    have hty' : type = account.type := by simpa using hty
    refine ⟨round53 (b + amount), by simp, ?_⟩
    by_cases hneg : amount < 0
    · by_contra hlt
      exact hfunds ⟨hneg, hty' ▸ hcredit, by rw [← hb']; omega⟩
    · exact round53_nonneg (by omega)
  · exact ⟨b, by simp [ht], hnonneg⟩

/-- C5, amended: with the primary key of `accounts` in force, for every account that is
not a credit account and has a non-negative balance, the balance is still non-negative
after any `createTransaction` whose amount is sent as a JSON number, whole or decimal,
and after any `duplicateTransaction`, committed or refused, the sums being made in
double precision. -/
theorem insert_of_number_keeps_nonnegative (db : Db) (accountId : Nat)
    (type : AccountType) (b : Int)
    (hunique : AccountIdsUnique db)
    (htype : accountTypeOf db accountId = some type) (hcredit : type ≠ .credit)
    (hbalance : balanceOf db accountId = some b) (hnonneg : 0 ≤ b) :
    (∀ userId body, ∃ b',
      balanceOf (createTransactionF db userId body).2 accountId = some b' ∧ 0 ≤ b') ∧
    (∀ userId id body today, ∃ b',
      balanceOf (duplicateTransactionF db userId id body today).2 accountId = some b' ∧
        0 ≤ b') := by
  constructor
  · intro userId body
    unfold createTransactionF
    split
    · exact ⟨b, hbalance, hnonneg⟩
    · rename_i account haccount
      split
      · exact ⟨b, hbalance, hnonneg⟩
      · dsimp only
        split_ifs with h1 h2 h3
        · exact ⟨b, hbalance, hnonneg⟩
        · exact ⟨b, hbalance, hnonneg⟩
        · exact ⟨b, hbalance, hnonneg⟩
        · exact insert_apply_nonnegativeF db userId _ _ _ _ _ _ account accountId type b
            hunique htype hcredit hbalance hnonneg haccount h3
  · intro userId id body today
    unfold duplicateTransactionF
    split
    · exact ⟨b, hbalance, hnonneg⟩
    · split
      · exact ⟨b, hbalance, hnonneg⟩
      · rename_i account haccount
        dsimp only
        split_ifs with h3
        · exact ⟨b, hbalance, hnonneg⟩
        · exact insert_apply_nonnegativeF db userId _ _ _ _ _ _ account accountId type b
            hunique htype hcredit hbalance hnonneg haccount h3

theorem insert_of_number_keeps_nonnegative_witness :
    AccountIdsUnique decimalExampleDb ∧
    accountTypeOf decimalExampleDb 1 = some .checking ∧
    balanceOf decimalExampleDb 1 = some 10808639105689190 ∧
    balanceOf (createTransactionF decimalExampleDb 1
      { decimalExampleBody with amount := -3602879701896397, categoryId := 2 }).2 1 =
      some 7205759403792793 ∧
    ((∀ userId body, ∃ b',
      balanceOf (createTransactionF decimalExampleDb userId body).2 1 = some b' ∧
        0 ≤ b') ∧
    (∀ userId id body today, ∃ b',
      balanceOf (duplicateTransactionF decimalExampleDb userId id body today).2 1 =
        some b' ∧ 0 ≤ b')) :=
  ⟨by decide, by decide, by decide, by decide,
    insert_of_number_keeps_nonnegative decimalExampleDb 1 .checking 10808639105689190
      (by decide) (by decide) (by decide) (by decide) (by decide)⟩


/-- The counts of units used for 0.1, 0.2, 0.3 and 0.4 are the doubles nearest to these
decimals, and the count reached by the examples is the double after 0.3, which prints
as 0.30000000000000004. -/
theorem decimal_units :
    |(3602879701896397 : ℚ) / 2 ^ 55 - 1 / 10| < 1 / 2 ^ 57 ∧
    |(7205759403792794 : ℚ) / 2 ^ 55 - 2 / 10| < 1 / 2 ^ 56 ∧
    |(10808639105689190 : ℚ) / 2 ^ 55 - 3 / 10| < 1 / 2 ^ 55 ∧
    |(14411518807585588 : ℚ) / 2 ^ 55 - 4 / 10| < 1 / 2 ^ 55 ∧
    (10808639105689192 : ℚ) / 2 ^ 55 - 10808639105689190 / 2 ^ 55 = 1 / 2 ^ 54 := by
  refine ⟨?_, ?_, ?_, ?_, ?_⟩ <;> norm_num [abs_lt]

/-- C1, as stated, fails on decimal amounts: on an account with balance 0.3 and no
transaction, creating an income of 0.1 and deleting it leaves no transaction on the
account and the balance 0.30000000000000004, not 0.3 plus the sum of the amounts. -/
theorem balance_conservation_fails_on_decimals :
    balanceOf decimalExampleDb 1 = some 10808639105689190 ∧
    transactionsOn decimalExampleDb 1 = [] ∧
    (createTransactionF decimalExampleDb 1 decimalExampleBody).1 = .success 201 1 ∧
    (deleteTransactionF (createTransactionF decimalExampleDb 1 decimalExampleBody).2 1 1).1 =
      .success 200 1 ∧
    transactionsOn
      (runTxOpsF decimalExampleDb [.create 1 decimalExampleBody, .delete 1 1]) 1 = [] ∧
    balanceOf (runTxOpsF decimalExampleDb [.create 1 decimalExampleBody, .delete 1 1]) 1 =
      some 10808639105689192 ∧
    10808639105689190 +
      sumOfAmounts (runTxOpsF decimalExampleDb [.create 1 decimalExampleBody, .delete 1 1])
        1 = 10808639105689190 := by
  decide

/-- C1, amended: balance conservation where no sum is rounded.  From a database (with
the primary key of `transactions` in force) in which an account has balance `b0` and no
transaction, after any finite sequence of create, update, delete and duplicate calls,
each succeeding or failing, in which every call sends an amount below `2 ^ 50` and finds
every balance below `2 ^ 51` and every stored amount below `2 ^ 50` in absolute value
(whole amounts, or counts of one unit), the balance of the account is `b0` plus the sum
of the amounts of the transactions that then exist on it, and the database is the one
exact arithmetic gives. -/
theorem balance_conservation_in_range (db : Db) (accountId : Nat) (b0 : Int)
    (ops : List TxOpF)
    (hunique : TransactionIdsUnique db)
    (hbalance : balanceOf db accountId = some b0)
    (hnone : transactionsOn db accountId = [])
    (hrange : StaysInRange db ops) :
    balanceOf (runTxOpsF db ops) accountId =
      some (b0 + sumOfAmounts (runTxOpsF db ops) accountId) ∧
    runTxOpsF db ops = runTxOps db (ops.map TxOpF.exact) := by
  have hrun := runTxOpsF_eq db ops hrange
  rw [hrun]
  exact ⟨balance_conservation db accountId b0 (ops.map TxOpF.exact) hunique hbalance hnone,
    rfl⟩

theorem balance_conservation_in_range_witness :
    TransactionIdsUnique ledgerExampleDb ∧
    balanceOf ledgerExampleDb 1 = some 50000 ∧
    transactionsOn ledgerExampleDb 1 = [] ∧
    StaysInRange ledgerExampleDb rangeExampleOps ∧
    sumOfAmounts (runTxOpsF ledgerExampleDb rangeExampleOps) 1 = 90000 ∧
    balanceOf (runTxOpsF ledgerExampleDb rangeExampleOps) 1 =
      some (50000 + sumOfAmounts (runTxOpsF ledgerExampleDb rangeExampleOps) 1) :=
  ⟨by decide, by decide, by decide, by decide, by decide,
    (balance_conservation_in_range ledgerExampleDb 1 50000 rangeExampleOps (by decide)
      (by decide) (by decide) (by decide)).1⟩

/-- C7, as stated, fails on decimal amounts: on an account with balance 0.3, raising
an income of 0.1 to 0.2 on the same account, the account id sent as a number, moves the
balance to 0.4, a change of one unit more than the new amount minus the old one. -/
theorem update_reconciliation_fails_on_decimals :
    findTransaction decimalLedgerDb 1 1 =
      some { id := 1, userId := 1, accountId := 1, categoryId := 1, description := "Paie",
             amount := 3602879701896397, date := "2024-03-01", notes := none } ∧
    balanceOf decimalLedgerDb 1 = some 10808639105689190 ∧
    (updateTransactionF decimalLedgerDb 1 1 decimalRaiseBody false).1 = .success 200 1 ∧
    balanceOf (updateTransactionF decimalLedgerDb 1 1 decimalRaiseBody false).2 1 =
      some 14411518807585588 ∧
    10808639105689190 + (decimalRaiseBody.amount - 3602879701896397) =
      14411518807585587 := by
  decide

/-- C7, amended: update reconciliation where no sum is rounded.  In a database with
every balance below `2 ^ 51` and every stored amount below `2 ^ 50` in absolute value,
a successful `updateTransaction` with an amount below `2 ^ 50`, the account id sent as
a number or as a string, that keeps the account adds `newAmount - oldAmount` to the
balance of that account; one that moves the transaction to another account subtracts
`oldAmount` from the balance of the old account and adds `newAmount` to the balance of
the new account; the balance of every other account is unchanged. -/
theorem update_reconciliation_in_range (db : Db) (userId id : Nat) (body : TransactionBody)
    (accountIdAsText : Bool) (old : Transaction)
    (hrange : InRange db) (hamount : |body.amount| < 2 ^ 50)
    (hold : findTransaction db id userId = some old)
    (hok : (updateTransactionF db userId id body accountIdAsText).1.isError = false) :
    (old.accountId = body.accountId →
      ∃ b, balanceOf db body.accountId = some b ∧
        balanceOf (updateTransactionF db userId id body accountIdAsText).2 body.accountId =
          some (b + (body.amount - old.amount))) ∧
    (old.accountId ≠ body.accountId →
      (∀ b, balanceOf db old.accountId = some b →
        balanceOf (updateTransactionF db userId id body accountIdAsText).2 old.accountId =
          some (b - old.amount)) ∧
      ∃ b, balanceOf db body.accountId = some b ∧
        balanceOf (updateTransactionF db userId id body accountIdAsText).2 body.accountId =
          some (b + body.amount)) ∧
    (∀ other, other ≠ old.accountId → other ≠ body.accountId →
      balanceOf (updateTransactionF db userId id body accountIdAsText).2 other =
        balanceOf db other) := by
  have heq := updateTransactionF_eq userId id accountIdAsText
    (fun a h => lt_trans (hrange.1 a h) (by norm_num)) hrange.2 hamount
  rw [heq] at hok ⊢
  exact update_reconciliation db userId id body old hold hok

theorem update_reconciliation_in_range_witness :
    InRange moveExampleDb ∧ |moveExampleBody.amount| < 2 ^ 50 ∧
    findTransaction moveExampleDb 1 1 = some moveExampleOld ∧
    (updateTransactionF moveExampleDb 1 1 moveExampleBody false).1.isError = false ∧
    moveExampleOld.accountId ≠ moveExampleBody.accountId ∧
    balanceOf (updateTransactionF moveExampleDb 1 1 moveExampleBody false).2 1 =
      some 100000 ∧
    balanceOf (updateTransactionF moveExampleDb 1 1 moveExampleBody false).2 2 =
      some 355000 ∧
    (∀ other, other ≠ moveExampleOld.accountId → other ≠ moveExampleBody.accountId →
      balanceOf (updateTransactionF moveExampleDb 1 1 moveExampleBody false).2 other =
        balanceOf moveExampleDb other) :=
  ⟨by decide, by decide, by decide, by decide, by decide, by decide, by decide,
    (update_reconciliation_in_range moveExampleDb 1 1 moveExampleBody false moveExampleOld
      (by decide) (by decide) (by decide) (by decide)).2.2⟩

/-- C8, as stated, fails on decimal amounts: on an account with balance 0.3, creating
an income of 0.1 succeeds and deleting the transaction it created succeeds and restores
the transactions, but leaves the balance 0.30000000000000004. -/
theorem delete_after_create_drifts_on_decimals :
    (createTransactionF decimalExampleDb 1 decimalExampleBody).1 = .success 201 1 ∧
    balanceOf (createTransactionF decimalExampleDb 1 decimalExampleBody).2 1 =
      some 14411518807585588 ∧
    (deleteTransactionF (createTransactionF decimalExampleDb 1 decimalExampleBody).2 1 1).1 =
      .success 200 1 ∧
    (deleteTransactionF
      (createTransactionF decimalExampleDb 1 decimalExampleBody).2 1 1).2.transactions =
      decimalExampleDb.transactions ∧
    balanceOf (deleteTransactionF
      (createTransactionF decimalExampleDb 1 decimalExampleBody).2 1 1).2 1 =
      some 10808639105689192 ∧
    balanceOf decimalExampleDb 1 = some 10808639105689190 := by
  decide

theorem createTransaction_keeps_bounds {db : Db} (userId : Nat) {body : TransactionBody}
    (hrange : InRange db) (hamount : |body.amount| < 2 ^ 50) :
    (∀ a ∈ (createTransaction db userId body).2.accounts, |a.balance| < 2 ^ 52) ∧
    (∀ t ∈ (createTransaction db userId body).2.transactions, |t.amount| < 2 ^ 50) := by
  by_cases herr : (createTransaction db userId body).1.isError = true
  · rw [createTransaction_error_unchanged db userId body herr]
    exact ⟨fun a h => lt_trans (hrange.1 a h) (by norm_num), hrange.2⟩
  · obtain ⟨account, category, _, _, _, _, heq⟩ :=
      createTransaction_success (Bool.eq_false_iff.mpr herr)
    rw [heq]
    constructor
    · intro a h
      unfold updateBalance insertTransaction at h
      dsimp only at h
      rw [List.mem_map] at h
      obtain ⟨a0, h0, rfl⟩ := h
      by_cases hid : a0.id = body.accountId
      · rw [if_pos hid]
        exact lt_trans (abs_add_lt_of_bounds (hrange.1 a0 h0) hamount) (by norm_num)
      · rw [if_neg hid]
        exact lt_trans (hrange.1 a0 h0) (by norm_num)
    · intro t h
      unfold updateBalance insertTransaction at h
      dsimp only at h
      rw [List.mem_append, List.mem_singleton] at h
      rcases h with h | rfl
      · exact hrange.2 t h
      · exact hamount

/-- C8, amended: reversal where no sum is rounded.  In a database with every balance
below `2 ^ 51` and every stored amount below `2 ^ 50` in absolute value, after a
`createTransaction` with an amount below `2 ^ 50` that succeeds, deleting the
transaction it created succeeds, restores the balance of every account to its value
before the create and restores the transactions to what they were. -/
theorem delete_after_create_restores_in_range (db : Db) (userId : Nat)
    (body : TransactionBody)
    (hrange : InRange db) (hamount : |body.amount| < 2 ^ 50)
    (hok : (createTransactionF db userId body).1.isError = false) :
    ∃ newId,
      (createTransactionF db userId body).1 = .success 201 newId ∧
      (deleteTransactionF (createTransactionF db userId body).2 userId newId).1 =
        .success 200 newId ∧
      (∀ accountId,
        balanceOf (deleteTransactionF (createTransactionF db userId body).2 userId newId).2
          accountId = balanceOf db accountId) ∧
      (deleteTransactionF (createTransactionF db userId body).2 userId newId).2.transactions =
        db.transactions := by
  have hcreate := createTransactionF_eq userId
    (fun a h => lt_trans (hrange.1 a h) (by norm_num)) hamount
  rw [hcreate] at hok ⊢
  obtain ⟨hb, ht⟩ := createTransaction_keeps_bounds userId hrange hamount
  obtain ⟨newId, h1, h2, h3, h4⟩ := delete_after_create_restores db userId body hok
  refine ⟨newId, h1, ?_, ?_, ?_⟩
  · rw [deleteTransactionF_eq userId newId hb ht]
    exact h2
  · rw [deleteTransactionF_eq userId newId hb ht]
    exact h3
  · rw [deleteTransactionF_eq userId newId hb ht]
    exact h4

theorem delete_after_create_restores_in_range_witness :
    InRange createExampleDb ∧ |createExampleBody.amount| < 2 ^ 50 ∧
    (createTransactionF createExampleDb 1 createExampleBody).1.isError = false ∧
    balanceOf (createTransactionF createExampleDb 1 createExampleBody).2 1 = some 70000 ∧
    ∃ newId,
      (createTransactionF createExampleDb 1 createExampleBody).1 = .success 201 newId ∧
      (deleteTransactionF (createTransactionF createExampleDb 1 createExampleBody).2 1
        newId).1 = .success 200 newId ∧
      (∀ accountId,
        balanceOf (deleteTransactionF
          (createTransactionF createExampleDb 1 createExampleBody).2 1 newId).2 accountId =
          balanceOf createExampleDb accountId) ∧
      (deleteTransactionF (createTransactionF createExampleDb 1 createExampleBody).2 1
        newId).2.transactions = createExampleDb.transactions :=
  ⟨by decide, by decide, by decide, by decide,
    delete_after_create_restores_in_range createExampleDb 1 createExampleBody (by decide)
      (by decide) (by decide)⟩

/-- C29, as stated, fails on decimal amounts: on an account with balance 0.3 that
carries an expense of 0.1, sending the expense again with its amount and its account
leaves the balance at 0.3 when the account id is sent as a number, and moves it to
0.30000000000000004 when it is sent as a string, for which the strict comparison of
`updateTransaction` fails and the old amount is taken off before the new one is
added. -/
theorem reconcile_branches_differ_on_decimals :
    balanceOf decimalLedgerDb 1 = some 10808639105689190 ∧
    (updateTransactionF decimalLedgerDb 1 2 decimalSameBody false).1 = .success 200 2 ∧
    (updateTransactionF decimalLedgerDb 1 2 decimalSameBody true).1 = .success 200 2 ∧
    balanceOf (updateTransactionF decimalLedgerDb 1 2 decimalSameBody false).2 1 =
      some 10808639105689190 ∧
    balanceOf (updateTransactionF decimalLedgerDb 1 2 decimalSameBody true).2 1 =
      some 10808639105689192 := by
  decide

/-- C29, amended: the two reconciliation branches agree where no sum is rounded.  In a
database with every balance below `2 ^ 51` and every stored amount below `2 ^ 50` in
absolute value, for an amount below `2 ^ 50`, `updateTransaction` gives the same
response and the same database whether the account id is sent as a number or as a
string, that is, whichever branch the strict comparison selects for a transaction that
keeps its account; and subtracting the old amount and then adding the new one gives the
balances that adding `newAmount - oldAmount` once gives. -/
theorem reconcile_branches_agree_in_range (db : Db) (userId id : Nat)
    (body : TransactionBody) (hrange : InRange db) (hamount : |body.amount| < 2 ^ 50) :
    updateTransactionF db userId id body true = updateTransactionF db userId id body false ∧
    (∀ old, findTransaction db id userId = some old →
      updateBalanceF (revertBalanceF db old.amount body.accountId) body.amount
          body.accountId =
        updateBalanceF db (round53 (body.amount - old.amount)) body.accountId) := by
  have hb : ∀ a ∈ db.accounts, |a.balance| < 2 ^ 52 := fun a h =>
    lt_trans (hrange.1 a h) (by norm_num)
  constructor
  · rw [updateTransactionF_eq userId id true hb hrange.2 hamount,
      updateTransactionF_eq userId id false hb hrange.2 hamount]
  · intro old hold
    have hamountOld := hrange.2 old (findTransaction_some hold).1
    have h := @reconcileF_eq db { old with accountId := body.accountId } body true hb
      hamountOld hamount
    have h' := @reconcileF_eq db { old with accountId := body.accountId } body false
      hb hamountOld hamount
    simp only [Bool.true_eq_false, false_and, if_false, if_true, true_and] at h h'
    rw [h, h']

theorem reconcile_branches_agree_in_range_witness :
    InRange moveExampleDb ∧ |raisedExpenseBody.amount| < 2 ^ 50 ∧
    (updateTransactionF moveExampleDb 1 1 raisedExpenseBody true).1 = .success 200 1 ∧
    balanceOf (updateTransactionF moveExampleDb 1 1 raisedExpenseBody true).2 1 =
      some (-100000) ∧
    updateTransactionF moveExampleDb 1 1 raisedExpenseBody true =
      updateTransactionF moveExampleDb 1 1 raisedExpenseBody false :=
  ⟨by decide, by decide, by decide, by decide,
    (reconcile_branches_agree_in_range moveExampleDb 1 1 raisedExpenseBody (by decide)
      (by decide)).1⟩

/-! ### Amounts sent as strings -/

/-- C2, the code at the failing input: on a checking account with balance 70000, an
expense of 80000 sent as the number -80000 is refused with `INSUFFICIENT_FUNDS` and the
balances 70000, -80000 and -10000, and the database is unchanged; sent as the string
`"-80000"` it passes the validation chain, the funds check does not fail, the answer is
201 and the balance becomes -10000. -/
theorem text_expense_skips_funds_check :
    accountTypeOf fundsExampleDb 1 = some .checking ∧
    balanceOf fundsExampleDb 1 = some 70000 ∧
    postTransaction fundsExampleDb 1 overdraftNumberRequest =
      some (.failure 400 .INSUFFICIENT_FUNDS (some (.funds 70000 (-80000) (-10000))),
        fundsExampleDb) ∧
    validateAmount overdraftTextRequest.amount = true ∧
    overdraftTextRequest.amount.toInt? = some (-80000) ∧
    (postTransaction fundsExampleDb 1 overdraftTextRequest).map (fun r => r.1) =
      some (.success 201 1) ∧
    (postTransaction fundsExampleDb 1 overdraftTextRequest).map
        (fun r => r.2.transactions.map (fun t => t.amount)) = some [-80000] ∧
    (postTransaction fundsExampleDb 1 overdraftTextRequest).map
        (fun r => balanceOf r.2 1) = some (some (-10000)) := by
  decide

/-- C18, the code at the failing input: for goal 1 of user 1 (target 500000, current
150000), a contribution of 100000 sent as a number sets the current amount to 250000;
sent as the string `"100000"` it passes the check of the amount and the current amount
becomes 150000100000, the digits of the two joined, and the goal is reported
completed. -/
theorem text_contribution_is_concatenated :
    findGoal goalExampleDb 1 1 = some goalExample ∧
    goalExample.currentAmount = 150000 ∧ goalExample.targetAmount = 500000 ∧
    (contributeToGoal goalExampleDb 1 1 (some 100000)).2.goals.map
        (fun g => g.currentAmount) = [250000, 850000] ∧
    (contributeToGoalText goalExampleDb 1 1 "100000").map
        (fun r => r.2.goals.map (fun g => g.currentAmount)) =
      some [150000100000, 850000] ∧
    (contributeToGoalText goalExampleDb 1 1 "100000").map (fun r => r.1.status) =
      some 200 ∧
    (∃ goal view,
      (contributeToGoalText goalExampleDb 1 1 "100000").map (fun r => r.1) =
        some (.data 200 (goal, view)) ∧
      goal.currentAmount = 150000100000 ∧ view.status = .completed ∧
      view.isCompleted = true) := by
  refine ⟨by decide, by decide, by decide, by decide, by decide, by decide, ?_⟩
  refine ⟨{ goalExample with currentAmount := 150000100000 },
    { progress := 100, remaining := 0, isCompleted := true, status := .completed },
    ?_, rfl, rfl, rfl⟩
  decide!

/-! ### Checks that come before the funds check and before the overlap check -/

theorem two_pow_shift53_le (fuel : Nat) : ∀ n : Nat, 0 < n → 2 ^ shift53 fuel n ≤ n := by
  induction fuel with
  | zero => intro n hn; simpa [shift53] using hn
  | succ fuel ih =>
    intro n hn
    unfold shift53
    split
    · simpa using hn
    · rename_i hbig
      have hhalf : 0 < n / 2 := by
        have : (2 : Nat) ^ 53 ≤ n := by omega
        have h2 : 2 ≤ n := le_trans (by norm_num) this
        omega
      have := ih (n / 2) hhalf
      rw [pow_succ]
      omega

theorem round53Nat_pos {n : Nat} (hn : 0 < n) : 0 < round53Nat n := by
  unfold round53Nat
  split
  · exact hn
  · have hle := two_pow_shift53_le n n hn
    have hpow : 0 < 2 ^ shift53 n n := pow_pos (by norm_num) _
    have hq : 0 < n / 2 ^ shift53 n n := Nat.div_pos hle hpow
    dsimp only
    split
    · exact Nat.mul_pos (by omega) hpow
    · exact Nat.mul_pos hq hpow

theorem round53_neg_iff (x : Int) : round53 x < 0 ↔ x < 0 := by
  constructor
  · intro h
    by_contra hx
    have := @round53_nonneg x (by omega)
    omega
  · intro hx
    unfold round53
    rw [if_pos hx]
    have := @round53Nat_pos x.natAbs (by omega)
    omega

theorem createTransactionF_code_iff (db : Db) (userId : Nat) (body : TransactionBody) :
    (createTransactionF db userId body).1.code? = some .INSUFFICIENT_FUNDS ↔
      (createTransaction db userId body).1.code? = some .INSUFFICIENT_FUNDS := by
  unfold createTransactionF createTransaction
  cases findAccount db body.accountId userId with
  | none => rfl
  | some account =>
    dsimp only
    cases findCategory db body.categoryId with
    | none => rfl
    | some category =>
      dsimp only
      simp only [round53_neg_iff]
      split_ifs <;> simp [Response.code?]

theorem duplicateTransactionF_code_iff (db : Db) (userId id : Nat) (body : DuplicateBody)
    (today : String) :
    (duplicateTransactionF db userId id body today).1.code? = some .INSUFFICIENT_FUNDS ↔
      (duplicateTransaction db userId id body today).1.code? = some .INSUFFICIENT_FUNDS := by
  unfold duplicateTransactionF duplicateTransaction
  cases findTransaction db id userId with
  | none => rfl
  | some source =>
    dsimp only
    cases findAccount db source.accountId userId with
    | none => rfl
    | some account =>
      dsimp only
      simp only [round53_neg_iff]
      split_ifs <;> simp [Response.code?]

/-- C11, as stated, fails once a category has been retyped: in the state reached by
recording an expense of 60000 from a checking account with 100000 and then updating its
category to type income, duplicating the expense fails with `INSUFFICIENT_FUNDS`, while
`createTransaction` with the account, category and amount of the source fails with
`CATEGORY_TYPE_MISMATCH`. -/
theorem duplicate_and_create_answers_differ :
    Reachable retypedExpenseDb ∧
    findTransaction retypedExpenseDb 1 1 =
      some retypedExpense ∧
    balanceOf retypedExpenseDb 1 = some 40000 ∧
    (duplicateTransactionF retypedExpenseDb 1 1 { date := none, description := none }
      "2024-03-02").1 = .failure 400 .INSUFFICIENT_FUNDS none ∧
    (createTransactionF retypedExpenseDb 1
      { description := "Loyer (copie)", amount := -60000, categoryId := 1, accountId := 1,
        date := "2024-03-02", notes := none }).1 =
      .failure 400 .CATEGORY_TYPE_MISMATCH none :=
  ⟨⟨retypedExpenseOps, rfl⟩, by decide, by decide, by decide, by decide⟩

/-- C11, amended: the funds rule of `duplicateTransaction` is the funds rule of
`createTransaction`.  For every source transaction of the caller, duplicating it fails
with `INSUFFICIENT_FUNDS` exactly when the account of the source is the caller's, the
amount is negative, the account is not a credit account and balance plus amount is
negative; `createTransaction` with the account, category and amount of the source, sent
as JSON numbers, fails with `INSUFFICIENT_FUNDS` exactly when, in addition, the category
exists and its type matches the sign of the amount, checks that `duplicateTransaction`
does not make.  The sums are made in double precision, whose rounding keeps the sign,
so the handlers with exact sums fail with `INSUFFICIENT_FUNDS` on the same calls. -/
theorem duplicate_funds_rule (db : Db) (userId id : Nat) (body : DuplicateBody)
    (today : String) (source : Transaction)
    (hsource : findTransaction db id userId = some source) :
    ((duplicateTransactionF db userId id body today).1.code? = some .INSUFFICIENT_FUNDS ↔
      ∃ account, findAccount db source.accountId userId = some account ∧
        source.amount < 0 ∧ account.type ≠ .credit ∧
        account.balance + source.amount < 0) ∧
    (∀ (description date : String) (notes : Option String),
      ((createTransactionF db userId
        { description := description, amount := source.amount,
          categoryId := source.categoryId, accountId := source.accountId, date := date,
          notes := notes }).1.code? = some .INSUFFICIENT_FUNDS ↔
        (∃ category, findCategory db source.categoryId = some category ∧
          signMatches source.amount category.type) ∧
        (duplicateTransactionF db userId id body today).1.code? =
          some .INSUFFICIENT_FUNDS)) ∧
    ((duplicateTransaction db userId id body today).1.code? = some .INSUFFICIENT_FUNDS ↔
      (duplicateTransactionF db userId id body today).1.code? =
        some .INSUFFICIENT_FUNDS) ∧
    (∀ request : TransactionBody,
      (createTransaction db userId request).1.code? = some .INSUFFICIENT_FUNDS ↔
        (createTransactionF db userId request).1.code? = some .INSUFFICIENT_FUNDS) := by
  have hdup := @duplicateTransaction_funds_iff db userId id body today source hsource
  have hdupF := duplicateTransactionF_code_iff db userId id body today
  refine ⟨hdupF.trans hdup, ?_, hdupF.symm,
    fun request => (createTransactionF_code_iff db userId request).symm⟩
  intro description date notes
  rw [createTransactionF_code_iff, createTransaction_code_insufficient_iff, hdupF, hdup]
  constructor
  · rintro ⟨account, category, hacc, hcat, hsign, hrest⟩
    exact ⟨⟨category, hcat, hsign⟩, account, hacc, hrest⟩
  · rintro ⟨⟨category, hcat, hsign⟩, account, hacc, hrest⟩
    exact ⟨account, category, hacc, hcat, hsign, hrest⟩

theorem duplicate_funds_rule_witness :
    findTransaction retypedExpenseDb 1 1 =
      some retypedExpense ∧
    ((duplicateTransactionF retypedExpenseDb 1 1 { date := none, description := none }
        "2024-03-02").1.code? = some .INSUFFICIENT_FUNDS ↔
      ∃ account, findAccount retypedExpenseDb retypedExpense.accountId 1 = some account ∧
        retypedExpense.amount < 0 ∧ account.type ≠ .credit ∧
        account.balance + retypedExpense.amount < 0) ∧
    (duplicateTransactionF retypedExpenseDb 1 1 { date := none, description := none }
        "2024-03-02").1.code? = some .INSUFFICIENT_FUNDS :=
  ⟨by decide,
    (duplicate_funds_rule retypedExpenseDb 1 1 { date := none, description := none }
      "2024-03-02" retypedExpense (by decide)).1,
    by decide⟩

/-! ### Overlap of budgets: the category and the order of the stored text -/

/-- C15, as stated, fails in two ways.  A stored window whose start is written with an
offset, after its end as text though before it as an instant, is reported as overlapping
a new window that it does not intersect: `createBudget` fails with `OVERLAPPING_BUDGET`
while no stored budget has `newStart <= existingEnd` and `newEnd >= existingStart`.  And
once the category of a stored budget has been retyped to income, a new budget whose
window intersects the stored one fails with `INVALID_CATEGORY_TYPE`, not with
`OVERLAPPING_BUDGET`. -/
theorem createBudget_overlap_iff_fails :
    Reachable offsetBudgetDb ∧
    createBudget offsetBudgetDb 1 eveningBody =
      (.failure 409 .OVERLAPPING_BUDGET none, offsetBudgetDb) ∧
    (¬ ∃ b ∈ offsetBudgetDb.budgets, b.userId = 1 ∧ b.categoryId = eveningBody.categoryId ∧
      textLe eveningBody.startDate b.endDate ∧ textLe b.startDate eveningBody.endDate) ∧
    validWindow eveningBody.startDate eveningBody.endDate ∧
    ¬ WindowsValid offsetBudgetDb ∧
    Reachable retypedBudgetDb ∧
    (createBudget retypedBudgetDb 1 (windowBody "2024-03-01" "2024-03-15")).1 =
      .failure 400 .INVALID_CATEGORY_TYPE none ∧
    (∃ b ∈ retypedBudgetDb.budgets, b.userId = 1 ∧
      b.categoryId = (windowBody "2024-03-01" "2024-03-15").categoryId ∧
      textLe "2024-03-01" b.endDate ∧ textLe b.startDate "2024-03-15") :=
  ⟨⟨offsetBudgetOps, rfl⟩, by decide, by decide, by decide, by decide,
    ⟨retypedBudgetOps, rfl⟩, by decide, by decide⟩

/-- C15, amended: budget overlap rejection.  With the end after the start, in the order
of the stored text, in the new window and in every stored window, `createBudget` fails
with `OVERLAPPING_BUDGET`, inserting nothing, exactly when the category of the request
exists with type expense and some stored budget of the same owner and category has
`newStart <= existingEnd` and `newEnd >= existingStart`; on such windows the three
clauses of the query are equivalent to this two-sided intersection test. -/
theorem createBudget_overlap_rejection_on_expense (db : Db) (userId : Nat)
    (body : BudgetBody)
    (hnew : validWindow body.startDate body.endDate) (hvalid : WindowsValid db) :
    (createBudget db userId body = (.failure 409 .OVERLAPPING_BUDGET none, db) ↔
      (∃ category, findCategory db body.categoryId = some category ∧
        category.type = .expense) ∧
      ∃ b ∈ db.budgets, b.userId = userId ∧ b.categoryId = body.categoryId ∧
        textLe body.startDate b.endDate ∧ textLe b.startDate body.endDate) ∧
    ((createBudget db userId body).1.code? = some .OVERLAPPING_BUDGET ↔
      createBudget db userId body = (.failure 409 .OVERLAPPING_BUDGET none, db)) ∧
    (∀ b ∈ db.budgets,
      (overlapClauses b body.startDate body.endDate ↔
        intersects b body.startDate body.endDate)) := by
  refine ⟨?_, ?_, fun b hb => overlapClauses_iff_intersects hnew (hvalid b hb)⟩
  · rw [createBudget_overlapping_iff]
    constructor
    · rintro ⟨c, hc, hce, b, hb, h1, h2, h3⟩
      exact ⟨⟨c, hc, hce⟩, b, hb, h1, h2,
        (overlapClauses_iff_intersects hnew (hvalid b hb)).mp h3⟩
    · rintro ⟨⟨c, hc, hce⟩, b, hb, h1, h2, h3⟩
      exact ⟨c, hc, hce, b, hb, h1, h2, overlapClauses_of_intersects h3⟩
  · constructor
    · intro h
      unfold createBudget at h ⊢
      cases hcat : findCategory db body.categoryId with
      | none => rw [hcat] at h; simp [Response.code?] at h
      | some category =>
        rw [hcat] at h
        dsimp only at h ⊢
        by_cases hexp : category.type ≠ .expense
        · rw [if_pos hexp] at h; simp [Response.code?] at h
        · rw [if_neg hexp] at h ⊢
          cases hfind : db.budgets.find? (fun b =>
              decide (b.userId = userId ∧ b.categoryId = body.categoryId ∧
                overlapClauses b body.startDate body.endDate)) with
          | none => rw [hfind] at h; simp [Response.code?] at h
          | some b => rfl
    · intro h
      rw [h]
      rfl

theorem createBudget_overlap_rejection_on_expense_witness :
    validWindow "2024-03-01" "2024-03-15" ∧ WindowsValid windowExampleDb ∧
    (createBudget windowExampleDb 1 (windowBody "2024-03-01" "2024-03-15")).1 =
      .failure 409 .OVERLAPPING_BUDGET none ∧
    (createBudget windowExampleDb 1 (windowBody "2024-03-15" "2024-03-31")).1 =
      .failure 409 .OVERLAPPING_BUDGET none ∧
    (createBudget windowExampleDb 1 (windowBody "2024-03-12" "2024-03-18")).1 =
      .failure 409 .OVERLAPPING_BUDGET none ∧
    (createBudget windowExampleDb 1 (windowBody "2024-03-01" "2024-03-31")).1 =
      .failure 409 .OVERLAPPING_BUDGET none ∧
    (createBudget windowExampleDb 1 (windowBody "2024-03-21" "2024-03-31")).1 =
      .success 201 2 ∧
    (createBudget windowExampleDb 2 (windowBody "2024-03-01" "2024-03-31")).1 =
      .success 201 2 ∧
    (createBudget windowExampleDb 1 (windowBody "2024-03-01" "2024-03-15") =
        (.failure 409 .OVERLAPPING_BUDGET none, windowExampleDb) ↔
      (∃ category,
        findCategory windowExampleDb (windowBody "2024-03-01" "2024-03-15").categoryId =
          some category ∧ category.type = .expense) ∧
      ∃ b ∈ windowExampleDb.budgets, b.userId = 1 ∧
        b.categoryId = (windowBody "2024-03-01" "2024-03-15").categoryId ∧
        textLe (windowBody "2024-03-01" "2024-03-15").startDate b.endDate ∧
        textLe b.startDate (windowBody "2024-03-01" "2024-03-15").endDate) :=
  ⟨by decide, by decide, by decide, by decide, by decide, by decide, by decide, by decide,
    (createBudget_overlap_rejection_on_expense windowExampleDb 1
      (windowBody "2024-03-01" "2024-03-15") (by decide) (by decide)).1⟩

/-- C17, as stated, fails on re-saving.  After the creation of a budget for a quarter of
an hour and of a second one whose start is written with an offset, after its end as text
though before it as an instant, no two budgets have intersecting windows, and re-saving
the first budget with its own values fails with `OVERLAPPING_BUDGET`.  And once the
category of a budget has been retyped to income, re-saving the budget with its own
values fails with `INVALID_CATEGORY_TYPE`. -/
theorem resave_fails :
    Reachable twoWindowsDb ∧
    NoOverlap twoWindowsDb ∧
    (twoWindowsDb.budgets.map (fun b => b.id)) = [1, 2] ∧
    (∃ b, findBudget twoWindowsDb 1 1 = some b ∧ b.toBody = eveningBody ∧
      updateBudget twoWindowsDb 1 1 b.toBody =
        (.failure 409 .OVERLAPPING_BUDGET none, twoWindowsDb)) ∧
    Reachable retypedBudgetDb ∧
    NoOverlap retypedBudgetDb ∧ WindowsValid retypedBudgetDb ∧
    (∃ b, findBudget retypedBudgetDb 1 1 = some b ∧
      updateBudget retypedBudgetDb 1 1 b.toBody =
        (.failure 400 .INVALID_CATEGORY_TYPE none, retypedBudgetDb)) :=
  ⟨⟨twoWindowsOps, rfl⟩, by decide, by decide,
    ⟨{ id := 1, userId := 1, categoryId := 1, amount := 50000, period := "weekly",
       startDate := "2024-03-14T23:30:00Z", endDate := "2024-03-14T23:45:00Z" },
      by decide, by decide, by decide⟩,
    ⟨retypedBudgetOps, rfl⟩, by decide, by decide,
    ⟨{ id := 1, userId := 1, categoryId := 1, amount := 50000, period := "monthly",
       startDate := "2024-03-10", endDate := "2024-03-20" }, by decide, by decide⟩⟩

/-- C26, amended: the period windows of the analytics.  `GET /analytics` maps `week`,
`month`, `quarter` and `year` to the last 7 days, the last month, the last 3 months and
the last year, and every other period, absent, unknown or `all`, to the last month: its
totals always run over the transactions of the user dated on or after the start of the
window.  In `GET /transactions/stats/period` the period `all` puts no date filter, and
the totals run over every transaction of the user. -/
theorem analytics_period_filter (period : Option String) :
    (period = some "week" → analyticsDateFilter period = .since "-7 days") ∧
    (period = some "month" ∨ period = none →
      analyticsDateFilter period = .since "-1 month") ∧
    (period = some "quarter" → analyticsDateFilter period = .since "-3 months") ∧
    (period = some "year" → analyticsDateFilter period = .since "-1 year") ∧
    (period ≠ some "week" → period ≠ some "quarter" → period ≠ some "year" →
      analyticsDateFilter period = .since "-1 month") ∧
    (∃ modifier, analyticsDateFilter period = .since modifier ∧
      ∀ (db : Db) (userId : Nat) (dateOf : String → String),
        generalStats db userId period dateOf =
          periodSums (db.transactions.filter
            (fun t => decide (t.userId = userId ∧ textLe (dateOf modifier) t.date)))) ∧
    (period = some "all" →
      ∀ (db : Db) (userId : Nat) (dateOf : String → String),
        periodTotals db userId period dateOf =
          .data 200 (periodSums
            (db.transactions.filter (fun t => decide (t.userId = userId))))) := by
  refine ⟨?_, ?_, ?_, ?_, ?_, ?_, ?_⟩
  · rintro rfl
    decide
  · rintro (rfl | rfl) <;> decide
  · rintro rfl
    decide
  · rintro rfl
    decide
  · intro hweek hquarter hyear
    cases period with
    | none => decide
    | some p =>
      have h1 : p ≠ "week" := fun h => hweek (congrArg some h)
      have h2 : p ≠ "quarter" := fun h => hquarter (congrArg some h)
      have h3 : p ≠ "year" := fun h => hyear (congrArg some h)
      unfold analyticsDateFilter
      simp only [Option.getD_some]
      rw [if_neg h1]
      split_ifs <;> rfl
  · have hsince : ∃ modifier, analyticsDateFilter period = .since modifier := by
      unfold analyticsDateFilter
      split_ifs <;> exact ⟨_, rfl⟩
    obtain ⟨modifier, hm⟩ := hsince
    refine ⟨modifier, hm, ?_⟩
    intro db userId dateOf
    unfold generalStats periodTransactions
    rw [hm]
    congr 1
  · rintro rfl
    intro db userId dateOf
    have hfilter : statsDateFilter (some "all") = .empty := by decide
    unfold periodTotals
    rw [hfilter]
    dsimp only
    unfold periodTransactions
    congr 3
    funext t
    simp [DateFilter.admits]

theorem analytics_period_filter_witness :
    (some "all" : Option String) ≠ some "week" ∧
    (some "all" : Option String) ≠ some "quarter" ∧
    (some "all" : Option String) ≠ some "year" ∧
    analyticsDateFilter (some "all") = .since "-1 month" ∧
    analyticsDateFilter (some "quarter") = .since "-3 months" ∧
    generalStats periodExampleDb 1 (some "all") march2024 = (1, 100000, 0) ∧
    periodTotals periodExampleDb 1 (some "all") march2024 =
      .data 200 (periodSums
        (periodExampleDb.transactions.filter (fun t => decide (t.userId = 1)))) :=
  ⟨by decide, by decide, by decide,
    (analytics_period_filter (some "all")).2.2.2.2.1 (by decide) (by decide) (by decide),
    (analytics_period_filter (some "quarter")).2.2.1 rfl, by decide,
    (analytics_period_filter (some "all")).2.2.2.2.2.2 rfl periodExampleDb 1 march2024⟩

end BudgetApp
